import Mathlib

/-!
# HDCP 2.2 session manager (drivers/misc/hdcp.c)

A shallow embedding of the HDCP 2.2 library state machine of
`drivers/misc/hdcp.c`, followed by theorems about it.

Conventions of the embedding.

* The session handle `struct hdcp_lib_handle` becomes the record
  `hdcp_lib_handle`; pointers that the code only tests against `NULL`
  become booleans (`true` = non-NULL), buffers become lists of bytes.
* Everything outside the file (the secure channel `qseecom_*` with the state
  of the handle pointer it leaves behind, the memory allocator, the client
  callback, the real-time outcome of the topology wait) is an oracle `Env`;
  each call takes the next answer of the oracle, selected by a per-kind call
  counter kept in `Sys`.
* `Sys.trace` is a ghost log of what the code does to the outside world, in
  chronological order: secure-channel commands (with the value of `hdcp_off`
  at the moment of the call) and client notifications.  A read through a NULL
  pointer is logged as `Event.fault` and ends the step.
* `uint32_t` fields are natural numbers: the code only copies them and
  compares them, it does no arithmetic on them.  A test `x < 0` on an
  unsigned field is kept as written; it is never true.
* Work items of the kthread worker run one at a time, each one atomically
  (`kthread_worker_step`); `kthread_worker_take` gives the session at the
  moment a step has been taken off the list and starts to run.
-/

namespace Hdcp

/-! ## Constants -/

abbrev MAX_TX_MESSAGE_SIZE : Nat := 129
abbrev MAX_RX_MESSAGE_SIZE : Nat := 534

abbrev MESSAGE_ID_SIZE : Nat := 1
abbrev BITS_64_IN_BYTES : Nat := 8
abbrev BITS_128_IN_BYTES : Nat := 16
abbrev LC_INIT_MESSAGE_SIZE : Nat := MESSAGE_ID_SIZE + BITS_64_IN_BYTES
abbrev SKE_SEND_EKS_MESSAGE_SIZE : Nat :=
  MESSAGE_ID_SIZE + BITS_128_IN_BYTES + BITS_64_IN_BYTES

abbrev AKE_SEND_CERT_MESSAGE_ID : Nat := 3
abbrev AKE_NO_STORED_KM_MESSAGE_ID : Nat := 4
abbrev AKE_STORED_KM_MESSAGE_ID : Nat := 5
abbrev AKE_SEND_H_PRIME_MESSAGE_ID : Nat := 7
abbrev AKE_SEND_PAIRING_INFO_MESSAGE_ID : Nat := 8
abbrev LC_INIT_MESSAGE_ID : Nat := 9
abbrev LC_SEND_L_PRIME_MESSAGE_ID : Nat := 10
abbrev SKE_SEND_EKS_MESSAGE_ID : Nat := 11
abbrev REPEATER_AUTH_SEND_RECEIVERID_LIST_MESSAGE_ID : Nat := 12
abbrev REPEATER_AUTH_SEND_ACK_MESSAGE_ID : Nat := 15
abbrev REPEATER_AUTH_STREAM_MANAGE_MESSAGE_ID : Nat := 16
abbrev REPEATER_AUTH_STREAM_READY_MESSAGE_ID : Nat := 17

abbrev HDCP_SUCCESS : Nat := 0

abbrev HDCP_TXMTR_SUBSTATE_INIT : Nat := 0
abbrev HDCP_TXMTR_SUBSTATE_WAITING_FOR_RECIEVERID_LIST : Nat := 1
abbrev HDCP_TXMTR_SUBSTATE_PROCESSED_RECIEVERID_LIST : Nat := 2
abbrev HDCP_TXMTR_SUBSTATE_WAITING_FOR_STREAM_READY_MESSAGE : Nat := 3
abbrev HDCP_TXMTR_SUBSTATE_REPEATER_AUTH_COMPLETE : Nat := 4

abbrev HDCP_TXMTR_SERVICE_ID : Nat := 0x0001000
abbrev SERVICE_TXMTR_CREATE_CMD (x : Nat) : Nat := HDCP_TXMTR_SERVICE_ID ||| x

abbrev HDCP_TXMTR_INIT : Nat := SERVICE_TXMTR_CREATE_CMD 1
abbrev HDCP_TXMTR_DEINIT : Nat := SERVICE_TXMTR_CREATE_CMD 2
abbrev HDCP_TXMTR_PROCESS_RECEIVED_MESSAGE : Nat := SERVICE_TXMTR_CREATE_CMD 3
abbrev HDCP_TXMTR_SEND_MESSAGE_TIMEOUT : Nat := SERVICE_TXMTR_CREATE_CMD 4
abbrev HDCP_TXMTR_SET_HW_KEY : Nat := SERVICE_TXMTR_CREATE_CMD 5
abbrev HDCP_TXMTR_QUERY_STREAM_TYPE : Nat := SERVICE_TXMTR_CREATE_CMD 6
abbrev HDCP_TXMTR_GET_KSXORLC128_AND_RIV : Nat := SERVICE_TXMTR_CREATE_CMD 7
abbrev HDCP_TXMTR_PROVISION_KEY : Nat := SERVICE_TXMTR_CREATE_CMD 8
abbrev HDCP_TXMTR_GET_TOPOLOGY_INFO : Nat := SERVICE_TXMTR_CREATE_CMD 9
abbrev HDCP_TXMTR_UPDATE_SRM : Nat := SERVICE_TXMTR_CREATE_CMD 10
abbrev HDCP_LIB_INIT : Nat := SERVICE_TXMTR_CREATE_CMD 11
abbrev HDCP_LIB_DEINIT : Nat := SERVICE_TXMTR_CREATE_CMD 12

/-- The `enum hdcp_state` bit masks. -/
abbrev HDCP_STATE_INIT : Nat := 0x00
abbrev HDCP_STATE_APP_LOADED : Nat := 0x01
abbrev HDCP_STATE_TXMTR_INIT : Nat := 0x02
abbrev HDCP_STATE_AUTHENTICATED : Nat := 0x04
abbrev HDCP_STATE_ERROR : Nat := 0x08

/-- The 32-bit complement `~m` of a mask, as used in `hdcp_state &= ~m`. -/
abbrev bitnot32 (m : Nat) : Nat := 0xFFFFFFFF ^^^ m

/-- Kernel errno values (`include/uapi/asm-generic/errno-base.h`). -/
abbrev ENOMEM : Int := 12
abbrev EBUSY : Int := 16
abbrev EINVAL : Int := 22

/-! ## Vocabulary of the two interfaces (`linux/hdcp_qseecom.h`) -/

/-- Modelled from the spec: `enum hdcp_lib_wakeup_cmd` is declared in
`linux/hdcp_qseecom.h`, which is missing here.  The client wakeup vocabulary
is start, stop, message-send-succeeded, message-send-failed,
message-receive-succeeded, message-receive-failed, message-receive-timeout
and query-stream-type; `HDCP_LIB_WKUP_CMD_INVALID` stands for every other
value, which reaches the `default:` label of the switch. -/
inductive hdcp_lib_wakeup_cmd
  | HDCP_LIB_WKUP_CMD_INVALID
  | HDCP_LIB_WKUP_CMD_START
  | HDCP_LIB_WKUP_CMD_STOP
  | HDCP_LIB_WKUP_CMD_MSG_SEND_SUCCESS
  | HDCP_LIB_WKUP_CMD_MSG_SEND_FAILED
  | HDCP_LIB_WKUP_CMD_MSG_RECV_SUCCESS
  | HDCP_LIB_WKUP_CMD_MSG_RECV_FAILED
  | HDCP_LIB_WKUP_CMD_MSG_RECV_TIMEOUT
  | HDCP_LIB_WKUP_CMD_QUERY_STREAM_TYPE
  deriving DecidableEq

/-- Modelled from the spec: `enum hdmi_hdcp_wakeup_cmd` is declared in
`linux/hdcp_qseecom.h`, which is missing here.  The notification codes are
send-message, receive-message, link-poll, status-success, status-failed and
invalid/none. -/
inductive hdmi_hdcp_wakeup_cmd
  | HDMI_HDCP_WKUP_CMD_INVALID
  | HDMI_HDCP_WKUP_CMD_SEND_MESSAGE
  | HDMI_HDCP_WKUP_CMD_RECV_MESSAGE
  | HDMI_HDCP_WKUP_CMD_STATUS_SUCCESS
  | HDMI_HDCP_WKUP_CMD_STATUS_FAILED
  | HDMI_HDCP_WKUP_CMD_LINK_POLL
  deriving DecidableEq

open hdcp_lib_wakeup_cmd hdmi_hdcp_wakeup_cmd

/-- The argument of the client callback, `struct hdmi_hdcp_wakeup_data`.
`send_msg_buf` holds the bytes the pointer refers to (`[]` for `NULL`). -/
structure hdmi_hdcp_wakeup_data where
  cmd : hdmi_hdcp_wakeup_cmd
  context : Nat
  send_msg_buf : List Nat
  send_msg_len : Nat
  timeout : Nat
  deriving DecidableEq

/-- The argument of `hdcp_lib_wakeup`, `struct hdcp_lib_wakeup_data`.
`context` tells whether the context pointer is non-NULL. -/
structure hdcp_lib_wakeup_data where
  context : Bool
  cmd : hdcp_lib_wakeup_cmd
  recvd_msg_buf : List Nat
  recvd_msg_len : Nat
  timeout : Nat
  deriving DecidableEq

/-! ## Secure channel requests and responses -/

/-- A request written to the shared buffer.  The request structures
(`hdcp_init_req`, `hdcp_deinit_req`, `hdcp_rcvd_msg_req`, ...) all start with
the command id; the fields a structure does not have are shown as 0 / empty
(the code does not write them), and so is the `ctxhandle` of the
HDCP_LIB_DEINIT request, which `hdcp_lib_library_unload` leaves as the shared
buffer held it. -/
structure TzReq where
  commandid : Nat
  ctxhandle : Nat
  msglen : Nat
  msg : List Nat
  deriving DecidableEq

/-- What the caller sees after `qseecom_send_command`: the return code `rc`
and the fields of the response structure found in the shared buffer
(`hdcp_init_rsp`, `hdcp_deinit_rsp`, `hdcp_rcvd_msg_rsp`, ...).  The fields a
structure does not have are ignored by the code reading it. -/
structure TzRsp where
  rc : Int
  status : Nat
  commandid : Nat
  ctxhandle : Nat
  timeout : Nat
  flag : Nat
  msglen : Nat
  msg : List Nat
  deriving DecidableEq

/-- The work items of the handle (`wk_init`, `wk_msg_sent`, ...). -/
inductive kthread_work
  | wk_init
  | wk_msg_sent
  | wk_msg_recvd
  | wk_timeout
  | wk_clean
  | wk_topology
  | wk_stream
  deriving DecidableEq

open kthread_work

/-! ## The session handle -/

/-- The embedding of `struct hdcp_lib_handle`.

* `client_ops` is true when `client_ops` and `client_ops->wakeup` are non-NULL;
* `qseecom_handle` is true when `qseecom_handle` and its `sbuf` are non-NULL;
* `last_msg_recvd_buf` is `none` for a NULL pointer;
* `hdcp_off` is the atomic flag (only 0 and 1 are ever stored);
* `work_list` is `worker.work_list`, oldest item first;
* `topo_wait` tells whether the completion is done. -/
structure hdcp_lib_handle where
  listener_buf : List Nat
  msglen : Nat
  tz_ctxhandle : Nat
  hdcp_timeout : Nat
  timeout_left : Nat
  no_stored_km_flag : Bool
  feature_supported : Bool
  client_ctx : Nat
  client_ops : Bool
  hdcp_state : Nat
  wakeup_cmd : hdcp_lib_wakeup_cmd
  repeater_flag : Bool
  update_stream : Bool
  tethered : Bool
  qseecom_handle : Bool
  last_msg_sent : Nat
  last_msg_recvd_buf : Option (List Nat)
  last_msg_recvd_len : Nat
  hdcp_off : Bool
  work_list : List kthread_work
  topo_wait : Bool
  deriving DecidableEq

/-! ## The outside world -/

/-- The answers of everything outside the file.  Each function is indexed by
the number of earlier calls of the same kind. -/
structure Env where
  /-- return code and response buffer of the n-th `qseecom_send_command` -/
  qseecom_send_command : Nat → TzReq → TzRsp
  /-- return code of the n-th `qseecom_start_app` -/
  qseecom_start_app : Nat → Int
  /-- whether the n-th `qseecom_start_app`, when it fails, leaves a non-NULL
  handle pointer behind -/
  qseecom_start_app_handle : Nat → Bool
  /-- return code of the n-th `qseecom_shutdown_app` -/
  qseecom_shutdown_app : Nat → Int
  /-- whether the n-th `qseecom_shutdown_app` leaves a non-NULL handle pointer
  behind -/
  qseecom_shutdown_app_handle : Nat → Bool
  /-- whether the n-th `kzalloc` returns memory -/
  kzalloc : Nat → Bool
  /-- return code of the n-th call of the client callback -/
  client_wakeup : Nat → hdmi_hdcp_wakeup_data → Int
  /-- whether the n-th topology wait is completed before its 3 s timeout -/
  topo_completed : Nat → Bool

/-- What the code does to the outside world. -/
inductive Event
  /-- A call of `qseecom_send_command` with this request; `off` is `hdcp_off` then -/
  | cmd (req : TzReq) (off : Bool)
  /-- A call of `qseecom_start_app` -/
  | start_app
  /-- A call of `qseecom_shutdown_app` -/
  | shutdown_app
  /-- A call of `client_ops->wakeup(data)` -/
  | notify (data : hdmi_hdcp_wakeup_data)
  /-- A read through a NULL pointer: the kernel faults and the step ends there -/
  | fault
  deriving DecidableEq

/-- The session together with the ghost log and the oracle counters. -/
structure Sys where
  handle : hdcp_lib_handle
  trace : List Event
  ncmd : Nat
  nstart : Nat
  nshut : Nat
  nalloc : Nat
  nwake : Nat
  ntopo : Nat
  deriving DecidableEq

/-! ## Helpers for buffers and bit masks -/

/-- The C test `state & mask` (non-zero is true). -/
def has_flag (state mask : Nat) : Bool := (state &&& mask) != 0

/-- The C update `state |= mask`. -/
def set_flag (state mask : Nat) : Nat := state ||| mask

/-- The C update `state &= ~mask`. -/
def clear_flag (state mask : Nat) : Nat := state &&& bitnot32 mask

/-- The first `n` bytes read from `src` (`memcpy(dst, src, n)` into a fresh
destination); bytes past the end of the list read as 0. -/
def memcpy (src : List Nat) (n : Nat) : List Nat :=
  (List.range n).map (fun i => src.getD i 0)

/-- The `listener_buf` after `memset(listener_buf, 0, MAX_TX_MESSAGE_SIZE)`
followed by `memcpy(listener_buf, src, n)`. -/
def fill_listener_buf (src : List Nat) (n : Nat) : List Nat :=
  memcpy src n ++ List.replicate (MAX_TX_MESSAGE_SIZE - n) 0

/-- The secure channel is called: the oracle answers, the command is logged
together with the current value of `hdcp_off`. -/
def qseecom_send_command (o : Env) (req : TzReq) (s : Sys) : TzRsp × Sys :=
  (o.qseecom_send_command s.ncmd req,
   { s with ncmd := s.ncmd + 1,
            trace := s.trace ++ [Event.cmd req s.handle.hdcp_off] })

/-- Modelled from the spec: `qseecom_start_app` lives in the qseecom driver,
which is missing here.  It loads the trusted application behind the opaque
secure channel.  The return code is an answer of the oracle; after a success
the handle pointer is valid (the code uses it unchecked), after a failure its
state is an answer of the oracle too. -/
def qseecom_start_app (o : Env) (s : Sys) : Int × Sys :=
  let rc := o.qseecom_start_app s.nstart
  (rc, { s with nstart := s.nstart + 1,
                trace := s.trace ++ [Event.start_app],
                handle := { s.handle with
                  qseecom_handle :=
                    if rc = 0 then true else o.qseecom_start_app_handle s.nstart } })

/-- Modelled from the spec: `qseecom_shutdown_app` lives in the qseecom
driver, which is missing here.  It releases the trusted application.  The
return code and the state of the handle pointer afterwards are answers of the
oracle. -/
def qseecom_shutdown_app (o : Env) (s : Sys) : Int × Sys :=
  let rc := o.qseecom_shutdown_app s.nshut
  (rc, { s with nshut := s.nshut + 1,
                trace := s.trace ++ [Event.shutdown_app],
                handle := { s.handle with
                  qseecom_handle := o.qseecom_shutdown_app_handle s.nshut } })

/-- Modelled from the spec: `queue_kthread_work` lives in kernel/kthread.c,
which is missing here.  The step is enqueued to the single worker and steps
run strictly in enqueue order; a work item is an intrusive list node (the code
tests `list_empty(&handle->wk_x.node)` for "queued"), so an item that is
already pending is not queued a second time. -/
def queue_kthread_work (w : kthread_work) (s : Sys) : Sys :=
  if w ∈ s.handle.work_list then s
  else { s with handle := { s.handle with work_list := s.handle.work_list ++ [w] } }

/-- The macro `HDCP_LIB_EXECUTE(x)`: run `hdcp_lib_x` now when tethered,
queue `wk_x` otherwise. -/
def HDCP_LIB_EXECUTE (f : Sys → Sys) (w : kthread_work) (s : Sys) : Sys :=
  if s.handle.tethered then f s else queue_kthread_work w s

/-! ## The functions of hdcp.c -/

def hdcp_lib_wakeup_client (o : Env) (data : hdmi_hdcp_wakeup_data) (s : Sys) : Sys :=
  if s.handle.client_ops = true ∧ data.cmd ≠ HDMI_HDCP_WKUP_CMD_INVALID then
    let rc := o.client_wakeup s.nwake data
    let s1 := { s with nwake := s.nwake + 1, trace := s.trace ++ [Event.notify data] }
    -- `if (rc) pr_err(...)`: the return code is only logged
    if rc ≠ 0 then s1 else s1
  else s

def hdcp_lib_send_message (o : Env) (s : Sys) : Sys :=
  hdcp_lib_wakeup_client o
    { cmd := HDMI_HDCP_WKUP_CMD_SEND_MESSAGE,
      context := s.handle.client_ctx,
      send_msg_buf := s.handle.listener_buf,
      send_msg_len := s.handle.msglen,
      timeout := s.handle.hdcp_timeout } s

def hdcp_lib_library_load (o : Env) (s : Sys) : Int × Sys :=
  if has_flag s.handle.hdcp_state HDCP_STATE_APP_LOADED = true then (0, s)
  else
    let a := qseecom_start_app o s
    if a.1 ≠ 0 then (a.1, a.2)
    else
      let r := qseecom_send_command o
        { commandid := HDCP_LIB_INIT, ctxhandle := 0, msglen := 0, msg := [] } a.2
      if r.1.rc < 0 then (r.1.rc, r.2)
      else
        (r.1.rc, { r.2 with handle := { r.2.handle with
          hdcp_state := set_flag r.2.handle.hdcp_state HDCP_STATE_APP_LOADED } })

def hdcp_lib_library_unload (o : Env) (s : Sys) : Int × Sys :=
  if s.handle.qseecom_handle = false then (-EINVAL, s)
  else if has_flag s.handle.hdcp_state HDCP_STATE_APP_LOADED = false then (0, s)
  else
    -- only req_buf->commandid is written: the `ctxhandle` field of the request
    -- keeps what the shared buffer held, and is shown as 0
    let r := qseecom_send_command o
      { commandid := HDCP_LIB_DEINIT, ctxhandle := 0, msglen := 0, msg := [] } s
    if r.1.rc < 0 then (r.1.rc, r.2)
    else
      let a := qseecom_shutdown_app o r.2
      if a.1 ≠ 0 then (a.1, a.2)
      else
        (a.1, { a.2 with handle := { a.2.handle with
          hdcp_state := clear_flag a.2.handle.hdcp_state HDCP_STATE_APP_LOADED } })

def hdcp_lib_txmtr_init (o : Env) (s : Sys) : Int × Sys :=
  if s.handle.qseecom_handle = false then (-EINVAL, s)
  else if has_flag s.handle.hdcp_state HDCP_STATE_APP_LOADED = false then (0, s)
  else if has_flag s.handle.hdcp_state HDCP_STATE_TXMTR_INIT = true then (0, s)
  else
    let r := qseecom_send_command o
      { commandid := HDCP_TXMTR_INIT, ctxhandle := 0, msglen := 0, msg := [] } s
    if r.1.rc < 0 ∨ r.1.status ≠ HDCP_SUCCESS ∨ r.1.commandid ≠ HDCP_TXMTR_INIT ∨
        r.1.msglen ≤ 0 then (-EINVAL, r.2)
    else
      (r.1.rc, { r.2 with handle := { r.2.handle with
        listener_buf := fill_listener_buf r.1.msg r.1.msglen,
        msglen := r.1.msglen,
        hdcp_timeout := r.1.timeout,
        tz_ctxhandle := r.1.ctxhandle,
        hdcp_state := set_flag r.2.handle.hdcp_state HDCP_STATE_TXMTR_INIT } })

def hdcp_lib_txmtr_deinit (o : Env) (s : Sys) : Int × Sys :=
  if s.handle.qseecom_handle = false then (-EINVAL, s)
  else if has_flag s.handle.hdcp_state HDCP_STATE_APP_LOADED = false then (0, s)
  else if has_flag s.handle.hdcp_state HDCP_STATE_TXMTR_INIT = false then (0, s)
  else
    let r := qseecom_send_command o
      { commandid := HDCP_TXMTR_DEINIT, ctxhandle := s.handle.tz_ctxhandle,
        msglen := 0, msg := [] } s
    if r.1.rc < 0 ∨ r.1.status < 0 ∨ r.1.commandid ≠ HDCP_TXMTR_DEINIT then
      (-EINVAL, r.2)
    else
      (r.1.rc, { r.2 with handle := { r.2.handle with
        hdcp_state := clear_flag r.2.handle.hdcp_state HDCP_STATE_TXMTR_INIT } })

def hdcp_lib_stream (o : Env) (s : Sys) : Sys :=
  if s.handle.qseecom_handle = false then s
  else if s.handle.hdcp_off = true then s
  else if s.handle.repeater_flag = false then s
  else
    let r := qseecom_send_command o
      { commandid := HDCP_TXMTR_QUERY_STREAM_TYPE, ctxhandle := s.handle.tz_ctxhandle,
        msglen := 0, msg := [] } s
    if r.1.rc < 0 ∨ r.1.status < 0 ∨ r.1.msglen ≤ 0 ∨
        r.1.commandid ≠ HDCP_TXMTR_QUERY_STREAM_TYPE then
      -- rc = -EINVAL; goto exit: nothing is sent
      r.2
    else
      let s1 : Sys := { r.2 with handle := { r.2.handle with
        listener_buf := fill_listener_buf r.1.msg r.1.msglen,
        hdcp_timeout := r.1.timeout,
        msglen := r.1.msglen } }
      if r.1.rc = 0 ∧ s1.handle.hdcp_off = false then hdcp_lib_send_message o s1 else s1

def hdcp_lib_query_stream_work (o : Env) (s : Sys) : Sys :=
  hdcp_lib_stream o s

def hdcp_lib_clean (o : Env) (s : Sys) : Sys :=
  let s1 := (hdcp_lib_txmtr_deinit o s).2
  let s2 := (hdcp_lib_library_unload o s1).2
  let cdata : hdmi_hdcp_wakeup_data :=
    { cmd := HDMI_HDCP_WKUP_CMD_STATUS_FAILED, context := s2.handle.client_ctx,
      send_msg_buf := [], send_msg_len := 0, timeout := 0 }
  let s3 := if s2.handle.hdcp_off = false then hdcp_lib_wakeup_client o cdata s2 else s2
  { s3 with handle := { s3.handle with hdcp_off := true } }

def hdcp_lib_cleanup_work (o : Env) (s : Sys) : Sys :=
  hdcp_lib_clean o s

/-- The code of `hdcp_lib_enable_encryption` at its label `error`. -/
def hdcp_lib_enable_encryption_error (o : Env) (s : Sys) : Sys :=
  if s.handle.hdcp_off = false then HDCP_LIB_EXECUTE (hdcp_lib_clean o) wk_clean s else s

def hdcp_lib_enable_encryption (o : Env) (s : Sys) : Int × Sys :=
  if s.handle.qseecom_handle = false then
    (-EINVAL, hdcp_lib_enable_encryption_error o s)
  else
    -- msleep(SLEEP_SET_HW_KEY_MS)
    let r := qseecom_send_command o
      { commandid := HDCP_TXMTR_SET_HW_KEY, ctxhandle := s.handle.tz_ctxhandle,
        msglen := 0, msg := [] } s
    if r.1.rc < 0 ∨ r.1.status < 0 then
      -- rc = -EINVAL; goto error
      (-EINVAL, hdcp_lib_enable_encryption_error o r.2)
    else
      (0, { r.2 with handle := { r.2.handle with
        hdcp_state := set_flag r.2.handle.hdcp_state HDCP_STATE_AUTHENTICATED } })

def hdcp_lib_client_feature_supported (o : Env) (s : Sys) : Bool × Sys :=
  if s.handle.feature_supported = true then (true, s)
  else
    let l := hdcp_lib_library_load o s
    if l.1 = 0 then
      let s1 : Sys := { l.2 with handle := { l.2.handle with feature_supported := true } }
      (true, (hdcp_lib_library_unload o s1).2)
    else (false, l.2)

/-- The function `hdcp_lib_check_worker_status` only prints debug messages. -/
def hdcp_lib_check_worker_status (s : Sys) : Sys := s

def hdcp_lib_check_valid_state (s : Sys) : Int :=
  if s.handle.wakeup_cmd = HDCP_LIB_WKUP_CMD_START then
    if s.handle.work_list ≠ [] then -EBUSY else 0
  else
    if s.handle.hdcp_off = true then
      -- pr_debug("hdcp2.2 session tearing down"); goto exit, with rc still 0
      0
    else if has_flag s.handle.hdcp_state HDCP_STATE_APP_LOADED = false then
      -- pr_debug("hdcp 2.2 app not loaded"); goto exit, with rc still 0
      0
    else 0

def hdcp_lib_update_exec_type (tethered : Bool) (s : Sys) : Sys :=
  if s.handle.tethered = tethered then s
  else { s with handle := { s.handle with tethered := tethered } }

def hdcp_lib_msg_sent (o : Env) (s : Sys) : Sys :=
  let cdata : hdmi_hdcp_wakeup_data :=
    { cmd := HDMI_HDCP_WKUP_CMD_INVALID, context := s.handle.client_ctx,
      send_msg_buf := [], send_msg_len := 0, timeout := 0 }
  if s.handle.last_msg_sent = SKE_SEND_EKS_MESSAGE_ID then
    let s1 :=
      if s.handle.repeater_flag = true then
        if s.handle.hdcp_off = false then queue_kthread_work wk_topology s else s
      else s
    let e := hdcp_lib_enable_encryption o s1
    if e.1 = 0 then
      let s2 := hdcp_lib_wakeup_client o
        { cdata with cmd := HDMI_HDCP_WKUP_CMD_STATUS_SUCCESS } e.2
      hdcp_lib_wakeup_client o { cdata with cmd := HDMI_HDCP_WKUP_CMD_LINK_POLL } s2
    else
      let s2 :=
        if e.2.handle.hdcp_off = false then HDCP_LIB_EXECUTE (hdcp_lib_clean o) wk_clean e.2
        else e.2
      hdcp_lib_wakeup_client o cdata s2
  else if s.handle.last_msg_sent = REPEATER_AUTH_SEND_ACK_MESSAGE_ID then
    if s.handle.update_stream = true then
      let s1 := HDCP_LIB_EXECUTE (hdcp_lib_stream o) wk_stream s
      let s2 : Sys := { s1 with handle := { s1.handle with update_stream := false } }
      hdcp_lib_wakeup_client o cdata s2
    else
      hdcp_lib_wakeup_client o { cdata with cmd := HDMI_HDCP_WKUP_CMD_LINK_POLL } s
  else
    hdcp_lib_wakeup_client o
      { cdata with cmd := HDMI_HDCP_WKUP_CMD_RECV_MESSAGE,
                   timeout := s.handle.timeout_left } s

def hdcp_lib_msg_sent_work (o : Env) (s : Sys) : Sys :=
  if s.handle.wakeup_cmd ≠ HDCP_LIB_WKUP_CMD_MSG_SEND_SUCCESS then s
  else hdcp_lib_msg_sent o s

def hdcp_lib_init (o : Env) (s : Sys) : Sys :=
  if s.handle.wakeup_cmd ≠ HDCP_LIB_WKUP_CMD_START then s
  else
    let l := hdcp_lib_library_load o s
    if l.1 ≠ 0 then HDCP_LIB_EXECUTE (hdcp_lib_clean o) wk_clean l.2
    else
      let t := hdcp_lib_txmtr_init o l.2
      if t.1 ≠ 0 then HDCP_LIB_EXECUTE (hdcp_lib_clean o) wk_clean t.2
      else hdcp_lib_send_message o t.2

def hdcp_lib_init_work (o : Env) (s : Sys) : Sys :=
  hdcp_lib_init o s

/-- The code of `hdcp_lib_timeout` at its label `error`. -/
def hdcp_lib_timeout_error (o : Env) (s : Sys) : Sys :=
  if s.handle.hdcp_off = false then HDCP_LIB_EXECUTE (hdcp_lib_clean o) wk_clean s else s

def hdcp_lib_timeout (o : Env) (s : Sys) : Sys :=
  if s.handle.qseecom_handle = false then s
  else if s.handle.hdcp_off = true then s
  else
    let r := qseecom_send_command o
      { commandid := HDCP_TXMTR_SEND_MESSAGE_TIMEOUT, ctxhandle := s.handle.tz_ctxhandle,
        msglen := 0, msg := [] } s
    if r.1.rc < 0 ∨ r.1.status ≠ HDCP_SUCCESS then hdcp_lib_timeout_error o r.2
    else if r.1.commandid = HDCP_TXMTR_SEND_MESSAGE_TIMEOUT then hdcp_lib_timeout_error o r.2
    else if r.1.commandid = HDCP_TXMTR_PROCESS_RECEIVED_MESSAGE ∧
        r.1.msg.getD 0 0 = LC_INIT_MESSAGE_ID ∧ r.1.msglen = LC_INIT_MESSAGE_SIZE then
      if r.2.handle.hdcp_off = false then
        hdcp_lib_send_message o
          { r.2 with handle := { r.2.handle with
            listener_buf := fill_listener_buf r.1.msg r.1.msglen,
            hdcp_timeout := r.1.timeout,
            msglen := r.1.msglen } }
      else r.2
    else r.2

def hdcp_lib_manage_timeout_work (o : Env) (s : Sys) : Sys :=
  hdcp_lib_timeout o s

/-- The code of `hdcp_lib_msg_recvd` at its label `exit`, entered with the
return code `rc` and the notification `cdata` prepared so far: the client is
woken up (nothing is sent for `HDMI_HDCP_WKUP_CMD_INVALID`), then the session
is torn down if `rc` is non-zero and `hdcp_off` is clear. -/
def hdcp_lib_msg_recvd_exit (o : Env) (rc : Int) (cdata : hdmi_hdcp_wakeup_data)
    (s : Sys) : Sys :=
  let s1 := hdcp_lib_wakeup_client o cdata s
  if rc ≠ 0 ∧ s1.handle.hdcp_off = false then
    HDCP_LIB_EXECUTE (hdcp_lib_clean o) wk_clean s1
  else s1

/-- The part of `hdcp_lib_msg_recvd` after `qseecom_send_command` has
returned: `msg` is the local copy of the received message, `rsp` what the
secure channel answered, `cdata` the notification prepared so far. -/
def hdcp_lib_msg_recvd_rsp (o : Env) (cdata : hdmi_hdcp_wakeup_data) (msg : List Nat)
    (rsp : TzRsp) (s : Sys) : Sys :=
  if msg.getD 0 0 = AKE_SEND_H_PRIME_MESSAGE_ID ∧ s.handle.no_stored_km_flag = true then
    -- get next message from sink if we receive H PRIME on no store km
    hdcp_lib_msg_recvd_exit o rsp.rc
      { cdata with cmd := HDMI_HDCP_WKUP_CMD_RECV_MESSAGE, timeout := rsp.timeout }
      { s with handle := { s.handle with hdcp_timeout := rsp.timeout } }
  else if msg.getD 0 0 = REPEATER_AUTH_STREAM_READY_MESSAGE_ID ∧
      rsp.rc = 0 ∧ rsp.status = 0 then
    hdcp_lib_msg_recvd_exit o rsp.rc { cdata with cmd := HDMI_HDCP_WKUP_CMD_LINK_POLL } s
  else if rsp.rc < 0 ∨ rsp.status < 0 ∨ rsp.msglen ≤ 0 ∨
      rsp.commandid ≠ HDCP_TXMTR_PROCESS_RECEIVED_MESSAGE then
    -- rc = -EINVAL; goto exit
    hdcp_lib_msg_recvd_exit o (-EINVAL) cdata s
  else
    -- set the flag if response is AKE_No_Stored_km
    let nskm : Bool := decide (rsp.msg.getD 0 0 = AKE_NO_STORED_KM_MESSAGE_ID)
    -- check if it is a repeater
    let is_ske : Bool := decide (rsp.msg.getD 0 0 = SKE_SEND_EKS_MESSAGE_ID ∧
      rsp.msglen = SKE_SEND_EKS_MESSAGE_SIZE)
    let is_rep : Bool := decide
      (rsp.flag = HDCP_TXMTR_SUBSTATE_WAITING_FOR_RECIEVERID_LIST ∧ rsp.timeout > 0)
    let s1 : Sys := { s with handle := { s.handle with
      no_stored_km_flag := nskm,
      -- `if (flag == ... && timeout > 0) repeater_flag = true;` then, not
      -- guarded by that `if`, `update_stream = true;`
      repeater_flag := if is_ske = true ∧ is_rep = true then true else s.handle.repeater_flag,
      update_stream := if is_ske = true then true else s.handle.update_stream,
      listener_buf := fill_listener_buf rsp.msg rsp.msglen,
      hdcp_timeout := rsp.timeout,
      msglen := rsp.msglen } }
    let cdata1 : hdmi_hdcp_wakeup_data :=
      if s1.handle.hdcp_off = false then
        { cdata with cmd := HDMI_HDCP_WKUP_CMD_SEND_MESSAGE,
                     send_msg_buf := s1.handle.listener_buf,
                     send_msg_len := s1.handle.msglen,
                     timeout := s1.handle.hdcp_timeout }
      else cdata
    hdcp_lib_msg_recvd_exit o rsp.rc cdata1 s1

def hdcp_lib_msg_recvd (o : Env) (s : Sys) : Sys :=
  if s.handle.qseecom_handle = false then s
  else if s.handle.hdcp_off = true then s
  else
    let cdata : hdmi_hdcp_wakeup_data :=
      { cmd := HDMI_HDCP_WKUP_CMD_INVALID, context := s.handle.client_ctx,
        send_msg_buf := [], send_msg_len := 0, timeout := 0 }
    let msglen := s.handle.last_msg_recvd_len
    if msglen ≤ 0 then hdcp_lib_msg_recvd_exit o (-EINVAL) cdata s
    else
      -- msg = kzalloc(msglen, GFP_KERNEL)
      let s0 : Sys := { s with nalloc := s.nalloc + 1 }
      if o.kzalloc s.nalloc = false then hdcp_lib_msg_recvd_exit o (-ENOMEM) cdata s0
      else
        -- memcpy(msg, handle->last_msg_recvd_buf, msglen)
        match s.handle.last_msg_recvd_buf with
        | none =>
          -- the buffer is NULL (a wakeup call could not allocate it): the copy
          -- faults, nothing is sent and the step ends here
          { s0 with trace := s0.trace ++ [Event.fault] }
        | some buf =>
          let msg := memcpy buf msglen
          let r := qseecom_send_command o
            { commandid := HDCP_TXMTR_PROCESS_RECEIVED_MESSAGE,
              ctxhandle := s.handle.tz_ctxhandle, msglen := msglen, msg := msg } s0
          hdcp_lib_msg_recvd_rsp o cdata msg r.1 r.2

def hdcp_lib_msg_recvd_work (o : Env) (s : Sys) : Sys :=
  hdcp_lib_msg_recvd o s

/-- The wait of `hdcp_lib_topology_work`: `reinit_completion(&topo_wait)`
followed by `wait_for_completion_timeout(&topo_wait, HZ * 3)`.  The oracle
tells whether a wakeup call completes the wait in time; afterwards `topo_wait`
is done exactly in that case. -/
def hdcp_lib_topology_wait (o : Env) (s : Sys) : Sys :=
  { s with ntopo := s.ntopo + 1,
           handle := { s.handle with topo_wait := o.topo_completed s.ntopo } }

def hdcp_lib_topology_work (o : Env) (s : Sys) : Sys :=
  let s1 := hdcp_lib_topology_wait o s
  -- `if (!timeout)`: the wait timed out
  if s1.handle.topo_wait = false then
    if s1.handle.hdcp_off = false then HDCP_LIB_EXECUTE (hdcp_lib_clean o) wk_clean s1
    else s1
  else s1

/-- The `switch (handle->wakeup_cmd)` of `hdcp_lib_wakeup`. -/
def hdcp_lib_wakeup_switch (o : Env) (s : Sys) : Sys :=
  match s.handle.wakeup_cmd with
  | HDCP_LIB_WKUP_CMD_START =>
    HDCP_LIB_EXECUTE (hdcp_lib_init o) wk_init
      { s with handle := { s.handle with
        no_stored_km_flag := false,
        repeater_flag := false,
        update_stream := false,
        last_msg_sent := 0,
        hdcp_timeout := 0,
        timeout_left := 0,
        hdcp_off := false,
        hdcp_state := HDCP_STATE_INIT } }
  | HDCP_LIB_WKUP_CMD_STOP =>
    HDCP_LIB_EXECUTE (hdcp_lib_clean o) wk_clean
      { s with handle := { s.handle with hdcp_off := true } }
  | HDCP_LIB_WKUP_CMD_MSG_SEND_SUCCESS =>
    HDCP_LIB_EXECUTE (hdcp_lib_msg_sent o) wk_msg_sent
      { s with handle := { s.handle with last_msg_sent := s.handle.listener_buf.getD 0 0 } }
  | HDCP_LIB_WKUP_CMD_MSG_SEND_FAILED => HDCP_LIB_EXECUTE (hdcp_lib_clean o) wk_clean s
  | HDCP_LIB_WKUP_CMD_MSG_RECV_FAILED => HDCP_LIB_EXECUTE (hdcp_lib_clean o) wk_clean s
  | HDCP_LIB_WKUP_CMD_MSG_RECV_SUCCESS => HDCP_LIB_EXECUTE (hdcp_lib_msg_recvd o) wk_msg_recvd s
  | HDCP_LIB_WKUP_CMD_MSG_RECV_TIMEOUT => HDCP_LIB_EXECUTE (hdcp_lib_timeout o) wk_timeout s
  | HDCP_LIB_WKUP_CMD_QUERY_STREAM_TYPE => HDCP_LIB_EXECUTE (hdcp_lib_stream o) wk_stream s
  | HDCP_LIB_WKUP_CMD_INVALID => s

/-- The session after `hdcp_lib_wakeup` has recorded the command and the
timeout of the call (`handle->wakeup_cmd = data->cmd; handle->timeout_left =
data->timeout`). -/
def hdcp_lib_wakeup_record (d : hdcp_lib_wakeup_data) (s : Sys) : Sys :=
  { s with handle := { s.handle with wakeup_cmd := d.cmd, timeout_left := d.timeout } }

def hdcp_lib_wakeup (o : Env) (data : Option hdcp_lib_wakeup_data) (s : Sys) : Int × Sys :=
  match data with
  | none => (-EINVAL, s)
  | some d =>
    if d.context = false then (-EINVAL, s)
    else
      let s1 := hdcp_lib_wakeup_record d s
      if hdcp_lib_check_valid_state s1 ≠ 0 then (hdcp_lib_check_valid_state s1, s1)
      else if d.recvd_msg_len ≠ 0 then
        -- under msg_lock: the old copy is freed, the length recorded, a new
        -- buffer allocated
        if o.kzalloc s1.nalloc = false then
          (-ENOMEM, { s1 with nalloc := s1.nalloc + 1,
                              handle := { s1.handle with
                                last_msg_recvd_len := d.recvd_msg_len,
                                last_msg_recvd_buf := none } })
        else
          -- the message is copied; then complete_all(&topo_wait) and the switch
          (0, hdcp_lib_wakeup_switch o
            { s1 with nalloc := s1.nalloc + 1,
                      handle := { s1.handle with
                        last_msg_recvd_len := d.recvd_msg_len,
                        last_msg_recvd_buf := some (memcpy d.recvd_msg_buf d.recvd_msg_len),
                        topo_wait := true } })
      else
        (0, hdcp_lib_wakeup_switch o { s1 with handle := { s1.handle with topo_wait := true } })

/-- The function each work item was initialised with in
`hdcp_library_register`. -/
def kthread_work_func (o : Env) : kthread_work → Sys → Sys
  | wk_init => hdcp_lib_init_work o
  | wk_msg_sent => hdcp_lib_msg_sent_work o
  | wk_msg_recvd => hdcp_lib_msg_recvd_work o
  | wk_timeout => hdcp_lib_manage_timeout_work o
  | wk_clean => hdcp_lib_cleanup_work o
  | wk_topology => hdcp_lib_topology_work o
  | wk_stream => hdcp_lib_query_stream_work o

/-- The session after the worker has taken the oldest item off its list. -/
def kthread_worker_pop (s : Sys) : Sys :=
  { s with handle := { s.handle with work_list := s.handle.work_list.tail } }

/-- Modelled from the spec: `kthread_worker_fn` lives in kernel/kthread.c,
which is missing here.  The dedicated worker takes the oldest queued step off
the list and runs it; steps execute strictly in enqueue order. -/
def kthread_worker_step (o : Env) (s : Sys) : Sys :=
  match s.handle.work_list with
  | [] => s
  | w :: _ => kthread_work_func o w (kthread_worker_pop s)

/-- Run at most `fuel` queued steps. -/
def kthread_worker_run (o : Env) : Nat → Sys → Sys
  | 0, s => s
  | fuel + 1, s => kthread_worker_run o fuel (kthread_worker_step o s)

/-- The handle `hdcp_library_register` creates (`kzalloc` zeroes every field)
for a client with context `client_ctx`, callbacks `client_ops` and execution
mode `tethered`, together with an empty log. -/
def hdcp_library_register (client_ctx : Nat) (client_ops : Bool) (tethered : Bool) : Sys :=
  { handle :=
      { listener_buf := List.replicate MAX_TX_MESSAGE_SIZE 0,
        msglen := 0,
        tz_ctxhandle := 0,
        hdcp_timeout := 0,
        timeout_left := 0,
        no_stored_km_flag := false,
        feature_supported := false,
        client_ctx := client_ctx,
        client_ops := client_ops,
        hdcp_state := HDCP_STATE_INIT,
        wakeup_cmd := HDCP_LIB_WKUP_CMD_INVALID,
        repeater_flag := false,
        update_stream := false,
        tethered := tethered,
        qseecom_handle := false,
        last_msg_sent := 0,
        last_msg_recvd_buf := none,
        last_msg_recvd_len := 0,
        hdcp_off := false,
        work_list := [],
        topo_wait := false },
    trace := [],
    ncmd := 0, nstart := 0, nshut := 0, nalloc := 0, nwake := 0, ntopo := 0 }

/-- The session states the client can bring about: registration, then any
sequence of wakeup calls, worker steps, feature-support queries and
execution-mode updates. -/
inductive Reachable (o : Env) : Sys → Prop
  | register (client_ctx : Nat) (client_ops tethered : Bool) :
      Reachable o (hdcp_library_register client_ctx client_ops tethered)
  | wakeup (s : Sys) (data : Option hdcp_lib_wakeup_data) :
      Reachable o s → Reachable o (hdcp_lib_wakeup o data s).2
  | worker (s : Sys) :
      Reachable o s → Reachable o (kthread_worker_step o s)
  | feature_supported (s : Sys) :
      Reachable o s → Reachable o (hdcp_lib_client_feature_supported o s).2
  | update_exec_type (s : Sys) (tethered : Bool) :
      Reachable o s → Reachable o (hdcp_lib_update_exec_type tethered s)

/-! ## Observations on the log -/

/-- The client notifications among a list of events, oldest first. -/
def notifications : List Event → List hdmi_hdcp_wakeup_data
  | [] => []
  | Event.notify d :: es => d :: notifications es
  | Event.cmd _ _ :: es => notifications es
  | Event.start_app :: es => notifications es
  | Event.shutdown_app :: es => notifications es
  | Event.fault :: es => notifications es

/-- The notification codes among a list of events, oldest first. -/
def notified (es : List Event) : List hdmi_hdcp_wakeup_cmd :=
  (notifications es).map (fun d => d.cmd)

/-- The secure-channel commands among a list of events, oldest first, each
with the value of `hdcp_off` when it was issued. -/
def commands : List Event → List (TzReq × Bool)
  | [] => []
  | Event.cmd r off :: es => (r, off) :: commands es
  | Event.notify _ :: es => commands es
  | Event.start_app :: es => commands es
  | Event.shutdown_app :: es => commands es
  | Event.fault :: es => commands es

/-- The events of `s2` that were logged after `s1`. -/
def new_events (s1 s2 : Sys) : List Event := s2.trace.drop s1.trace.length

/-! ## Sample environments and inputs -/

/-- A response with return code 0, status 0 and the given command id. -/
def rsp_ok (commandid : Nat) : TzRsp :=
  { rc := 0, status := 0, commandid := commandid, ctxhandle := 0, timeout := 0, flag := 0,
    msglen := 0, msg := [] }

/-- An outside world in which every call succeeds, the secure channel echoes
the command id, and a released handle pointer is NULL. -/
def env_echo : Env :=
  { qseecom_send_command := fun _ req => rsp_ok req.commandid,
    qseecom_start_app := fun _ => 0,
    qseecom_start_app_handle := fun _ => false,
    qseecom_shutdown_app := fun _ => 0,
    qseecom_shutdown_app_handle := fun _ => false,
    kzalloc := fun _ => true,
    client_wakeup := fun _ _ => 0,
    topo_completed := fun _ => true }

/-- A wakeup call with the given command, no received message, timeout 0. -/
def wakeup_data (cmd : hdcp_lib_wakeup_cmd) : hdcp_lib_wakeup_data :=
  { context := true, cmd := cmd, recvd_msg_buf := [], recvd_msg_len := 0, timeout := 0 }

/-- A response with return code 0 and status 0 that echoes the command id
and carries the one-byte message AKE_Init (id 2), context handle 7 and a
timeout of 100 ms. -/
def rsp_msg (commandid : Nat) : TzRsp :=
  { rc := 0, status := 0, commandid := commandid, ctxhandle := 7, timeout := 100, flag := 0,
    msglen := 1, msg := [2] }

/-- An outside world in which every call succeeds and every secure-channel
response is `rsp_msg`. -/
def env_session : Env :=
  { env_echo with qseecom_send_command := fun _ req => rsp_msg req.commandid }

/-- The tethered session after registration and a successful wakeup(START)
in `env_session`. -/
def sys_session : Sys :=
  (hdcp_lib_wakeup env_session (some (wakeup_data HDCP_LIB_WKUP_CMD_START))
    (hdcp_library_register 0 true true)).2

/-- An outside world in which the session starts (the first two commands,
HDCP_LIB_INIT and HDCP_TXMTR_INIT, succeed; the first message is AKE_Init),
the next two commands fail in transport, and everything after succeeds. -/
def env_retry : Env :=
  { env_session with
    qseecom_send_command := fun n req =>
      if n = 2 ∨ n = 3 then { rsp_ok req.commandid with rc := -1 }
      else rsp_msg req.commandid }

/-- The tethered session after registration and a successful wakeup(START)
in `env_retry`. -/
def sys_started : Sys :=
  (hdcp_lib_wakeup env_retry (some (wakeup_data HDCP_LIB_WKUP_CMD_START))
    (hdcp_library_register 0 true true)).2

/-- The session `sys_session` after a feature-support query. -/
def sys_queried : Sys :=
  (hdcp_lib_client_feature_supported env_session sys_session).2

/-- An outside world like `env_session` except that the third command (the
HDCP_TXMTR_DEINIT of the first teardown) fails in transport. -/
def env_deinit_fails : Env :=
  { env_session with
    qseecom_send_command := fun n req =>
      if n = 2 then { rsp_ok req.commandid with rc := -1 }
      else rsp_msg req.commandid }

/-- The tethered session after registration, a successful wakeup(START) and
a wakeup(STOP) in `env_deinit_fails`. -/
def sys_stopped : Sys :=
  (hdcp_lib_wakeup env_deinit_fails (some (wakeup_data HDCP_LIB_WKUP_CMD_STOP))
    (hdcp_lib_wakeup env_deinit_fails (some (wakeup_data HDCP_LIB_WKUP_CMD_START))
      (hdcp_library_register 0 true true)).2).2

/-! ## Reachability and the invariant of C6 -/

/-- The invariant of C6: the transmitter is initialised only while the
application is loaded. -/
def txmtr_needs_app (s : Sys) : Prop :=
  has_flag s.handle.hdcp_state HDCP_STATE_TXMTR_INIT = true →
    has_flag s.handle.hdcp_state HDCP_STATE_APP_LOADED = true

/-- The secure channel accepts every HDCP_TXMTR_DEINIT command: the transport
succeeds and the response echoes the command id. -/
def deinit_accepted (o : Env) : Prop :=
  ∀ n req, req.commandid = HDCP_TXMTR_DEINIT →
    0 ≤ (o.qseecom_send_command n req).rc ∧
    (o.qseecom_send_command n req).commandid = HDCP_TXMTR_DEINIT

/-- The session states of `Reachable` in which every feature-support query is
made while the transmitter is not initialised (or after an earlier query has
already answered). -/
inductive ReachableQueryIdle (o : Env) : Sys → Prop
  | register (client_ctx : Nat) (client_ops tethered : Bool) :
      ReachableQueryIdle o (hdcp_library_register client_ctx client_ops tethered)
  | wakeup (s : Sys) (data : Option hdcp_lib_wakeup_data) :
      ReachableQueryIdle o s → ReachableQueryIdle o (hdcp_lib_wakeup o data s).2
  | worker (s : Sys) :
      ReachableQueryIdle o s → ReachableQueryIdle o (kthread_worker_step o s)
  | feature_supported (s : Sys) :
      ReachableQueryIdle o s →
      (s.handle.feature_supported = true ∨
        has_flag s.handle.hdcp_state HDCP_STATE_TXMTR_INIT = false) →
      ReachableQueryIdle o (hdcp_lib_client_feature_supported o s).2
  | update_exec_type (s : Sys) (tethered : Bool) :
      ReachableQueryIdle o s → ReachableQueryIdle o (hdcp_lib_update_exec_type tethered s)

/-! ## The session at the start of `hdcp_lib_init` -/

/-- The session as `hdcp_lib_wakeup` hands it to `hdcp_lib_init` for an
accepted START: `len`, `buf` and `na` are the stored received message and the
allocation counter after the prologue. -/
def start_state (s : Sys) (len : Nat) (buf : Option (List Nat)) (na : Nat) : Sys :=
  { s with
    nalloc := na,
    handle := { s.handle with
      wakeup_cmd := HDCP_LIB_WKUP_CMD_START,
      last_msg_recvd_len := len,
      last_msg_recvd_buf := buf,
      topo_wait := true,
      no_stored_km_flag := false,
      repeater_flag := false,
      update_stream := false,
      last_msg_sent := 0,
      hdcp_timeout := 0,
      timeout_left := 0,
      hdcp_off := false,
      hdcp_state := HDCP_STATE_INIT } }

/-- An outside world like `env_session` in which the first message is
SKE_Send_Eks (id 11) and every command after the first two fails in
transport. -/
def env_key_fails : Env :=
  { env_session with
    qseecom_send_command := fun n req =>
      if n < 2 then { rsp_msg req.commandid with msg := [11] }
      else { rsp_ok req.commandid with rc := -1 } }

/-- The tethered session after registration and a successful wakeup(START)
in `env_key_fails`, with SKE_Send_Eks recorded as the message sent. -/
def sys_key_sent : Sys :=
  { (hdcp_lib_wakeup env_key_fails (some (wakeup_data HDCP_LIB_WKUP_CMD_START))
      (hdcp_library_register 0 true true)).2 with
    handle := { (hdcp_lib_wakeup env_key_fails (some (wakeup_data HDCP_LIB_WKUP_CMD_START))
      (hdcp_library_register 0 true true)).2.handle with last_msg_sent := 11 } }

/-! ## Received messages -/

/-- The request `hdcp_lib_msg_recvd` sends for the stored received message.
With a NULL buffer the step faults before it sends anything; the request is
then shown without a message. -/
def rcvd_msg_req (s : Sys) : TzReq :=
  { commandid := HDCP_TXMTR_PROCESS_RECEIVED_MESSAGE,
    ctxhandle := s.handle.tz_ctxhandle,
    msglen := s.handle.last_msg_recvd_len,
    msg :=
      match s.handle.last_msg_recvd_buf with
      | some buf => memcpy buf s.handle.last_msg_recvd_len
      | none => [] }

/-- The session right after `hdcp_lib_msg_recvd` has allocated its copy of the
received message and called the secure channel. -/
def rcvd_msg_sent (o : Env) (s : Sys) : Sys :=
  (qseecom_send_command o (rcvd_msg_req s) { s with nalloc := s.nalloc + 1 }).2

/-- The session holding `msg` as the last message received from the sink, as
`hdcp_lib_wakeup` stores it. -/
def with_recvd_msg (msg : List Nat) (s : Sys) : Sys :=
  { s with handle := { s.handle with
      last_msg_recvd_buf := some msg, last_msg_recvd_len := msg.length } }

/-- An outside world like `env_session` except for the process-received-message
command: for the message AKE_Send_H_prime (id 7) the transport fails and the
response buffer holds a timeout of 55 ms; for any other message the transport
succeeds and the response has status 1, the right command id and the one-byte
message AKE_No_Stored_km (id 4). -/
def env_recv : Env :=
  { env_session with
    qseecom_send_command := fun _ req =>
      if req.commandid = HDCP_TXMTR_PROCESS_RECEIVED_MESSAGE then
        if req.msg = [7] then
          { rsp_ok HDCP_TXMTR_PROCESS_RECEIVED_MESSAGE with rc := -1, timeout := 55 }
        else
          { rsp_msg HDCP_TXMTR_PROCESS_RECEIVED_MESSAGE with status := 1, msg := [4] }
      else rsp_msg req.commandid }

/-- The session `sys_session` after `hdcp_lib_msg_recvd` has processed the
received message AKE_Send_Cert (id 3) in `env_recv`. -/
def sys_cert_processed : Sys :=
  hdcp_lib_msg_recvd env_recv (with_recvd_msg [3] sys_session)

/-- An outside world like `env_session` in which the responses do not echo the
command: the library-load response has status 1 and command id 0, the
query-stream-type response has command id 0, and the send-message-timeout
response carries the id HDCP_TXMTR_PROCESS_RECEIVED_MESSAGE and a 9-byte
LC_Init message. -/
def env_mismatch : Env :=
  { env_session with
    qseecom_send_command := fun _ req =>
      if req.commandid = HDCP_LIB_INIT then { rsp_msg 0 with status := 1 }
      else if req.commandid = HDCP_TXMTR_QUERY_STREAM_TYPE then rsp_msg 0
      else if req.commandid = HDCP_TXMTR_SEND_MESSAGE_TIMEOUT then
        { rsp_msg HDCP_TXMTR_PROCESS_RECEIVED_MESSAGE with
          msglen := 9, msg := [9, 1, 2, 3, 4, 5, 6, 7, 8] }
      else rsp_msg req.commandid }

/-- The tethered session after registration and a wakeup(START) in
`env_mismatch`. -/
def sys_mismatch : Sys :=
  (hdcp_lib_wakeup env_mismatch (some (wakeup_data HDCP_LIB_WKUP_CMD_START))
    (hdcp_library_register 0 true true)).2

/-- The session `sys_mismatch` with the repeater flag set. -/
def sys_mismatch_repeater : Sys :=
  { sys_mismatch with handle := { sys_mismatch.handle with repeater_flag := true } }

/-- An outside world like `env_session` in which the secure channel answers a
received message with the 25-byte SKE_Send_Eks message (id 11) and the
HDCP_LIB_DEINIT command fails in transport. -/
def env_stale : Env :=
  { env_session with
    qseecom_send_command := fun _ req =>
      if req.commandid = HDCP_TXMTR_PROCESS_RECEIVED_MESSAGE then
        { rsp_msg HDCP_TXMTR_PROCESS_RECEIVED_MESSAGE with
          msglen := 25, msg := 11 :: List.replicate 24 0 }
      else if req.commandid = HDCP_LIB_DEINIT then { rsp_ok HDCP_LIB_DEINIT with rc := -1 }
      else rsp_msg req.commandid }

/-- A wakeup call reporting the received message `msg`. -/
def wakeup_recv_data (msg : List Nat) : hdcp_lib_wakeup_data :=
  { context := true, cmd := HDCP_LIB_WKUP_CMD_MSG_RECV_SUCCESS,
    recvd_msg_buf := msg, recvd_msg_len := msg.length, timeout := 0 }

/-- The tethered session in `env_stale` after registration, wakeup(START),
wakeup(MSG_RECV_SUCCESS) with LC_Send_L_prime (id 10), answered by
SKE_Send_Eks, and wakeup(STOP), whose library unload fails. -/
def sys_stale : Sys :=
  (hdcp_lib_wakeup env_stale (some (wakeup_data HDCP_LIB_WKUP_CMD_STOP))
    (hdcp_lib_wakeup env_stale (some (wakeup_recv_data [10]))
      (hdcp_lib_wakeup env_stale (some (wakeup_data HDCP_LIB_WKUP_CMD_START))
        (hdcp_library_register 0 true true)).2).2).2

/-- The session `sys_stale` after the late wakeup(MSG_SEND_SUCCESS) for the
SKE_Send_Eks message. -/
def sys_stale_sent : Sys :=
  (hdcp_lib_wakeup env_stale (some (wakeup_data HDCP_LIB_WKUP_CMD_MSG_SEND_SUCCESS))
    sys_stale).2

/-- The tethered session in `env_session` after registration, wakeup(START)
and wakeup(STOP). -/
def sys_off : Sys :=
  (hdcp_lib_wakeup env_session (some (wakeup_data HDCP_LIB_WKUP_CMD_STOP)) sys_session).2

/-- A wakeup(MSG_SEND_SUCCESS) call with 33 ms left. -/
def wakeup_sent_data : hdcp_lib_wakeup_data :=
  { context := true, cmd := HDCP_LIB_WKUP_CMD_MSG_SEND_SUCCESS,
    recvd_msg_buf := [], recvd_msg_len := 0, timeout := 33 }

/-! ## A step that is running -/

/-- Modelled from the spec: `kthread_worker_fn` lives in kernel/kthread.c,
which is missing here.  The worker takes the oldest queued step off its list
and then runs it; the result is that step together with the session as it is
while the step runs (`hdcp_lib_check_worker_status` tells the two apart: an
item is "queued" while its node is linked, "executing" while it is
`worker.current_work`).  `kthread_worker_step` is this followed by the
function of the step. -/
def kthread_worker_take (s : Sys) : Option (kthread_work × Sys) :=
  match s.handle.work_list with
  | [] => none
  | w :: _ => some (w, kthread_worker_pop s)

/-- The threaded session after registration and a wakeup(START) in
`env_session`: the init step is queued. -/
def sys_threaded : Sys :=
  (hdcp_lib_wakeup env_session (some (wakeup_data HDCP_LIB_WKUP_CMD_START))
    (hdcp_library_register 0 true false)).2

/-- The session `sys_threaded` while the worker runs the init step. -/
def sys_init_running : Sys := kthread_worker_pop sys_threaded

/-! ## Repeater detection -/

/-- An outside world like `env_session` in which the secure channel answers a
received message with the 25-byte SKE_Send_Eks message (id 11) in the
waiting-for-receiver-ID-list sub-state (flag 1) and with the given timeout. -/
def env_ske (timeout : Nat) : Env :=
  { env_session with
    qseecom_send_command := fun _ req =>
      if req.commandid = HDCP_TXMTR_PROCESS_RECEIVED_MESSAGE then
        { rsp_msg HDCP_TXMTR_PROCESS_RECEIVED_MESSAGE with
          msglen := 25, msg := 11 :: List.replicate 24 0, flag := 1, timeout := timeout }
      else rsp_msg req.commandid }

/-- The session `sys_session` holding LC_Send_L_prime (id 10) as the message
received from the sink. -/
def sys_l_prime : Sys := with_recvd_msg [10] sys_session

/-- The session `sys_cert_processed`, whose `no_stored_km_flag` is set,
holding AKE_Send_H_prime (id 7) as the message received from the sink. -/
def sys_h_prime : Sys := with_recvd_msg [7] sys_cert_processed

/-! ## A timeout of the sink -/

/-- The request `hdcp_lib_timeout` sends. -/
def timeout_req (s : Sys) : TzReq :=
  { commandid := HDCP_TXMTR_SEND_MESSAGE_TIMEOUT, ctxhandle := s.handle.tz_ctxhandle,
    msglen := 0, msg := [] }

/-- An outside world like `env_session` in which the response to the
send-message-timeout command echoes the command id and carries a 9-byte
LC_Init message. -/
def env_timeout_echo : Env :=
  { env_session with
    qseecom_send_command := fun _ req =>
      if req.commandid = HDCP_TXMTR_SEND_MESSAGE_TIMEOUT then
        { rsp_msg HDCP_TXMTR_SEND_MESSAGE_TIMEOUT with
          msglen := 9, msg := [9, 1, 2, 3, 4, 5, 6, 7, 8] }
      else rsp_msg req.commandid }

/-- The request `hdcp_lib_enable_encryption` sends. -/
def set_hw_key_req (s : Sys) : TzReq :=
  { commandid := HDCP_TXMTR_SET_HW_KEY, ctxhandle := s.handle.tz_ctxhandle,
    msglen := 0, msg := [] }

/-- The session `sys_session` with SKE_Send_Eks recorded as the message
sent. -/
def sys_eks_sent : Sys :=
  { sys_session with handle := { sys_session.handle with last_msg_sent := 11 } }

/-- The repeater session `sys_mismatch_repeater` with Repeater_Auth_Send_Ack
(id 15) recorded as the message sent and a stream update pending. -/
def sys_ack_sent : Sys :=
  { sys_mismatch_repeater with handle := { sys_mismatch_repeater.handle with
      last_msg_sent := 15, update_stream := true } }

/-! ## The stream-ready acknowledgement and the stream query -/

/-- The session `sys_session` holding Repeater_Auth_Stream_Ready (id 17) as
the message received from the sink. -/
def sys_stream_ready : Sys := with_recvd_msg [17] sys_session

/-- The table `hdcp_lib_msg_map` of `hdcp_lib_message_name`: the message
number the HDCP 2.2 specification assigns and the name of the message. -/
def hdcp_lib_msg_map : List (Int × String) :=
  [(2, "AKE_INIT"),
   (3, "AKE_SEND_CERT"),
   (4, "AKE_NO_STORED_KM"),
   (5, "AKE_STORED_KM"),
   (7, "AKE_SEND_H_PRIME"),
   (8, "AKE_SEND_PAIRING_INFO"),
   (9, "LC_INIT"),
   (10, "LC_SEND_L_PRIME"),
   (11, "SKE_SEND_EKS"),
   (12, "REPEATER_AUTH_SEND_RECEIVERID_LIST"),
   (15, "REPEATER_AUTH_SEND_ACK"),
   (16, "REPEATER_AUTH_STREAM_MANAGE"),
   (17, "REPEATER_AUTH_STREAM_READY")]

/-- The `for` loop of `hdcp_lib_message_name` over the entries of the table
that are still to be compared, and the `return "UNKNOWN"` after it. -/
def hdcp_lib_message_name_loop (msg_id : Int) : List (Int × String) → String
  | [] => "UNKNOWN"
  | e :: rest => if msg_id = e.1 then e.2 else hdcp_lib_message_name_loop msg_id rest

def hdcp_lib_message_name (msg_id : Int) : String :=
  hdcp_lib_message_name_loop msg_id hdcp_lib_msg_map

/-- The threaded session in `env_session` after the worker has run the queued
init step of `sys_threaded` and a wakeup(MSG_SEND_SUCCESS) with 33 ms left has
queued the message-sent step. -/
def sys_sent_queued : Sys :=
  (hdcp_lib_wakeup env_session (some wakeup_sent_data)
    (kthread_worker_step env_session sys_threaded)).2

/-! ## Message sizes -/

/-- A wakeup call reporting a received message of 535 bytes, one more than
MAX_RX_MESSAGE_SIZE. -/
def wakeup_oversized_data : hdcp_lib_wakeup_data :=
  { context := true, cmd := HDCP_LIB_WKUP_CMD_MSG_RECV_SUCCESS,
    recvd_msg_buf := List.replicate 535 1, recvd_msg_len := 535, timeout := 0 }

/-- An outside world like `env_session` in which every secure-channel response
announces a message of 200 bytes. -/
def env_long : Env :=
  { env_session with
    qseecom_send_command := fun _ req => { rsp_msg req.commandid with msglen := 200 } }

/-- The tethered session after registration and a wakeup(START) in
`env_long`. -/
def sys_long : Sys :=
  (hdcp_lib_wakeup env_long (some (wakeup_data HDCP_LIB_WKUP_CMD_START))
    (hdcp_library_register 0 true true)).2

/-! ## Execution modes -/

/-- The session with the execution mode set to `tethered`
(`handle->tethered = tethered`), whatever it was before. -/
def set_tethered (tethered : Bool) (s : Sys) : Sys :=
  { s with handle := { s.handle with tethered := tethered } }

/-- The step `f` gives the same result in both execution modes on sessions
with nothing queued: run on the threaded session and followed by one worker
step (for a teardown the step may have queued), it ends in the session the
tethered run ends in, up to the mode itself, and leaves nothing queued. -/
def mode_independent (o : Env) (f : Sys → Sys) : Prop :=
  ∀ u : Sys, u.handle.work_list = [] →
    kthread_worker_run o 1 (f (set_tethered false u))
      = set_tethered false (f (set_tethered true u)) ∧
    (kthread_worker_run o 1 (f (set_tethered false u))).handle.work_list = []

/-! ## The set-hw-key response with a negative status (C5) -/

/-- An outside world like `env_session` in which a received message is
answered with the 25-byte SKE_Send_Eks (id 11) and the set-hw-key command is
answered with return code 0 and status 0xFFFFFFFF, the 32-bit pattern of -1. -/
def env_key_status : Env :=
  { env_session with
    qseecom_send_command := fun _ req =>
      if req.commandid = HDCP_TXMTR_PROCESS_RECEIVED_MESSAGE then
        { rsp_msg HDCP_TXMTR_PROCESS_RECEIVED_MESSAGE with
          msglen := 25, msg := 11 :: List.replicate 24 0 }
      else if req.commandid = HDCP_TXMTR_SET_HW_KEY then
        { rsp_ok HDCP_TXMTR_SET_HW_KEY with status := 4294967295 }
      else rsp_msg req.commandid }

/-- The tethered session in `env_key_status` after registration, wakeup(START)
and wakeup(MSG_RECV_SUCCESS) with LC_Send_L_prime (id 10), answered by
SKE_Send_Eks, which is the pending outbound message. -/
def sys_key_pending : Sys :=
  (hdcp_lib_wakeup env_key_status (some (wakeup_recv_data [10]))
    (hdcp_lib_wakeup env_key_status (some (wakeup_data HDCP_LIB_WKUP_CMD_START))
      (hdcp_library_register 0 true true)).2).2

/-- The session `sys_key_pending` with SKE_Send_Eks recorded as the message
sent, as `hdcp_lib_wakeup` records it before it runs `hdcp_lib_msg_sent`. -/
def sys_key_status : Sys :=
  { sys_key_pending with
    handle := { sys_key_pending.handle with last_msg_sent := 11 } }

/-! # Theorems -/

/-! ## Bit masks -/

theorem and_or_right (x m k : Nat) : (x ||| m) &&& k = (x &&& k) ||| (m &&& k) := by
  apply Nat.eq_of_testBit_eq; intro i
  simp only [Nat.testBit_and, Nat.testBit_or, Bool.and_or_distrib_right]

theorem has_flag_set_flag_of_disjoint (x m k : Nat) (h : m &&& k = 0) :
    has_flag (set_flag x m) k = has_flag x k := by
  unfold has_flag set_flag
  rw [and_or_right, h, Nat.or_zero]

theorem has_flag_set_flag_self (x m : Nat) (h : m ≠ 0) :
    has_flag (set_flag x m) m = true := by
  unfold has_flag set_flag
  have : (x ||| m) &&& m = m := by
    apply Nat.eq_of_testBit_eq; intro i
    simp only [Nat.testBit_and, Nat.testBit_or]
    cases x.testBit i <;> cases m.testBit i <;> rfl
  simp [this, h]

theorem has_flag_clear_flag_of_keep (x m k : Nat) (h : bitnot32 m &&& k = k) :
    has_flag (clear_flag x m) k = has_flag x k := by
  unfold has_flag clear_flag
  rw [Nat.and_assoc, h]

theorem has_flag_clear_flag_of_drop (x m k : Nat) (h : bitnot32 m &&& k = 0) :
    has_flag (clear_flag x m) k = false := by
  unfold has_flag clear_flag
  rw [Nat.and_assoc, h]; simp

@[simp] theorem has_flag_init (m : Nat) : has_flag HDCP_STATE_INIT m = false := by
  simp [has_flag]

@[simp] theorem app_loaded_set_app_loaded (x : Nat) :
    has_flag (set_flag x HDCP_STATE_APP_LOADED) HDCP_STATE_APP_LOADED = true :=
  has_flag_set_flag_self x _ (by decide)
@[simp] theorem txmtr_init_set_txmtr_init (x : Nat) :
    has_flag (set_flag x HDCP_STATE_TXMTR_INIT) HDCP_STATE_TXMTR_INIT = true :=
  has_flag_set_flag_self x _ (by decide)
@[simp] theorem authenticated_set_authenticated (x : Nat) :
    has_flag (set_flag x HDCP_STATE_AUTHENTICATED) HDCP_STATE_AUTHENTICATED = true :=
  has_flag_set_flag_self x _ (by decide)
@[simp] theorem app_loaded_set_txmtr_init (x : Nat) :
    has_flag (set_flag x HDCP_STATE_TXMTR_INIT) HDCP_STATE_APP_LOADED
      = has_flag x HDCP_STATE_APP_LOADED :=
  has_flag_set_flag_of_disjoint x _ _ (by decide)
@[simp] theorem txmtr_init_set_app_loaded (x : Nat) :
    has_flag (set_flag x HDCP_STATE_APP_LOADED) HDCP_STATE_TXMTR_INIT
      = has_flag x HDCP_STATE_TXMTR_INIT :=
  has_flag_set_flag_of_disjoint x _ _ (by decide)
@[simp] theorem app_loaded_set_authenticated (x : Nat) :
    has_flag (set_flag x HDCP_STATE_AUTHENTICATED) HDCP_STATE_APP_LOADED
      = has_flag x HDCP_STATE_APP_LOADED :=
  has_flag_set_flag_of_disjoint x _ _ (by decide)
@[simp] theorem txmtr_init_set_authenticated (x : Nat) :
    has_flag (set_flag x HDCP_STATE_AUTHENTICATED) HDCP_STATE_TXMTR_INIT
      = has_flag x HDCP_STATE_TXMTR_INIT :=
  has_flag_set_flag_of_disjoint x _ _ (by decide)
@[simp] theorem authenticated_set_app_loaded (x : Nat) :
    has_flag (set_flag x HDCP_STATE_APP_LOADED) HDCP_STATE_AUTHENTICATED
      = has_flag x HDCP_STATE_AUTHENTICATED :=
  has_flag_set_flag_of_disjoint x _ _ (by decide)
@[simp] theorem authenticated_set_txmtr_init (x : Nat) :
    has_flag (set_flag x HDCP_STATE_TXMTR_INIT) HDCP_STATE_AUTHENTICATED
      = has_flag x HDCP_STATE_AUTHENTICATED :=
  has_flag_set_flag_of_disjoint x _ _ (by decide)
@[simp] theorem app_loaded_clear_app_loaded (x : Nat) :
    has_flag (clear_flag x HDCP_STATE_APP_LOADED) HDCP_STATE_APP_LOADED = false :=
  has_flag_clear_flag_of_drop x _ _ (by decide)
@[simp] theorem txmtr_init_clear_txmtr_init (x : Nat) :
    has_flag (clear_flag x HDCP_STATE_TXMTR_INIT) HDCP_STATE_TXMTR_INIT = false :=
  has_flag_clear_flag_of_drop x _ _ (by decide)
@[simp] theorem app_loaded_clear_txmtr_init (x : Nat) :
    has_flag (clear_flag x HDCP_STATE_TXMTR_INIT) HDCP_STATE_APP_LOADED
      = has_flag x HDCP_STATE_APP_LOADED :=
  has_flag_clear_flag_of_keep x _ _ (by decide)
@[simp] theorem txmtr_init_clear_app_loaded (x : Nat) :
    has_flag (clear_flag x HDCP_STATE_APP_LOADED) HDCP_STATE_TXMTR_INIT
      = has_flag x HDCP_STATE_TXMTR_INIT :=
  has_flag_clear_flag_of_keep x _ _ (by decide)
@[simp] theorem authenticated_clear_txmtr_init (x : Nat) :
    has_flag (clear_flag x HDCP_STATE_TXMTR_INIT) HDCP_STATE_AUTHENTICATED
      = has_flag x HDCP_STATE_AUTHENTICATED :=
  has_flag_clear_flag_of_keep x _ _ (by decide)
@[simp] theorem authenticated_clear_app_loaded (x : Nat) :
    has_flag (clear_flag x HDCP_STATE_APP_LOADED) HDCP_STATE_AUTHENTICATED
      = has_flag x HDCP_STATE_AUTHENTICATED :=
  has_flag_clear_flag_of_keep x _ _ (by decide)

/-! ## The log -/

@[simp] theorem notifications_append (a b : List Event) :
    notifications (a ++ b) = notifications a ++ notifications b := by
  induction a with
  | nil => rfl
  | cons e es ih => cases e <;> simp [notifications, ih]

@[simp] theorem commands_append (a b : List Event) :
    commands (a ++ b) = commands a ++ commands b := by
  induction a with
  | nil => rfl
  | cons e es ih => cases e <;> simp [commands, ih]

@[simp] theorem notified_append (a b : List Event) :
    notified (a ++ b) = notified a ++ notified b := by
  simp [notified]

/-! ## The primitives -/

@[simp] theorem wakeup_client_handle (o : Env) (d : hdmi_hdcp_wakeup_data) (s : Sys) :
    (hdcp_lib_wakeup_client o d s).handle = s.handle := by
  unfold hdcp_lib_wakeup_client; dsimp only; split_ifs <;> rfl

theorem wakeup_client_trace (o : Env) (d : hdmi_hdcp_wakeup_data) (s : Sys) :
    (hdcp_lib_wakeup_client o d s).trace = s.trace ++
      (if s.handle.client_ops = true ∧ d.cmd ≠ HDMI_HDCP_WKUP_CMD_INVALID
        then [Event.notify d] else []) := by
  unfold hdcp_lib_wakeup_client; dsimp only; split_ifs <;> simp

theorem txmtr_deinit_handle (o : Env) (s : Sys) :
    ∃ st, (hdcp_lib_txmtr_deinit o s).2.handle = { s.handle with hdcp_state := st } := by
  unfold hdcp_lib_txmtr_deinit qseecom_send_command; dsimp only
  split_ifs <;> exact ⟨_, rfl⟩

theorem txmtr_deinit_notifications (o : Env) (s : Sys) :
    notifications (hdcp_lib_txmtr_deinit o s).2.trace = notifications s.trace := by
  unfold hdcp_lib_txmtr_deinit qseecom_send_command; dsimp only
  split_ifs <;> simp [notifications]

theorem library_unload_handle (o : Env) (s : Sys) :
    ∃ st q, (hdcp_lib_library_unload o s).2.handle =
      { s.handle with hdcp_state := st, qseecom_handle := q } := by
  unfold hdcp_lib_library_unload qseecom_shutdown_app qseecom_send_command; dsimp only
  split_ifs <;> exact ⟨_, _, rfl⟩

theorem library_unload_notifications (o : Env) (s : Sys) :
    notifications (hdcp_lib_library_unload o s).2.trace = notifications s.trace := by
  unfold hdcp_lib_library_unload qseecom_shutdown_app qseecom_send_command; dsimp only
  split_ifs <;> simp [notifications]

theorem clean_handle (o : Env) (s : Sys) :
    ∃ st q, (hdcp_lib_clean o s).handle =
      { s.handle with hdcp_state := st, qseecom_handle := q, hdcp_off := true } := by
  obtain ⟨st1, h1⟩ := txmtr_deinit_handle o s
  obtain ⟨st2, q2, h2⟩ := library_unload_handle o (hdcp_lib_txmtr_deinit o s).2
  refine ⟨st2, q2, ?_⟩
  unfold hdcp_lib_clean
  dsimp only
  split_ifs <;> simp only [wakeup_client_handle, h2, h1]

theorem clean_notifications (o : Env) (s : Sys) :
    notifications (hdcp_lib_clean o s).trace = notifications s.trace ++
      (if s.handle.hdcp_off = false ∧ s.handle.client_ops = true then
        [{ cmd := HDMI_HDCP_WKUP_CMD_STATUS_FAILED, context := s.handle.client_ctx,
           send_msg_buf := [], send_msg_len := 0, timeout := 0 }]
       else []) := by
  obtain ⟨st1, h1⟩ := txmtr_deinit_handle o s
  obtain ⟨st2, q2, h2⟩ := library_unload_handle o (hdcp_lib_txmtr_deinit o s).2
  unfold hdcp_lib_clean
  dsimp only
  simp only [h2, h1]
  split_ifs with ha hb hb <;>
    simp_all [wakeup_client_trace, library_unload_notifications, txmtr_deinit_notifications,
      notifications]

/-! ## The teardown step (C8) -/

theorem clean_hdcp_off (o : Env) (s : Sys) : (hdcp_lib_clean o s).handle.hdcp_off = true := by
  obtain ⟨st, q, h⟩ := clean_handle o s
  rw [h]

theorem clean_notified (o : Env) (s : Sys) (hops : s.handle.client_ops = true) :
    notified (hdcp_lib_clean o s).trace = notified s.trace ++
      (if s.handle.hdcp_off = false then [HDMI_HDCP_WKUP_CMD_STATUS_FAILED] else []) := by
  unfold notified
  rw [clean_notifications]
  by_cases h : s.handle.hdcp_off = false <;> simp [h, hops]

/-- C8: `hdcp_lib_clean` delivers STATUS_FAILED exactly when `hdcp_off` was
clear on entry and always leaves `hdcp_off` set; a tethered wakeup(STOP)
delivers no notification at all and, once accepted, is the teardown step run
on a session whose `hdcp_off` is already set. -/
theorem clean_notifies_failure_iff_active (o : Env) (s : Sys) (d : hdcp_lib_wakeup_data)
    (hops : s.handle.client_ops = true) :
    notified (hdcp_lib_clean o s).trace = notified s.trace ++
        (if s.handle.hdcp_off = false then [HDMI_HDCP_WKUP_CMD_STATUS_FAILED] else []) ∧
    (hdcp_lib_clean o s).handle.hdcp_off = true ∧
    (s.handle.tethered = true → d.context = true → d.cmd = HDCP_LIB_WKUP_CMD_STOP →
      notified (hdcp_lib_wakeup o (some d) s).2.trace = notified s.trace ∧
      ((d.recvd_msg_len = 0 ∨ o.kzalloc s.nalloc = true) →
        (hdcp_lib_wakeup o (some d) s).1 = 0 ∧
        (hdcp_lib_wakeup o (some d) s).2.handle.hdcp_off = true ∧
        ∃ s0 : Sys, s0.handle.hdcp_off = true ∧ s0.trace = s.trace ∧
          s0.handle.hdcp_state = s.handle.hdcp_state ∧
          s0.handle.qseecom_handle = s.handle.qseecom_handle ∧
          (hdcp_lib_wakeup o (some d) s).2 = hdcp_lib_clean o s0)) := by
  refine ⟨clean_notified o s hops, clean_hdcp_off o s, ?_⟩
  intro hteth hctx hcmd
  by_cases hlen : d.recvd_msg_len = 0
  · have hw : hdcp_lib_wakeup o (some d) s =
        (0, hdcp_lib_clean o { s with handle := { s.handle with
              wakeup_cmd := HDCP_LIB_WKUP_CMD_STOP, timeout_left := d.timeout,
              topo_wait := true, hdcp_off := true } }) := by
      simp [hdcp_lib_wakeup, hdcp_lib_wakeup_record, hdcp_lib_wakeup_switch,
        hdcp_lib_check_valid_state, HDCP_LIB_EXECUTE, hctx, hcmd, hlen, hteth]
    rw [hw]
    refine ⟨?_, fun _ => ⟨rfl, clean_hdcp_off o _, _, ?_, ?_, ?_, ?_, rfl⟩⟩ <;> try rfl
    rw [clean_notified _ _ (by exact hops)]
    simp
  · by_cases hk : o.kzalloc s.nalloc = true
    · have hw : hdcp_lib_wakeup o (some d) s =
          (0, hdcp_lib_clean o { s with
            nalloc := s.nalloc + 1,
            handle := { s.handle with
              wakeup_cmd := HDCP_LIB_WKUP_CMD_STOP, timeout_left := d.timeout,
              last_msg_recvd_len := d.recvd_msg_len,
              last_msg_recvd_buf := some (memcpy d.recvd_msg_buf d.recvd_msg_len),
              topo_wait := true, hdcp_off := true } }) := by
        simp [hdcp_lib_wakeup, hdcp_lib_wakeup_record, hdcp_lib_wakeup_switch,
          hdcp_lib_check_valid_state, HDCP_LIB_EXECUTE, hctx, hcmd, hlen, hteth, hk]
      rw [hw]
      refine ⟨?_, fun _ => ⟨rfl, clean_hdcp_off o _, _, ?_, ?_, ?_, ?_, rfl⟩⟩ <;> try rfl
      rw [clean_notified _ _ (by exact hops)]
      simp
    · have hw : (hdcp_lib_wakeup o (some d) s).2.trace = s.trace := by
        simp [hdcp_lib_wakeup, hdcp_lib_wakeup_record, hdcp_lib_wakeup_switch,
          hdcp_lib_check_valid_state, HDCP_LIB_EXECUTE, hctx, hcmd, hlen, hteth, hk]
      rw [hw]
      refine ⟨rfl, fun h => ?_⟩
      rcases h with h | h
      · exact absurd h hlen
      · exact absurd h hk

theorem clean_notifies_failure_iff_active_witness :
    notified (hdcp_lib_clean env_echo (hdcp_library_register 0 true true)).trace
        = [HDMI_HDCP_WKUP_CMD_STATUS_FAILED] ∧
    notified (hdcp_lib_wakeup env_echo (some (wakeup_data HDCP_LIB_WKUP_CMD_STOP))
        (hdcp_library_register 0 true true)).2.trace = [] := by
  have h := clean_notifies_failure_iff_active env_echo (hdcp_library_register 0 true true)
    (wakeup_data HDCP_LIB_WKUP_CMD_STOP) rfl
  exact ⟨h.1, (h.2.2 rfl rfl rfl).1⟩

/-! ## Teardown twice (C7) -/

theorem clean_eq_self_of_unloaded (o : Env) (s : Sys) (hoff : s.handle.hdcp_off = true)
    (h : has_flag s.handle.hdcp_state HDCP_STATE_APP_LOADED = false ∨
      s.handle.qseecom_handle = false) :
    hdcp_lib_clean o s = s := by
  obtain ⟨hd, tr, a, b, c, d, e, f⟩ := s
  obtain ⟨x1, x2, x3, x4, x5, x6, x7, x8, x9, x10, x11, x12, x13, x14, x15, x16, x17, x18,
    x19, x20, x21⟩ := hd
  simp only at hoff h
  subst hoff
  rcases h with h | h
  · by_cases hq : x15 = false
    · simp [hdcp_lib_clean, hdcp_lib_txmtr_deinit, hdcp_lib_library_unload, h, hq]
    · simp [hdcp_lib_clean, hdcp_lib_txmtr_deinit, hdcp_lib_library_unload, h, hq]
  · simp [hdcp_lib_clean, hdcp_lib_txmtr_deinit, hdcp_lib_library_unload, h]

/-- C7 (as amended): the second of two successive runs of `hdcp_lib_clean`
delivers no notification and leaves `hdcp_off`, the repeater, no-stored-km and
update-stream flags, the context handle and the pending outbound message as
the first run left them; when the first run left the application unloaded (or
there is no secure-channel handle) the second run changes nothing at all. -/
theorem clean_twice (o : Env) (s : Sys) :
    notifications (hdcp_lib_clean o (hdcp_lib_clean o s)).trace
      = notifications (hdcp_lib_clean o s).trace ∧
    (hdcp_lib_clean o (hdcp_lib_clean o s)).handle.hdcp_off
      = (hdcp_lib_clean o s).handle.hdcp_off ∧
    (hdcp_lib_clean o (hdcp_lib_clean o s)).handle.repeater_flag
      = (hdcp_lib_clean o s).handle.repeater_flag ∧
    (hdcp_lib_clean o (hdcp_lib_clean o s)).handle.no_stored_km_flag
      = (hdcp_lib_clean o s).handle.no_stored_km_flag ∧
    (hdcp_lib_clean o (hdcp_lib_clean o s)).handle.update_stream
      = (hdcp_lib_clean o s).handle.update_stream ∧
    (hdcp_lib_clean o (hdcp_lib_clean o s)).handle.tz_ctxhandle
      = (hdcp_lib_clean o s).handle.tz_ctxhandle ∧
    (hdcp_lib_clean o (hdcp_lib_clean o s)).handle.listener_buf
      = (hdcp_lib_clean o s).handle.listener_buf ∧
    (hdcp_lib_clean o (hdcp_lib_clean o s)).handle.msglen
      = (hdcp_lib_clean o s).handle.msglen ∧
    (hdcp_lib_clean o (hdcp_lib_clean o s)).handle.hdcp_timeout
      = (hdcp_lib_clean o s).handle.hdcp_timeout ∧
    ((has_flag (hdcp_lib_clean o s).handle.hdcp_state HDCP_STATE_APP_LOADED = false ∨
        (hdcp_lib_clean o s).handle.qseecom_handle = false) →
      hdcp_lib_clean o (hdcp_lib_clean o s) = hdcp_lib_clean o s) := by
  obtain ⟨st, q, h⟩ := clean_handle o (hdcp_lib_clean o s)
  have hoff := clean_hdcp_off o s
  refine ⟨?_, ?_, ?_, ?_, ?_, ?_, ?_, ?_, ?_, ?_⟩
  · rw [clean_notifications]; simp [hoff]
  · rw [h, hoff]
  · rw [h]
  · rw [h]
  · rw [h]
  · rw [h]
  · rw [h]
  · rw [h]
  · rw [h]
  · exact clean_eq_self_of_unloaded o _ hoff

/-- C7 (counterexample): after a successful start in `env_retry` the first
teardown is refused by the secure channel and leaves APP_LOADED | TXMTR_INIT
(3); the second teardown is accepted and leaves `hdcp_state` 0. -/
theorem clean_twice_differs :
    (hdcp_lib_clean env_retry sys_started).handle.hdcp_state = 3 ∧
    (hdcp_lib_clean env_retry (hdcp_lib_clean env_retry sys_started)).handle.hdcp_state = 0 := by
  decide

/-! ## The transmitter needs the application (C6) -/

@[simp] theorem wakeup_client_needs_app (o : Env) (d : hdmi_hdcp_wakeup_data) (s : Sys) :
    txmtr_needs_app (hdcp_lib_wakeup_client o d s) ↔ txmtr_needs_app s := by
  simp [txmtr_needs_app]

theorem needs_app_of_state_eq {s t : Sys} (h : t.handle.hdcp_state = s.handle.hdcp_state)
    (hs : txmtr_needs_app s) : txmtr_needs_app t := by
  unfold txmtr_needs_app at *; rw [h]; exact hs

theorem queue_kthread_work_handle (w : kthread_work) (s : Sys) :
    ∃ l, (queue_kthread_work w s).handle = { s.handle with work_list := l } := by
  unfold queue_kthread_work; split_ifs <;> exact ⟨_, rfl⟩

theorem queue_kthread_work_needs_app (w : kthread_work) (s : Sys)
    (hs : txmtr_needs_app s) : txmtr_needs_app (queue_kthread_work w s) := by
  obtain ⟨l, h⟩ := queue_kthread_work_handle w s
  exact needs_app_of_state_eq (by rw [h]) hs

theorem library_load_needs_app (o : Env) (s : Sys) (hs : txmtr_needs_app s) :
    txmtr_needs_app (hdcp_lib_library_load o s).2 := by
  unfold hdcp_lib_library_load qseecom_start_app qseecom_send_command; dsimp only
  split_ifs <;> simp_all [txmtr_needs_app]

theorem txmtr_init_needs_app (o : Env) (s : Sys) (hs : txmtr_needs_app s) :
    txmtr_needs_app (hdcp_lib_txmtr_init o s).2 := by
  unfold hdcp_lib_txmtr_init qseecom_send_command; dsimp only
  split_ifs <;> simp_all [txmtr_needs_app]

theorem txmtr_deinit_needs_app (o : Env) (hde : deinit_accepted o) (s : Sys)
    (hs : txmtr_needs_app s) :
    txmtr_needs_app (hdcp_lib_txmtr_deinit o s).2 ∧
    ((hdcp_lib_txmtr_deinit o s).2.handle.qseecom_handle = true →
      has_flag (hdcp_lib_txmtr_deinit o s).2.handle.hdcp_state HDCP_STATE_TXMTR_INIT = false) := by
  have hd := hde s.ncmd ⟨HDCP_TXMTR_DEINIT, s.handle.tz_ctxhandle, 0, []⟩ rfl
  unfold hdcp_lib_txmtr_deinit qseecom_send_command; dsimp only
  split_ifs with h1 h2 h3 h4
  · simp_all
  · refine ⟨hs, fun _ => ?_⟩
    unfold txmtr_needs_app at hs
    cases h : has_flag s.handle.hdcp_state HDCP_STATE_TXMTR_INIT
    · rfl
    · rw [hs h] at h2; cases h2
  · exact ⟨hs, fun _ => h3⟩
  · exfalso
    rcases h4 with h4 | h4 | h4
    · omega
    · omega
    · exact h4 hd.2
  · simp [txmtr_needs_app]

theorem library_unload_needs_app (o : Env) (s : Sys) (hs : txmtr_needs_app s)
    (hq : s.handle.qseecom_handle = true →
      has_flag s.handle.hdcp_state HDCP_STATE_TXMTR_INIT = false) :
    txmtr_needs_app (hdcp_lib_library_unload o s).2 := by
  unfold hdcp_lib_library_unload qseecom_shutdown_app qseecom_send_command; dsimp only
  split_ifs <;> simp_all [txmtr_needs_app]

theorem clean_needs_app (o : Env) (hde : deinit_accepted o) (s : Sys)
    (hs : txmtr_needs_app s) : txmtr_needs_app (hdcp_lib_clean o s) := by
  have h1 := txmtr_deinit_needs_app o hde s hs
  have h2 := library_unload_needs_app o _ h1.1 h1.2
  unfold hdcp_lib_clean; dsimp only
  split_ifs
  · exact needs_app_of_state_eq rfl ((wakeup_client_needs_app _ _ _).2 h2)
  · exact needs_app_of_state_eq rfl h2

theorem execute_needs_app (f : Sys → Sys) (w : kthread_work) (s : Sys)
    (hf : txmtr_needs_app s → txmtr_needs_app (f s)) (hs : txmtr_needs_app s) :
    txmtr_needs_app (HDCP_LIB_EXECUTE f w s) := by
  unfold HDCP_LIB_EXECUTE
  split_ifs
  · exact hf hs
  · exact queue_kthread_work_needs_app w s hs

theorem execute_clean_needs_app (o : Env) (hde : deinit_accepted o) (s : Sys)
    (hs : txmtr_needs_app s) :
    txmtr_needs_app (HDCP_LIB_EXECUTE (hdcp_lib_clean o) wk_clean s) :=
  execute_needs_app _ _ _ (clean_needs_app o hde s) hs

theorem stream_needs_app (o : Env) (s : Sys) (hs : txmtr_needs_app s) :
    txmtr_needs_app (hdcp_lib_stream o s) := by
  unfold hdcp_lib_stream hdcp_lib_send_message qseecom_send_command; dsimp only
  split_ifs <;> first
    | exact hs
    | exact needs_app_of_state_eq rfl hs
    | exact (wakeup_client_needs_app _ _ _).2 (needs_app_of_state_eq rfl hs)

theorem enable_encryption_needs_app (o : Env) (hde : deinit_accepted o) (s : Sys)
    (hs : txmtr_needs_app s) : txmtr_needs_app (hdcp_lib_enable_encryption o s).2 := by
  have he : ∀ t : Sys, txmtr_needs_app t →
      txmtr_needs_app (hdcp_lib_enable_encryption_error o t) := by
    intro t ht
    unfold hdcp_lib_enable_encryption_error
    split_ifs
    · exact execute_clean_needs_app o hde t ht
    · exact ht
  unfold hdcp_lib_enable_encryption; dsimp only
  split_ifs
  · exact he _ hs
  · exact he _ (needs_app_of_state_eq rfl hs)
  · unfold txmtr_needs_app at *
    simpa [qseecom_send_command] using hs

theorem msg_sent_needs_app (o : Env) (hde : deinit_accepted o) (s : Sys)
    (hs : txmtr_needs_app s) : txmtr_needs_app (hdcp_lib_msg_sent o s) := by
  have hq := queue_kthread_work_needs_app wk_topology s hs
  unfold hdcp_lib_msg_sent; dsimp only
  split_ifs <;> simp only [wakeup_client_needs_app] <;> first
    | exact hs
    | exact enable_encryption_needs_app o hde _ hs
    | exact enable_encryption_needs_app o hde _ hq
    | exact execute_clean_needs_app o hde _ (enable_encryption_needs_app o hde _ hs)
    | exact execute_clean_needs_app o hde _ (enable_encryption_needs_app o hde _ hq)
    | exact needs_app_of_state_eq rfl (execute_needs_app _ _ _ (stream_needs_app o s) hs)

theorem init_needs_app (o : Env) (hde : deinit_accepted o) (s : Sys)
    (hs : txmtr_needs_app s) : txmtr_needs_app (hdcp_lib_init o s) := by
  unfold hdcp_lib_init hdcp_lib_send_message; dsimp only
  split_ifs
  · exact hs
  · exact execute_clean_needs_app o hde _ (library_load_needs_app o s hs)
  · exact execute_clean_needs_app o hde _
      (txmtr_init_needs_app o _ (library_load_needs_app o s hs))
  · exact (wakeup_client_needs_app _ _ _).2
      (txmtr_init_needs_app o _ (library_load_needs_app o s hs))

theorem timeout_needs_app (o : Env) (hde : deinit_accepted o) (s : Sys)
    (hs : txmtr_needs_app s) : txmtr_needs_app (hdcp_lib_timeout o s) := by
  have h0 : txmtr_needs_app (qseecom_send_command o
      ⟨HDCP_TXMTR_SEND_MESSAGE_TIMEOUT, s.handle.tz_ctxhandle, 0, []⟩ s).2 :=
    needs_app_of_state_eq rfl hs
  have he : ∀ t : Sys, txmtr_needs_app t → txmtr_needs_app (hdcp_lib_timeout_error o t) := by
    intro t ht
    unfold hdcp_lib_timeout_error
    split_ifs
    · exact execute_clean_needs_app o hde t ht
    · exact ht
  unfold hdcp_lib_timeout hdcp_lib_send_message; dsimp only
  split_ifs <;> first
    | exact hs
    | exact h0
    | exact he _ h0
    | exact (wakeup_client_needs_app _ _ _).2 (needs_app_of_state_eq rfl hs)

theorem msg_recvd_exit_needs_app (o : Env) (hde : deinit_accepted o) (rc : Int)
    (cd : hdmi_hdcp_wakeup_data) (s : Sys) (hs : txmtr_needs_app s) :
    txmtr_needs_app (hdcp_lib_msg_recvd_exit o rc cd s) := by
  unfold hdcp_lib_msg_recvd_exit; dsimp only
  split_ifs
  · exact execute_clean_needs_app o hde _ ((wakeup_client_needs_app _ _ _).2 hs)
  · exact (wakeup_client_needs_app _ _ _).2 hs

theorem msg_recvd_rsp_needs_app (o : Env) (hde : deinit_accepted o)
    (cd : hdmi_hdcp_wakeup_data) (msg : List Nat) (rsp : TzRsp) (s : Sys)
    (hs : txmtr_needs_app s) : txmtr_needs_app (hdcp_lib_msg_recvd_rsp o cd msg rsp s) := by
  unfold hdcp_lib_msg_recvd_rsp; dsimp only
  split_ifs
  all_goals first
    | exact msg_recvd_exit_needs_app o hde _ _ _ hs

theorem msg_recvd_needs_app (o : Env) (hde : deinit_accepted o) (s : Sys)
    (hs : txmtr_needs_app s) : txmtr_needs_app (hdcp_lib_msg_recvd o s) := by
  unfold hdcp_lib_msg_recvd; dsimp only
  split_ifs
  all_goals first
    | exact hs
    | exact msg_recvd_exit_needs_app o hde _ _ _ hs
    | exact msg_recvd_exit_needs_app o hde _ _ _ (needs_app_of_state_eq rfl hs)
    | (split
       · exact needs_app_of_state_eq rfl hs
       · exact msg_recvd_rsp_needs_app o hde _ _ _ _ (needs_app_of_state_eq rfl hs))

theorem topology_work_needs_app (o : Env) (hde : deinit_accepted o) (s : Sys)
    (hs : txmtr_needs_app s) : txmtr_needs_app (hdcp_lib_topology_work o s) := by
  unfold hdcp_lib_topology_work; dsimp only
  split_ifs <;> first
    | exact needs_app_of_state_eq rfl hs
    | exact execute_clean_needs_app o hde _ (needs_app_of_state_eq rfl hs)

theorem worker_step_needs_app (o : Env) (hde : deinit_accepted o) (s : Sys)
    (hs : txmtr_needs_app s) : txmtr_needs_app (kthread_worker_step o s) := by
  unfold kthread_worker_step
  split
  · exact hs
  · rename_i w rest _
    have h0 : txmtr_needs_app (kthread_worker_pop s) := needs_app_of_state_eq rfl hs
    cases w
    · exact init_needs_app o hde _ h0
    · show txmtr_needs_app (hdcp_lib_msg_sent_work o _)
      unfold hdcp_lib_msg_sent_work
      split_ifs
      · exact h0
      · exact msg_sent_needs_app o hde _ h0
    · exact msg_recvd_needs_app o hde _ h0
    · exact timeout_needs_app o hde _ h0
    · exact clean_needs_app o hde _ h0
    · exact topology_work_needs_app o hde _ h0
    · exact stream_needs_app o _ h0

theorem wakeup_switch_needs_app (o : Env) (hde : deinit_accepted o) (s : Sys)
    (hs : txmtr_needs_app s) : txmtr_needs_app (hdcp_lib_wakeup_switch o s) := by
  have hi : ∀ t : Sys, t.handle.hdcp_state = HDCP_STATE_INIT → txmtr_needs_app t := by
    intro t ht; unfold txmtr_needs_app; rw [ht]; simp
  unfold hdcp_lib_wakeup_switch
  split
  · exact execute_needs_app _ _ _ (init_needs_app o hde _) (hi _ rfl)
  · exact execute_needs_app _ _ _ (clean_needs_app o hde _) (needs_app_of_state_eq rfl hs)
  · exact execute_needs_app _ _ _ (msg_sent_needs_app o hde _) (needs_app_of_state_eq rfl hs)
  · exact execute_needs_app _ _ _ (clean_needs_app o hde _) hs
  · exact execute_needs_app _ _ _ (clean_needs_app o hde _) hs
  · exact execute_needs_app _ _ _ (msg_recvd_needs_app o hde _) hs
  · exact execute_needs_app _ _ _ (timeout_needs_app o hde _) hs
  · exact execute_needs_app _ _ _ (stream_needs_app o _) hs
  · exact hs

theorem wakeup_needs_app (o : Env) (hde : deinit_accepted o)
    (data : Option hdcp_lib_wakeup_data) (s : Sys)
    (hs : txmtr_needs_app s) : txmtr_needs_app (hdcp_lib_wakeup o data s).2 := by
  unfold hdcp_lib_wakeup
  split
  · exact hs
  · dsimp only
    split_ifs
    · exact hs
    · exact needs_app_of_state_eq rfl hs
    · exact needs_app_of_state_eq rfl hs
    · exact wakeup_switch_needs_app o hde _ (needs_app_of_state_eq rfl hs)
    · exact wakeup_switch_needs_app o hde _ (needs_app_of_state_eq rfl hs)

theorem feature_supported_needs_app (o : Env) (s : Sys) (hs : txmtr_needs_app s)
    (hidle : s.handle.feature_supported = true ∨
      has_flag s.handle.hdcp_state HDCP_STATE_TXMTR_INIT = false) :
    txmtr_needs_app (hdcp_lib_client_feature_supported o s).2 := by
  unfold hdcp_lib_client_feature_supported; dsimp only
  split_ifs with h1 h2
  · exact hs
  · have hidle2 : has_flag s.handle.hdcp_state HDCP_STATE_TXMTR_INIT = false := by
      rcases hidle with h | h
      · exact absurd h h1
      · exact h
    have hl : has_flag (hdcp_lib_library_load o s).2.handle.hdcp_state HDCP_STATE_TXMTR_INIT
        = false := by
      unfold hdcp_lib_library_load qseecom_start_app qseecom_send_command; dsimp only
      split_ifs <;> simp [hidle2]
    refine library_unload_needs_app o _ ?_ (fun _ => hl)
    exact needs_app_of_state_eq rfl (library_load_needs_app o s hs)
  · exact library_load_needs_app o s hs

theorem update_exec_type_needs_app (tethered : Bool) (s : Sys) (hs : txmtr_needs_app s) :
    txmtr_needs_app (hdcp_lib_update_exec_type tethered s) := by
  unfold hdcp_lib_update_exec_type
  split_ifs
  · exact hs
  · exact needs_app_of_state_eq rfl hs

/-- C6 (as amended): when the secure channel accepts every HDCP_TXMTR_DEINIT
command, TXMTR_INIT set implies APP_LOADED set in every state reached from
registration through wakeup calls, worker steps, execution-mode updates and
feature-support queries made while the transmitter is not initialised. -/
theorem txmtr_init_implies_app_loaded (o : Env) (hde : deinit_accepted o) (s : Sys)
    (hr : ReachableQueryIdle o s)
    (ht : has_flag s.handle.hdcp_state HDCP_STATE_TXMTR_INIT = true) :
    has_flag s.handle.hdcp_state HDCP_STATE_APP_LOADED = true := by
  have hinv : txmtr_needs_app s := by
    clear ht
    induction hr with
    | register c ops t => intro h; simp [hdcp_library_register] at h
    | wakeup s d _ ih => exact wakeup_needs_app o hde d s ih
    | worker s _ ih => exact worker_step_needs_app o hde s ih
    | feature_supported s _ hidle ih => exact feature_supported_needs_app o s ih hidle
    | update_exec_type s t _ ih => exact update_exec_type_needs_app t s ih
  exact hinv ht

theorem env_session_deinit_accepted : deinit_accepted env_session := by
  intro n req h
  exact ⟨Int.le_refl 0, h⟩

theorem txmtr_init_implies_app_loaded_witness :
    has_flag sys_session.handle.hdcp_state HDCP_STATE_TXMTR_INIT = true ∧
    has_flag sys_session.handle.hdcp_state HDCP_STATE_APP_LOADED = true :=
  ⟨by decide,
   txmtr_init_implies_app_loaded env_session env_session_deinit_accepted sys_session
     (ReachableQueryIdle.wakeup _ _ (ReachableQueryIdle.register 0 true true)) (by decide)⟩

/-- C6 (counterexample): the invariant fails in two reachable states.  A
feature-support query made during a running session unloads the application
and leaves TXMTR_INIT set; so does a teardown whose HDCP_TXMTR_DEINIT command
fails while its HDCP_LIB_DEINIT command succeeds. -/
theorem txmtr_init_without_app_loaded :
    (Reachable env_session sys_queried ∧
      has_flag sys_queried.handle.hdcp_state HDCP_STATE_TXMTR_INIT = true ∧
      has_flag sys_queried.handle.hdcp_state HDCP_STATE_APP_LOADED = false) ∧
    (Reachable env_deinit_fails sys_stopped ∧
      has_flag sys_stopped.handle.hdcp_state HDCP_STATE_TXMTR_INIT = true ∧
      has_flag sys_stopped.handle.hdcp_state HDCP_STATE_APP_LOADED = false) :=
  ⟨⟨Reachable.feature_supported _
      (Reachable.wakeup _ _ (Reachable.register 0 true true)), by decide, by decide⟩,
   ⟨Reachable.wakeup _ _ (Reachable.wakeup _ _ (Reachable.register 0 true true)),
      by decide, by decide⟩⟩

/-! ## Start of a session (C9, C10) -/

theorem wakeup_start_tethered (o : Env) (d : hdcp_lib_wakeup_data) (s : Sys)
    (hctx : d.context = true) (hcmd : d.cmd = HDCP_LIB_WKUP_CMD_START)
    (hteth : s.handle.tethered = true) (hq : s.handle.work_list = [])
    (hk : d.recvd_msg_len = 0 ∨ o.kzalloc s.nalloc = true) :
    ∃ len buf na, hdcp_lib_wakeup o (some d) s =
      (0, hdcp_lib_init o (start_state s len buf na)) := by
  by_cases hlen : d.recvd_msg_len = 0
  · refine ⟨s.handle.last_msg_recvd_len, s.handle.last_msg_recvd_buf, s.nalloc, ?_⟩
    simp [hdcp_lib_wakeup, hdcp_lib_wakeup_record, hdcp_lib_wakeup_switch,
      hdcp_lib_check_valid_state, HDCP_LIB_EXECUTE, start_state, hctx, hcmd, hlen, hteth, hq]
  · have hk2 : o.kzalloc s.nalloc = true := by
      rcases hk with h | h
      · exact absurd h hlen
      · exact h
    refine ⟨d.recvd_msg_len, some (memcpy d.recvd_msg_buf d.recvd_msg_len), s.nalloc + 1, ?_⟩
    simp [hdcp_lib_wakeup, hdcp_lib_wakeup_record, hdcp_lib_wakeup_switch,
      hdcp_lib_check_valid_state, HDCP_LIB_EXECUTE, start_state, hctx, hcmd, hlen, hteth, hq,
      hk2]

theorem txmtr_deinit_txmtr_init_clear (o : Env) (s : Sys)
    (h : has_flag s.handle.hdcp_state HDCP_STATE_TXMTR_INIT = false) :
    has_flag (hdcp_lib_txmtr_deinit o s).2.handle.hdcp_state HDCP_STATE_TXMTR_INIT = false := by
  unfold hdcp_lib_txmtr_deinit qseecom_send_command; dsimp only
  split_ifs <;> simp_all

theorem library_unload_txmtr_init (o : Env) (s : Sys) :
    has_flag (hdcp_lib_library_unload o s).2.handle.hdcp_state HDCP_STATE_TXMTR_INIT =
      has_flag s.handle.hdcp_state HDCP_STATE_TXMTR_INIT := by
  unfold hdcp_lib_library_unload qseecom_send_command qseecom_shutdown_app; dsimp only
  split_ifs <;> simp_all

theorem clean_txmtr_init_clear (o : Env) (s : Sys)
    (h : has_flag s.handle.hdcp_state HDCP_STATE_TXMTR_INIT = false) :
    has_flag (hdcp_lib_clean o s).handle.hdcp_state HDCP_STATE_TXMTR_INIT = false := by
  have h1 := txmtr_deinit_txmtr_init_clear o s h
  have h2 := library_unload_txmtr_init o (hdcp_lib_txmtr_deinit o s).2
  unfold hdcp_lib_clean; dsimp only
  split_ifs
  · simp only [wakeup_client_handle]; rw [h2, h1]
  · rw [h2, h1]

/-- What the teardown step does to an active session with a client callback
whose transmitter is not initialised. -/
theorem clean_of_active (o : Env) (t : Sys) (base : List hdmi_hdcp_wakeup_cmd)
    (hoff : t.handle.hdcp_off = false) (hops : t.handle.client_ops = true)
    (htx : has_flag t.handle.hdcp_state HDCP_STATE_TXMTR_INIT = false)
    (hbase : notified t.trace = base) :
    notified (hdcp_lib_clean o t).trace = base ++ [HDMI_HDCP_WKUP_CMD_STATUS_FAILED] ∧
    has_flag (hdcp_lib_clean o t).handle.hdcp_state HDCP_STATE_TXMTR_INIT = false ∧
    (hdcp_lib_clean o t).handle.hdcp_off = true := by
  refine ⟨?_, clean_txmtr_init_clear o t htx, clean_hdcp_off o t⟩
  rw [clean_notified o t hops, hbase]; simp [hoff]

theorem init_rejected (o : Env) (s : Sys) (len : Nat) (buf : Option (List Nat)) (na : Nat)
    (hteth : s.handle.tethered = true) (hops : s.handle.client_ops = true)
    (hfail : o.qseecom_start_app s.nstart ≠ 0 ∨
      (o.qseecom_send_command s.ncmd ⟨HDCP_LIB_INIT, 0, 0, []⟩).rc ≠ 0 ∨
      (o.qseecom_send_command (s.ncmd + 1) ⟨HDCP_TXMTR_INIT, 0, 0, []⟩).rc < 0 ∨
      (o.qseecom_send_command (s.ncmd + 1) ⟨HDCP_TXMTR_INIT, 0, 0, []⟩).status ≠ 0 ∨
      (o.qseecom_send_command (s.ncmd + 1) ⟨HDCP_TXMTR_INIT, 0, 0, []⟩).commandid
        ≠ HDCP_TXMTR_INIT ∨
      (o.qseecom_send_command (s.ncmd + 1) ⟨HDCP_TXMTR_INIT, 0, 0, []⟩).msglen = 0) :
    notified (hdcp_lib_init o (start_state s len buf na)).trace =
      notified s.trace ++ [HDMI_HDCP_WKUP_CMD_STATUS_FAILED] ∧
    has_flag (hdcp_lib_init o (start_state s len buf na)).handle.hdcp_state
      HDCP_STATE_TXMTR_INIT = false ∧
    (hdcp_lib_init o (start_state s len buf na)).handle.hdcp_off = true := by
  by_cases ha : o.qseecom_start_app s.nstart = 0
  · by_cases hl : (o.qseecom_send_command s.ncmd ⟨HDCP_LIB_INIT, 0, 0, []⟩).rc = 0
    · have ht : (o.qseecom_send_command (s.ncmd + 1) ⟨HDCP_TXMTR_INIT, 0, 0, []⟩).rc < 0 ∨
          (o.qseecom_send_command (s.ncmd + 1) ⟨HDCP_TXMTR_INIT, 0, 0, []⟩).status ≠ 0 ∨
          (o.qseecom_send_command (s.ncmd + 1) ⟨HDCP_TXMTR_INIT, 0, 0, []⟩).commandid
            ≠ HDCP_TXMTR_INIT ∨
          (o.qseecom_send_command (s.ncmd + 1) ⟨HDCP_TXMTR_INIT, 0, 0, []⟩).msglen = 0 := by
        rcases hfail with h | h | h
        · exact absurd ha h
        · exact absurd hl h
        · exact h
      have e : hdcp_lib_init o (start_state s len buf na) =
          hdcp_lib_clean o (qseecom_send_command o ⟨HDCP_TXMTR_INIT, 0, 0, []⟩
            (hdcp_lib_library_load o (start_state s len buf na)).2).2 := by
        simp [hdcp_lib_init, start_state, hdcp_lib_library_load, qseecom_start_app,
          qseecom_send_command, hdcp_lib_txmtr_init, HDCP_LIB_EXECUTE, ha, hl, hteth,
          HDCP_SUCCESS, ht]
      rw [e]
      apply clean_of_active <;>
        simp [start_state, hdcp_lib_library_load, qseecom_start_app, qseecom_send_command,
          ha, hl, hops, notified, notifications]
    · have e : hdcp_lib_init o (start_state s len buf na) =
          hdcp_lib_clean o (hdcp_lib_library_load o (start_state s len buf na)).2 := by
        by_cases hneg : (o.qseecom_send_command s.ncmd ⟨HDCP_LIB_INIT, 0, 0, []⟩).rc < 0
        · simp [hdcp_lib_init, start_state, hdcp_lib_library_load, qseecom_start_app,
            qseecom_send_command, HDCP_LIB_EXECUTE, ha, hl, hteth, hneg]
        · simp [hdcp_lib_init, start_state, hdcp_lib_library_load, qseecom_start_app,
            qseecom_send_command, HDCP_LIB_EXECUTE, ha, hl, hteth, hneg]
      rw [e]
      by_cases hneg : (o.qseecom_send_command s.ncmd ⟨HDCP_LIB_INIT, 0, 0, []⟩).rc < 0
      · apply clean_of_active <;>
          simp [start_state, hdcp_lib_library_load, qseecom_start_app, qseecom_send_command,
            ha, hl, hops, hneg, notified, notifications]
      · apply clean_of_active <;>
          simp [start_state, hdcp_lib_library_load, qseecom_start_app, qseecom_send_command,
            ha, hl, hops, hneg, notified, notifications]
  · have e : hdcp_lib_init o (start_state s len buf na) =
        hdcp_lib_clean o (hdcp_lib_library_load o (start_state s len buf na)).2 := by
      simp [hdcp_lib_init, start_state, hdcp_lib_library_load, qseecom_start_app,
        HDCP_LIB_EXECUTE, ha, hteth]
    rw [e]
    apply clean_of_active <;>
      simp [start_state, hdcp_lib_library_load, qseecom_start_app, ha, hops, notified,
        notifications]

/-- C10: in tethered mode, an accepted wakeup(START) whose application load
fails or whose transmitter-init response is rejected tears the session down at
once: the only notification delivered is one STATUS_FAILED (no SEND_MESSAGE),
TXMTR_INIT is clear and `hdcp_off` is set when wakeup returns. -/
theorem start_failure_tears_down (o : Env) (d : hdcp_lib_wakeup_data) (s : Sys)
    (hctx : d.context = true) (hcmd : d.cmd = HDCP_LIB_WKUP_CMD_START)
    (hteth : s.handle.tethered = true) (hops : s.handle.client_ops = true)
    (hq : s.handle.work_list = [])
    (hk : d.recvd_msg_len = 0 ∨ o.kzalloc s.nalloc = true)
    (hfail : o.qseecom_start_app s.nstart ≠ 0 ∨
      (o.qseecom_send_command s.ncmd ⟨HDCP_LIB_INIT, 0, 0, []⟩).rc ≠ 0 ∨
      (o.qseecom_send_command (s.ncmd + 1) ⟨HDCP_TXMTR_INIT, 0, 0, []⟩).rc < 0 ∨
      (o.qseecom_send_command (s.ncmd + 1) ⟨HDCP_TXMTR_INIT, 0, 0, []⟩).status ≠ 0 ∨
      (o.qseecom_send_command (s.ncmd + 1) ⟨HDCP_TXMTR_INIT, 0, 0, []⟩).commandid
        ≠ HDCP_TXMTR_INIT ∨
      (o.qseecom_send_command (s.ncmd + 1) ⟨HDCP_TXMTR_INIT, 0, 0, []⟩).msglen = 0) :
    (hdcp_lib_wakeup o (some d) s).1 = 0 ∧
    notified (hdcp_lib_wakeup o (some d) s).2.trace =
      notified s.trace ++ [HDMI_HDCP_WKUP_CMD_STATUS_FAILED] ∧
    has_flag (hdcp_lib_wakeup o (some d) s).2.handle.hdcp_state HDCP_STATE_TXMTR_INIT = false ∧
    (hdcp_lib_wakeup o (some d) s).2.handle.hdcp_off = true := by
  obtain ⟨len, buf, na, hw⟩ := wakeup_start_tethered o d s hctx hcmd hteth hq hk
  rw [hw]
  exact ⟨rfl, init_rejected o s len buf na hteth hops hfail⟩

theorem start_failure_tears_down_witness :
    (hdcp_lib_wakeup env_echo (some (wakeup_data HDCP_LIB_WKUP_CMD_START))
      (hdcp_library_register 0 true true)).1 = 0 ∧
    notified (hdcp_lib_wakeup env_echo (some (wakeup_data HDCP_LIB_WKUP_CMD_START))
      (hdcp_library_register 0 true true)).2.trace = [HDMI_HDCP_WKUP_CMD_STATUS_FAILED] ∧
    has_flag (hdcp_lib_wakeup env_echo (some (wakeup_data HDCP_LIB_WKUP_CMD_START))
      (hdcp_library_register 0 true true)).2.handle.hdcp_state HDCP_STATE_TXMTR_INIT = false ∧
    (hdcp_lib_wakeup env_echo (some (wakeup_data HDCP_LIB_WKUP_CMD_START))
      (hdcp_library_register 0 true true)).2.handle.hdcp_off = true :=
  start_failure_tears_down env_echo (wakeup_data HDCP_LIB_WKUP_CMD_START)
    (hdcp_library_register 0 true true) rfl rfl rfl rfl rfl (Or.inl rfl)
    (Or.inr (Or.inr (Or.inr (Or.inr (Or.inr rfl)))))

/-! ## Encryption enable fails (C5) -/

theorem wakeup_client_invalid (o : Env) (d : hdmi_hdcp_wakeup_data) (s : Sys)
    (h : d.cmd = HDMI_HDCP_WKUP_CMD_INVALID) : hdcp_lib_wakeup_client o d s = s := by
  simp [hdcp_lib_wakeup_client, h]

theorem txmtr_deinit_authenticated (o : Env) (s : Sys) :
    has_flag (hdcp_lib_txmtr_deinit o s).2.handle.hdcp_state HDCP_STATE_AUTHENTICATED =
      has_flag s.handle.hdcp_state HDCP_STATE_AUTHENTICATED := by
  unfold hdcp_lib_txmtr_deinit qseecom_send_command; dsimp only
  split_ifs <;> simp_all

theorem library_unload_authenticated (o : Env) (s : Sys) :
    has_flag (hdcp_lib_library_unload o s).2.handle.hdcp_state HDCP_STATE_AUTHENTICATED =
      has_flag s.handle.hdcp_state HDCP_STATE_AUTHENTICATED := by
  unfold hdcp_lib_library_unload qseecom_send_command qseecom_shutdown_app; dsimp only
  split_ifs <;> simp_all

theorem clean_authenticated (o : Env) (s : Sys) :
    has_flag (hdcp_lib_clean o s).handle.hdcp_state HDCP_STATE_AUTHENTICATED =
      has_flag s.handle.hdcp_state HDCP_STATE_AUTHENTICATED := by
  have h1 := txmtr_deinit_authenticated o s
  have h2 := library_unload_authenticated o (hdcp_lib_txmtr_deinit o s).2
  unfold hdcp_lib_clean; dsimp only
  split_ifs
  · simp only [wakeup_client_handle]; rw [h2, h1]
  · rw [h2, h1]

theorem queue_kthread_work_idem (w : kthread_work) (s : Sys) :
    queue_kthread_work w (queue_kthread_work w s) = queue_kthread_work w s := by
  unfold queue_kthread_work
  split_ifs <;> simp_all

theorem enable_encryption_failed (o : Env) (t : Sys)
    (hq : t.handle.qseecom_handle = true) (hoff : t.handle.hdcp_off = false)
    (hrc : (o.qseecom_send_command t.ncmd
      ⟨HDCP_TXMTR_SET_HW_KEY, t.handle.tz_ctxhandle, 0, []⟩).rc < 0) :
    hdcp_lib_enable_encryption o t = (-EINVAL,
      HDCP_LIB_EXECUTE (hdcp_lib_clean o) wk_clean
        (qseecom_send_command o ⟨HDCP_TXMTR_SET_HW_KEY, t.handle.tz_ctxhandle, 0, []⟩ t).2) := by
  simp [hdcp_lib_enable_encryption, hdcp_lib_enable_encryption_error, hq,
    qseecom_send_command, hrc, hoff]

theorem execute_clean_twice (o : Env) (t : Sys) (hoff : t.handle.hdcp_off = false) :
    (if (HDCP_LIB_EXECUTE (hdcp_lib_clean o) wk_clean t).handle.hdcp_off = false then
        HDCP_LIB_EXECUTE (hdcp_lib_clean o) wk_clean
          (HDCP_LIB_EXECUTE (hdcp_lib_clean o) wk_clean t)
      else HDCP_LIB_EXECUTE (hdcp_lib_clean o) wk_clean t) =
      HDCP_LIB_EXECUTE (hdcp_lib_clean o) wk_clean t := by
  by_cases hteth : t.handle.tethered = true
  · have : (HDCP_LIB_EXECUTE (hdcp_lib_clean o) wk_clean t).handle.hdcp_off = true := by
      simp [HDCP_LIB_EXECUTE, hteth, clean_hdcp_off]
    simp [this]
  · obtain ⟨l, hl⟩ := queue_kthread_work_handle wk_clean t
    simp [HDCP_LIB_EXECUTE, hteth, hl, hoff, queue_kthread_work_idem]

theorem msg_sent_encryption_failed (o : Env) (s : Sys)
    (hmsg : s.handle.last_msg_sent = SKE_SEND_EKS_MESSAGE_ID)
    (hoff : s.handle.hdcp_off = false) (hq : s.handle.qseecom_handle = true)
    (hrc : (o.qseecom_send_command s.ncmd
      ⟨HDCP_TXMTR_SET_HW_KEY, s.handle.tz_ctxhandle, 0, []⟩).rc < 0) :
    hdcp_lib_msg_sent o s =
      HDCP_LIB_EXECUTE (hdcp_lib_clean o) wk_clean
        (qseecom_send_command o ⟨HDCP_TXMTR_SET_HW_KEY, s.handle.tz_ctxhandle, 0, []⟩
          (if s.handle.repeater_flag = true then queue_kthread_work wk_topology s else s)).2 := by
  unfold hdcp_lib_msg_sent; dsimp only
  rw [if_pos hmsg]
  by_cases hrep : s.handle.repeater_flag = true
  · obtain ⟨l, hl⟩ := queue_kthread_work_handle wk_topology s
    have hn : (queue_kthread_work wk_topology s).ncmd = s.ncmd := by
      unfold queue_kthread_work; split_ifs <;> rfl
    have hc : (queue_kthread_work wk_topology s).handle.tz_ctxhandle = s.handle.tz_ctxhandle := by
      rw [hl]
    have he := enable_encryption_failed o (queue_kthread_work wk_topology s)
      (by rw [hl]; exact hq) (by rw [hl]; exact hoff) (by rw [hn, hc]; exact hrc)
    rw [hc] at he
    simp only [hrep, hoff, if_true]
    rw [he]
    have h2 : ¬ ((-EINVAL : Int) = 0) := by decide
    simp only [h2, if_false]
    rw [wakeup_client_invalid _ _ _ rfl]
    exact execute_clean_twice o _ (by simp [qseecom_send_command, hl, hoff])
  · have he := enable_encryption_failed o s hq hoff hrc
    have hrep2 : s.handle.repeater_flag = false := by simpa using hrep
    simp only [hrep2, Bool.false_eq_true, if_false]
    rw [he]
    have h2 : ¬ ((-EINVAL : Int) = 0) := by decide
    simp only [h2, if_false]
    rw [wakeup_client_invalid _ _ _ rfl]
    exact execute_clean_twice o _ (by simp [qseecom_send_command, hoff])

theorem worker_step_cons (o : Env) (s : Sys) (w : kthread_work) (rest : List kthread_work)
    (h : s.handle.work_list = w :: rest) :
    kthread_worker_step o s = kthread_work_func o w (kthread_worker_pop s) := by
  unfold kthread_worker_step
  rw [h]

theorem worker_step_nil (o : Env) (s : Sys) (h : s.handle.work_list = []) :
    kthread_worker_step o s = s := by
  unfold kthread_worker_step
  rw [h]

/-- What the teardown step does to an active session with a client callback. -/
theorem clean_of_active_session (o : Env) (t : Sys) (base : List hdmi_hdcp_wakeup_cmd)
    (auth : Bool) (wl : List kthread_work)
    (hoff : t.handle.hdcp_off = false) (hops : t.handle.client_ops = true)
    (hauth : has_flag t.handle.hdcp_state HDCP_STATE_AUTHENTICATED = auth)
    (hwl : t.handle.work_list = wl)
    (hbase : notified t.trace = base) :
    notified (hdcp_lib_clean o t).trace = base ++ [HDMI_HDCP_WKUP_CMD_STATUS_FAILED] ∧
    (hdcp_lib_clean o t).handle.hdcp_off = true ∧
    has_flag (hdcp_lib_clean o t).handle.hdcp_state HDCP_STATE_AUTHENTICATED = auth ∧
    (hdcp_lib_clean o t).handle.work_list = wl := by
  refine ⟨?_, clean_hdcp_off o t, ?_, ?_⟩
  · rw [clean_notified o t hops, hbase]; simp [hoff]
  · rw [clean_authenticated, hauth]
  · obtain ⟨st, q, h⟩ := clean_handle o t
    rw [h]; exact hwl

/-- The topology wait changes nothing but its own bookkeeping when the session
is already off, and also when the session is threaded and the teardown step is
already queued. -/
theorem topology_work_quiet (o : Env) (s : Sys)
    (h : s.handle.hdcp_off = true ∨
      (s.handle.tethered = false ∧ wk_clean ∈ s.handle.work_list)) :
    hdcp_lib_topology_work o s = hdcp_lib_topology_wait o s := by
  unfold hdcp_lib_topology_work; dsimp only
  have hoff : (hdcp_lib_topology_wait o s).handle.hdcp_off = s.handle.hdcp_off := rfl
  rcases h with h | ⟨h1, h2⟩
  · rw [hoff, h]; simp
  · split_ifs with ha hb
    · have ht : (hdcp_lib_topology_wait o s).handle.tethered = false := h1
      have hm : wk_clean ∈ (hdcp_lib_topology_wait o s).handle.work_list := h2
      simp [HDCP_LIB_EXECUTE, ht, queue_kthread_work, hm]
    · rfl
    · rfl

theorem mem_queue_kthread_work (w : kthread_work) (s : Sys) :
    w ∈ (queue_kthread_work w s).handle.work_list := by
  unfold queue_kthread_work
  split_ifs with h
  · exact h
  · simp

theorem worker_run_two (o : Env) (s : Sys) :
    kthread_worker_run o 2 s = kthread_worker_step o (kthread_worker_step o s) := rfl

/-- Dispatching the teardown step on an active session with a client
callback: what happens at once in either mode, and what has happened after two
worker steps when at most the topology wait was queued before. -/
theorem execute_clean_of_active (o : Env) (c : Sys) (base : List hdmi_hdcp_wakeup_cmd)
    (auth : Bool)
    (hoff : c.handle.hdcp_off = false) (hops : c.handle.client_ops = true)
    (hauth : has_flag c.handle.hdcp_state HDCP_STATE_AUTHENTICATED = auth)
    (hbase : notified c.trace = base) :
    has_flag (HDCP_LIB_EXECUTE (hdcp_lib_clean o) wk_clean c).handle.hdcp_state
      HDCP_STATE_AUTHENTICATED = auth ∧
    (c.handle.tethered = true →
      notified (HDCP_LIB_EXECUTE (hdcp_lib_clean o) wk_clean c).trace =
        base ++ [HDMI_HDCP_WKUP_CMD_STATUS_FAILED] ∧
      (HDCP_LIB_EXECUTE (hdcp_lib_clean o) wk_clean c).handle.hdcp_off = true) ∧
    (c.handle.tethered = false →
      notified (HDCP_LIB_EXECUTE (hdcp_lib_clean o) wk_clean c).trace = base ∧
      wk_clean ∈ (HDCP_LIB_EXECUTE (hdcp_lib_clean o) wk_clean c).handle.work_list) ∧
    (c.handle.work_list = [] ∨ c.handle.work_list = [wk_topology] →
      notified (kthread_worker_run o 2
          (HDCP_LIB_EXECUTE (hdcp_lib_clean o) wk_clean c)).trace =
        base ++ [HDMI_HDCP_WKUP_CMD_STATUS_FAILED] ∧
      (kthread_worker_run o 2
          (HDCP_LIB_EXECUTE (hdcp_lib_clean o) wk_clean c)).handle.hdcp_off = true ∧
      has_flag (kthread_worker_run o 2
          (HDCP_LIB_EXECUTE (hdcp_lib_clean o) wk_clean c)).handle.hdcp_state
        HDCP_STATE_AUTHENTICATED = auth ∧
      (kthread_worker_run o 2
          (HDCP_LIB_EXECUTE (hdcp_lib_clean o) wk_clean c)).handle.work_list = []) := by
  by_cases hteth : c.handle.tethered = true
  · have hx : HDCP_LIB_EXECUTE (hdcp_lib_clean o) wk_clean c = hdcp_lib_clean o c := by
      simp [HDCP_LIB_EXECUTE, hteth]
    rw [hx]
    obtain ⟨k1, k2, k3, k4⟩ := clean_of_active_session o c base auth _ hoff hops hauth rfl hbase
    refine ⟨k3, fun _ => ⟨k1, k2⟩, fun h => ?_, fun hwl => ?_⟩
    · rw [hteth] at h; cases h
    · rw [worker_run_two]
      rcases hwl with hwl | hwl
      · rw [hwl] at k4
        rw [worker_step_nil o _ k4, worker_step_nil o _ k4]
        exact ⟨k1, k2, k3, k4⟩
      · rw [hwl] at k4
        rw [worker_step_cons o _ _ _ k4]
        have hq : kthread_work_func o wk_topology (kthread_worker_pop (hdcp_lib_clean o c)) =
            hdcp_lib_topology_work o (kthread_worker_pop (hdcp_lib_clean o c)) := rfl
        rw [hq, topology_work_quiet o (kthread_worker_pop (hdcp_lib_clean o c)) (Or.inl k2)]
        have hnil : (kthread_worker_pop (hdcp_lib_clean o c)).handle.work_list = [] := by
          show List.tail (hdcp_lib_clean o c).handle.work_list = []
          rw [k4]; rfl
        rw [worker_step_nil o (hdcp_lib_topology_wait o (kthread_worker_pop (hdcp_lib_clean o c)))
          hnil]
        exact ⟨k1, k2, k3, hnil⟩
  · have hteth2 : c.handle.tethered = false := by simpa using hteth
    have hx : HDCP_LIB_EXECUTE (hdcp_lib_clean o) wk_clean c = queue_kthread_work wk_clean c := by
      simp [HDCP_LIB_EXECUTE, hteth2]
    rw [hx]
    obtain ⟨l, hl⟩ := queue_kthread_work_handle wk_clean c
    have htr : (queue_kthread_work wk_clean c).trace = c.trace := by
      unfold queue_kthread_work; split_ifs <;> rfl
    have hmem := mem_queue_kthread_work wk_clean c
    have hwl2 : c.handle.work_list = [] ∨ c.handle.work_list = [wk_topology] →
        (queue_kthread_work wk_clean c).handle.work_list = [wk_clean] ∨
        (queue_kthread_work wk_clean c).handle.work_list = [wk_topology, wk_clean] := by
      intro h
      rcases h with h | h
      · left; simp [queue_kthread_work, h]
      · right; simp [queue_kthread_work, h]
    have x1 : (queue_kthread_work wk_clean c).handle.hdcp_off = false := by rw [hl]; exact hoff
    have x2 : (queue_kthread_work wk_clean c).handle.client_ops = true := by rw [hl]; exact hops
    have x3 : has_flag (queue_kthread_work wk_clean c).handle.hdcp_state
        HDCP_STATE_AUTHENTICATED = auth := by rw [hl]; exact hauth
    have x4 : (queue_kthread_work wk_clean c).handle.tethered = false := by
      rw [hl]; exact hteth2
    have x5 : notified (queue_kthread_work wk_clean c).trace = base := by rw [htr]; exact hbase
    generalize queue_kthread_work wk_clean c = x at hmem hwl2 x1 x2 x3 x4 x5 ⊢
    clear hl htr hx
    refine ⟨x3, fun h => ?_, fun _ => ⟨x5, hmem⟩, fun hwl => ?_⟩
    · rw [hteth2] at h; cases h
    · rw [worker_run_two]
      rcases hwl2 hwl with hqc | hqc
      · rw [worker_step_cons o _ wk_clean [] hqc]
        have hcl : kthread_work_func o wk_clean (kthread_worker_pop x) =
            hdcp_lib_clean o (kthread_worker_pop x) := rfl
        have y4 : (kthread_worker_pop x).handle.work_list = [] := by
          show List.tail x.handle.work_list = []
          rw [hqc]; rfl
        obtain ⟨k1, k2, k3, k4⟩ := clean_of_active_session o
          (kthread_worker_pop x) base auth [] x1 x2 x3 y4 x5
        rw [hcl, worker_step_nil o _ k4]
        exact ⟨k1, k2, k3, k4⟩
      · rw [worker_step_cons o _ wk_topology [wk_clean] hqc]
        have hq : kthread_work_func o wk_topology (kthread_worker_pop x) =
            hdcp_lib_topology_work o (kthread_worker_pop x) := rfl
        have hpl : (kthread_worker_pop x).handle.work_list = [wk_clean] := by
          show List.tail x.handle.work_list = [wk_clean]
          rw [hqc]; rfl
        rw [hq, topology_work_quiet o (kthread_worker_pop x)
          (Or.inr ⟨x4, by rw [hpl]; simp⟩)]
        rw [worker_step_cons o (hdcp_lib_topology_wait o (kthread_worker_pop x))
          wk_clean [] hpl]
        have y4 : (kthread_worker_pop (hdcp_lib_topology_wait o
            (kthread_worker_pop x))).handle.work_list = [] := by
          show List.tail (List.tail x.handle.work_list) = []
          rw [hqc]; rfl
        exact clean_of_active_session o
          (kthread_worker_pop (hdcp_lib_topology_wait o (kthread_worker_pop x)))
          base auth [] x1 x2 x3 y4 x5

/-- The transport failure of set-hw-key: when `hdcp_lib_msg_sent` handles a
sent SKE_Send_Eks on a session that has not been stopped and the set-hw-key
call fails in transport (return code below 0), the AUTHENTICATED bit is not
touched and the teardown step is dispatched.  In
tethered mode STATUS_FAILED is the one notification delivered and `hdcp_off`
is set on return; in threaded mode nothing is delivered yet and the teardown
step is queued.  In both modes, if no other step is queued, two steps of the
worker empty the queue, and then exactly one notification, STATUS_FAILED, has
been delivered and `hdcp_off` is set. -/
theorem encryption_failure_tears_down (o : Env) (s : Sys)
    (hmsg : s.handle.last_msg_sent = SKE_SEND_EKS_MESSAGE_ID)
    (hoff : s.handle.hdcp_off = false) (hq : s.handle.qseecom_handle = true)
    (hops : s.handle.client_ops = true)
    (hrc : (o.qseecom_send_command s.ncmd
      ⟨HDCP_TXMTR_SET_HW_KEY, s.handle.tz_ctxhandle, 0, []⟩).rc < 0) :
    has_flag (hdcp_lib_msg_sent o s).handle.hdcp_state HDCP_STATE_AUTHENTICATED =
      has_flag s.handle.hdcp_state HDCP_STATE_AUTHENTICATED ∧
    (s.handle.tethered = true →
      notified (hdcp_lib_msg_sent o s).trace =
        notified s.trace ++ [HDMI_HDCP_WKUP_CMD_STATUS_FAILED] ∧
      (hdcp_lib_msg_sent o s).handle.hdcp_off = true) ∧
    (s.handle.tethered = false →
      notified (hdcp_lib_msg_sent o s).trace = notified s.trace ∧
      wk_clean ∈ (hdcp_lib_msg_sent o s).handle.work_list) ∧
    (s.handle.work_list = [] →
      notified (kthread_worker_run o 2 (hdcp_lib_msg_sent o s)).trace =
        notified s.trace ++ [HDMI_HDCP_WKUP_CMD_STATUS_FAILED] ∧
      (kthread_worker_run o 2 (hdcp_lib_msg_sent o s)).handle.hdcp_off = true ∧
      has_flag (kthread_worker_run o 2 (hdcp_lib_msg_sent o s)).handle.hdcp_state
        HDCP_STATE_AUTHENTICATED = has_flag s.handle.hdcp_state HDCP_STATE_AUTHENTICATED ∧
      (kthread_worker_run o 2 (hdcp_lib_msg_sent o s)).handle.work_list = []) := by
  rw [msg_sent_encryption_failed o s hmsg hoff hq hrc]
  obtain ⟨wl1, hwl1⟩ := queue_kthread_work_handle wk_topology s
  have hqt : (queue_kthread_work wk_topology s).trace = s.trace := by
    unfold queue_kthread_work; split_ifs <;> rfl
  have hc : ∀ t : Sys, t.handle.hdcp_off = false → t.handle.client_ops = true →
      t.handle.hdcp_state = s.handle.hdcp_state → t.trace = s.trace →
      t.handle.tethered = s.handle.tethered →
      (s.handle.work_list = [] →
        t.handle.work_list = [] ∨ t.handle.work_list = [wk_topology]) →
      has_flag (HDCP_LIB_EXECUTE (hdcp_lib_clean o) wk_clean
          (qseecom_send_command o ⟨HDCP_TXMTR_SET_HW_KEY, s.handle.tz_ctxhandle, 0, []⟩
            t).2).handle.hdcp_state HDCP_STATE_AUTHENTICATED =
        has_flag s.handle.hdcp_state HDCP_STATE_AUTHENTICATED ∧
      (s.handle.tethered = true →
        notified (HDCP_LIB_EXECUTE (hdcp_lib_clean o) wk_clean
            (qseecom_send_command o ⟨HDCP_TXMTR_SET_HW_KEY, s.handle.tz_ctxhandle, 0, []⟩
              t).2).trace = notified s.trace ++ [HDMI_HDCP_WKUP_CMD_STATUS_FAILED] ∧
        (HDCP_LIB_EXECUTE (hdcp_lib_clean o) wk_clean
            (qseecom_send_command o ⟨HDCP_TXMTR_SET_HW_KEY, s.handle.tz_ctxhandle, 0, []⟩
              t).2).handle.hdcp_off = true) ∧
      (s.handle.tethered = false →
        notified (HDCP_LIB_EXECUTE (hdcp_lib_clean o) wk_clean
            (qseecom_send_command o ⟨HDCP_TXMTR_SET_HW_KEY, s.handle.tz_ctxhandle, 0, []⟩
              t).2).trace = notified s.trace ∧
        wk_clean ∈ (HDCP_LIB_EXECUTE (hdcp_lib_clean o) wk_clean
            (qseecom_send_command o ⟨HDCP_TXMTR_SET_HW_KEY, s.handle.tz_ctxhandle, 0, []⟩
              t).2).handle.work_list) ∧
      (s.handle.work_list = [] →
        notified (kthread_worker_run o 2 (HDCP_LIB_EXECUTE (hdcp_lib_clean o) wk_clean
            (qseecom_send_command o ⟨HDCP_TXMTR_SET_HW_KEY, s.handle.tz_ctxhandle, 0, []⟩
              t).2)).trace = notified s.trace ++ [HDMI_HDCP_WKUP_CMD_STATUS_FAILED] ∧
        (kthread_worker_run o 2 (HDCP_LIB_EXECUTE (hdcp_lib_clean o) wk_clean
            (qseecom_send_command o ⟨HDCP_TXMTR_SET_HW_KEY, s.handle.tz_ctxhandle, 0, []⟩
              t).2)).handle.hdcp_off = true ∧
        has_flag (kthread_worker_run o 2 (HDCP_LIB_EXECUTE (hdcp_lib_clean o) wk_clean
            (qseecom_send_command o ⟨HDCP_TXMTR_SET_HW_KEY, s.handle.tz_ctxhandle, 0, []⟩
              t).2)).handle.hdcp_state HDCP_STATE_AUTHENTICATED =
          has_flag s.handle.hdcp_state HDCP_STATE_AUTHENTICATED ∧
        (kthread_worker_run o 2 (HDCP_LIB_EXECUTE (hdcp_lib_clean o) wk_clean
            (qseecom_send_command o ⟨HDCP_TXMTR_SET_HW_KEY, s.handle.tz_ctxhandle, 0, []⟩
              t).2)).handle.work_list = []) := by
    intro t h1 h2 h3 h4 h5 h6
    obtain ⟨k1, k2, k3, k4⟩ := execute_clean_of_active o
      (qseecom_send_command o ⟨HDCP_TXMTR_SET_HW_KEY, s.handle.tz_ctxhandle, 0, []⟩ t).2
      (notified s.trace) (has_flag s.handle.hdcp_state HDCP_STATE_AUTHENTICATED)
      h1 h2 (by show has_flag t.handle.hdcp_state _ = _; rw [h3])
      (by simp [qseecom_send_command, notified, notifications, h4])
    exact ⟨k1, fun h => k2 (by show t.handle.tethered = true; rw [h5]; exact h),
      fun h => k3 (by show t.handle.tethered = false; rw [h5]; exact h),
      fun h => k4 (h6 h)⟩
  by_cases hrep : s.handle.repeater_flag = true
  · rw [if_pos hrep]
    refine hc _ (by rw [hwl1]; exact hoff) (by rw [hwl1]; exact hops) (by rw [hwl1]) hqt
      (by rw [hwl1]) (fun h => Or.inr ?_)
    simp [queue_kthread_work, h]
  · rw [if_neg hrep]
    exact hc s hoff hops rfl rfl rfl (fun h => Or.inl h)

theorem encryption_failure_tears_down_witness :
    notified (hdcp_lib_msg_sent env_key_fails sys_key_sent).trace =
        notified sys_key_sent.trace ++ [HDMI_HDCP_WKUP_CMD_STATUS_FAILED] ∧
      (hdcp_lib_msg_sent env_key_fails sys_key_sent).handle.hdcp_off = true :=
  (encryption_failure_tears_down env_key_fails sys_key_sent rfl rfl rfl rfl
    (by decide)).2.1 rfl

set_option maxRecDepth 100000 in
/-- C5 (the code at the failing input): the session `sys_key_status` is active
and has SKE_Send_Eks recorded as the message sent; the set-hw-key call returns
0 with status 0xFFFFFFFF (-1 as a 32-bit pattern).  `hdcp_lib_msg_sent` does
not tear the session down: the AUTHENTICATED bit is set, STATUS_SUCCESS and
LINK_POLL are delivered, no STATUS_FAILED is delivered and `hdcp_off` stays
clear.  The same holds for the wakeup(MSG_SEND_SUCCESS) call on the reachable
session `sys_key_pending`. -/
theorem negative_status_authenticates :
    (sys_key_status.handle.last_msg_sent = SKE_SEND_EKS_MESSAGE_ID ∧
      sys_key_status.handle.hdcp_off = false ∧
      has_flag sys_key_status.handle.hdcp_state HDCP_STATE_AUTHENTICATED = false ∧
      (env_key_status.qseecom_send_command sys_key_status.ncmd
        (set_hw_key_req sys_key_status)).rc = 0 ∧
      (env_key_status.qseecom_send_command sys_key_status.ncmd
        (set_hw_key_req sys_key_status)).status = 4294967295) ∧
    (commands (hdcp_lib_msg_sent env_key_status sys_key_status).trace =
        commands sys_key_status.trace ++ [(set_hw_key_req sys_key_status, false)] ∧
      has_flag (hdcp_lib_msg_sent env_key_status sys_key_status).handle.hdcp_state
        HDCP_STATE_AUTHENTICATED = true ∧
      notified (hdcp_lib_msg_sent env_key_status sys_key_status).trace =
        notified sys_key_status.trace ++
          [HDMI_HDCP_WKUP_CMD_STATUS_SUCCESS, HDMI_HDCP_WKUP_CMD_LINK_POLL] ∧
      HDMI_HDCP_WKUP_CMD_STATUS_FAILED ∉
        notified (hdcp_lib_msg_sent env_key_status sys_key_status).trace ∧
      (hdcp_lib_msg_sent env_key_status sys_key_status).handle.hdcp_off = false ∧
      (hdcp_lib_msg_sent env_key_status sys_key_status).handle.work_list = []) ∧
    (Reachable env_key_status sys_key_pending ∧
      sys_key_pending.handle.listener_buf.getD 0 0 = SKE_SEND_EKS_MESSAGE_ID ∧
      (hdcp_lib_wakeup env_key_status
        (some (wakeup_data HDCP_LIB_WKUP_CMD_MSG_SEND_SUCCESS)) sys_key_pending).1 = 0 ∧
      has_flag (hdcp_lib_wakeup env_key_status
        (some (wakeup_data HDCP_LIB_WKUP_CMD_MSG_SEND_SUCCESS))
        sys_key_pending).2.handle.hdcp_state HDCP_STATE_AUTHENTICATED = true ∧
      notified (hdcp_lib_wakeup env_key_status
        (some (wakeup_data HDCP_LIB_WKUP_CMD_MSG_SEND_SUCCESS)) sys_key_pending).2.trace =
        notified sys_key_pending.trace ++
          [HDMI_HDCP_WKUP_CMD_STATUS_SUCCESS, HDMI_HDCP_WKUP_CMD_LINK_POLL] ∧
      (hdcp_lib_wakeup env_key_status
        (some (wakeup_data HDCP_LIB_WKUP_CMD_MSG_SEND_SUCCESS))
        sys_key_pending).2.handle.hdcp_off = false) :=
  ⟨by decide, by decide,
    Reachable.wakeup _ _ (Reachable.wakeup _ _ (Reachable.register 0 true true)),
    by decide, by decide, by decide, by decide, by decide⟩

/-! ## Rejected responses to a received message (C3) -/

theorem msg_recvd_exit_failed (o : Env) (rc : Int) (cd : hdmi_hdcp_wakeup_data) (s : Sys)
    (hrc : rc ≠ 0) (hcd : cd.cmd = HDMI_HDCP_WKUP_CMD_INVALID)
    (hoff : s.handle.hdcp_off = false) :
    hdcp_lib_msg_recvd_exit o rc cd s = HDCP_LIB_EXECUTE (hdcp_lib_clean o) wk_clean s := by
  unfold hdcp_lib_msg_recvd_exit; dsimp only
  rw [wakeup_client_invalid o cd s hcd, if_pos ⟨hrc, hoff⟩]

/-- With a secure-channel handle, an active session, a non-empty received
message in a buffer that is there, and memory for its copy,
`hdcp_lib_msg_recvd` sends the message to the secure channel and goes on with
the response. -/
theorem msg_recvd_calls (o : Env) (s : Sys)
    (hq : s.handle.qseecom_handle = true) (hoff : s.handle.hdcp_off = false)
    (hlen : 0 < s.handle.last_msg_recvd_len) (hk : o.kzalloc s.nalloc = true)
    (hbuf : s.handle.last_msg_recvd_buf ≠ none) :
    hdcp_lib_msg_recvd o s =
      hdcp_lib_msg_recvd_rsp o
        { cmd := HDMI_HDCP_WKUP_CMD_INVALID, context := s.handle.client_ctx,
          send_msg_buf := [], send_msg_len := 0, timeout := 0 }
        (rcvd_msg_req s).msg (o.qseecom_send_command s.ncmd (rcvd_msg_req s))
        (rcvd_msg_sent o s) := by
  have hlen2 : ¬ s.handle.last_msg_recvd_len ≤ 0 := by omega
  have hk2 : ¬ o.kzalloc s.nalloc = false := by simp [hk]
  have hq2 : ¬ s.handle.qseecom_handle = false := by simp [hq]
  have hoff2 : ¬ s.handle.hdcp_off = true := by simp [hoff]
  obtain ⟨buf, hb⟩ := Option.ne_none_iff_exists'.mp hbuf
  unfold hdcp_lib_msg_recvd rcvd_msg_sent rcvd_msg_req; dsimp only
  rw [if_neg hq2, if_neg hoff2, if_neg hlen2, if_neg hk2, hb]
  rfl

/-- A received message whose first byte is not 0 is in a buffer that is
there. -/
theorem recvd_buf_of_first_byte (s : Sys) (h : (rcvd_msg_req s).msg.getD 0 0 ≠ 0) :
    s.handle.last_msg_recvd_buf ≠ none := by
  intro hn
  apply h
  simp [rcvd_msg_req, hn]

theorem msg_recvd_rsp_rejected (o : Env) (cd : hdmi_hdcp_wakeup_data) (msg : List Nat)
    (rsp : TzRsp) (t : Sys)
    (hcd : cd.cmd = HDMI_HDCP_WKUP_CMD_INVALID) (hoff : t.handle.hdcp_off = false)
    (hnh : ¬ (msg.getD 0 0 = AKE_SEND_H_PRIME_MESSAGE_ID ∧ t.handle.no_stored_km_flag = true))
    (hnr : ¬ (msg.getD 0 0 = REPEATER_AUTH_STREAM_READY_MESSAGE_ID ∧
      rsp.rc = 0 ∧ rsp.status = 0))
    (hbad : rsp.rc < 0 ∨ rsp.msglen = 0 ∨
      rsp.commandid ≠ HDCP_TXMTR_PROCESS_RECEIVED_MESSAGE) :
    hdcp_lib_msg_recvd_rsp o cd msg rsp t =
      HDCP_LIB_EXECUTE (hdcp_lib_clean o) wk_clean t := by
  have hbad2 : rsp.rc < 0 ∨ rsp.status < 0 ∨ rsp.msglen ≤ 0 ∨
      rsp.commandid ≠ HDCP_TXMTR_PROCESS_RECEIVED_MESSAGE := by
    rcases hbad with h | h | h
    · exact Or.inl h
    · exact Or.inr (Or.inr (Or.inl (by omega)))
    · exact Or.inr (Or.inr (Or.inr h))
  unfold hdcp_lib_msg_recvd_rsp; dsimp only
  rw [if_neg hnh, if_neg hnr, if_pos hbad2]
  exact msg_recvd_exit_failed o _ _ _ (by decide) hcd hoff

theorem msg_recvd_rejected (o : Env) (s : Sys)
    (hq : s.handle.qseecom_handle = true) (hoff : s.handle.hdcp_off = false)
    (hlen : 0 < s.handle.last_msg_recvd_len) (hk : o.kzalloc s.nalloc = true)
    (hbuf : s.handle.last_msg_recvd_buf ≠ none)
    (hnh : ¬ ((rcvd_msg_req s).msg.getD 0 0 = AKE_SEND_H_PRIME_MESSAGE_ID ∧
      s.handle.no_stored_km_flag = true))
    (hnr : ¬ ((rcvd_msg_req s).msg.getD 0 0 = REPEATER_AUTH_STREAM_READY_MESSAGE_ID ∧
      (o.qseecom_send_command s.ncmd (rcvd_msg_req s)).rc = 0 ∧
      (o.qseecom_send_command s.ncmd (rcvd_msg_req s)).status = 0))
    (hbad : (o.qseecom_send_command s.ncmd (rcvd_msg_req s)).rc < 0 ∨
      (o.qseecom_send_command s.ncmd (rcvd_msg_req s)).msglen = 0 ∨
      (o.qseecom_send_command s.ncmd (rcvd_msg_req s)).commandid
        ≠ HDCP_TXMTR_PROCESS_RECEIVED_MESSAGE) :
    hdcp_lib_msg_recvd o s =
      HDCP_LIB_EXECUTE (hdcp_lib_clean o) wk_clean (rcvd_msg_sent o s) := by
  rw [msg_recvd_calls o s hq hoff hlen hk hbuf]
  exact msg_recvd_rsp_rejected o _ _ _ _ rfl hoff hnh hnr hbad

theorem execute_clean_handle (o : Env) (c : Sys) :
    ∃ st q off wl, (HDCP_LIB_EXECUTE (hdcp_lib_clean o) wk_clean c).handle =
      { c.handle with hdcp_state := st, qseecom_handle := q, hdcp_off := off,
                      work_list := wl } := by
  unfold HDCP_LIB_EXECUTE
  split_ifs
  · obtain ⟨st, q, h⟩ := clean_handle o c
    exact ⟨st, q, true, c.handle.work_list, h⟩
  · obtain ⟨l, h⟩ := queue_kthread_work_handle wk_clean c
    exact ⟨c.handle.hdcp_state, c.handle.qseecom_handle, c.handle.hdcp_off, l, h⟩

/-- C3 (as amended): in `hdcp_lib_msg_recvd` on an active session with a
non-empty received message, held in a buffer that is there (not NULL), that is
neither AKE_Send_H_prime under
`no_stored_km_flag` nor a Repeater_Auth_Stream_Ready answered with rc 0 and
status 0, a response with a transport failure, a message length of 0 or a
command id other than HDCP_TXMTR_PROCESS_RECEIVED_MESSAGE makes the step
dispatch the teardown step and nothing else: the pending outbound message and
the three flags are unchanged and no SEND_MESSAGE is delivered; in tethered
mode STATUS_FAILED is the one notification delivered and `hdcp_off` is set on
return, in threaded mode the teardown step is queued and, if at most the
topology wait is queued with it, two worker steps later STATUS_FAILED has been
delivered and `hdcp_off` is set. -/
theorem msg_recvd_rejected_tears_down (o : Env) (s : Sys)
    (hq : s.handle.qseecom_handle = true) (hoff : s.handle.hdcp_off = false)
    (hops : s.handle.client_ops = true)
    (hlen : 0 < s.handle.last_msg_recvd_len) (hk : o.kzalloc s.nalloc = true)
    (hbuf : s.handle.last_msg_recvd_buf ≠ none)
    (hnh : ¬ ((rcvd_msg_req s).msg.getD 0 0 = AKE_SEND_H_PRIME_MESSAGE_ID ∧
      s.handle.no_stored_km_flag = true))
    (hnr : ¬ ((rcvd_msg_req s).msg.getD 0 0 = REPEATER_AUTH_STREAM_READY_MESSAGE_ID ∧
      (o.qseecom_send_command s.ncmd (rcvd_msg_req s)).rc = 0 ∧
      (o.qseecom_send_command s.ncmd (rcvd_msg_req s)).status = 0))
    (hbad : (o.qseecom_send_command s.ncmd (rcvd_msg_req s)).rc < 0 ∨
      (o.qseecom_send_command s.ncmd (rcvd_msg_req s)).msglen = 0 ∨
      (o.qseecom_send_command s.ncmd (rcvd_msg_req s)).commandid
        ≠ HDCP_TXMTR_PROCESS_RECEIVED_MESSAGE) :
    hdcp_lib_msg_recvd o s =
      HDCP_LIB_EXECUTE (hdcp_lib_clean o) wk_clean (rcvd_msg_sent o s) ∧
    (hdcp_lib_msg_recvd o s).handle.listener_buf = s.handle.listener_buf ∧
    (hdcp_lib_msg_recvd o s).handle.msglen = s.handle.msglen ∧
    (hdcp_lib_msg_recvd o s).handle.hdcp_timeout = s.handle.hdcp_timeout ∧
    (hdcp_lib_msg_recvd o s).handle.no_stored_km_flag = s.handle.no_stored_km_flag ∧
    (hdcp_lib_msg_recvd o s).handle.repeater_flag = s.handle.repeater_flag ∧
    (hdcp_lib_msg_recvd o s).handle.update_stream = s.handle.update_stream ∧
    (s.handle.tethered = true →
      notified (hdcp_lib_msg_recvd o s).trace =
        notified s.trace ++ [HDMI_HDCP_WKUP_CMD_STATUS_FAILED] ∧
      (hdcp_lib_msg_recvd o s).handle.hdcp_off = true) ∧
    (s.handle.tethered = false →
      notified (hdcp_lib_msg_recvd o s).trace = notified s.trace ∧
      wk_clean ∈ (hdcp_lib_msg_recvd o s).handle.work_list) ∧
    (s.handle.work_list = [] ∨ s.handle.work_list = [wk_topology] →
      notified (kthread_worker_run o 2 (hdcp_lib_msg_recvd o s)).trace =
        notified s.trace ++ [HDMI_HDCP_WKUP_CMD_STATUS_FAILED] ∧
      (kthread_worker_run o 2 (hdcp_lib_msg_recvd o s)).handle.hdcp_off = true) := by
  have he := msg_recvd_rejected o s hq hoff hlen hk hbuf hnh hnr hbad
  obtain ⟨st, q, off, wl, hh⟩ := execute_clean_handle o (rcvd_msg_sent o s)
  obtain ⟨k1, k2, k3, k4⟩ := execute_clean_of_active o (rcvd_msg_sent o s)
    (notified s.trace) (has_flag s.handle.hdcp_state HDCP_STATE_AUTHENTICATED)
    hoff hops rfl (by simp [rcvd_msg_sent, qseecom_send_command, notified, notifications])
  rw [he]
  refine ⟨rfl, ?_, ?_, ?_, ?_, ?_, ?_, k2, k3, fun h => ?_⟩
  · rw [hh]; rfl
  · rw [hh]; rfl
  · rw [hh]; rfl
  · rw [hh]; rfl
  · rw [hh]; rfl
  · rw [hh]; rfl
  · exact ⟨(k4 h).1, (k4 h).2.1⟩

theorem msg_recvd_rejected_tears_down_witness :
    notified (hdcp_lib_msg_recvd env_key_fails (with_recvd_msg [3] sys_key_sent)).trace =
      [HDMI_HDCP_WKUP_CMD_SEND_MESSAGE, HDMI_HDCP_WKUP_CMD_STATUS_FAILED] ∧
    (hdcp_lib_msg_recvd env_key_fails (with_recvd_msg [3] sys_key_sent)).handle.hdcp_off
      = true :=
  (msg_recvd_rejected_tears_down env_key_fails (with_recvd_msg [3] sys_key_sent)
    rfl rfl rfl (by decide) rfl (by decide) (by decide) (by decide)
    (Or.inl (by decide))).2.2.2.2.2.2.2.1 rfl

/-- C3 (counterexample): (1) a process-received-message response with status
1 is accepted: the response message is sent on and the session is not torn
down; (2) for AKE_Send_H_prime under `no_stored_km_flag`, a transport failure
still overwrites `hdcp_timeout` (100 becomes 55) and delivers RECV_MESSAGE
before the teardown. -/
theorem msg_recvd_bad_response_not_rejected :
    ((env_recv.qseecom_send_command 2 (rcvd_msg_req (with_recvd_msg [3] sys_session))).status
        = 1 ∧
      notified sys_cert_processed.trace =
        [HDMI_HDCP_WKUP_CMD_SEND_MESSAGE, HDMI_HDCP_WKUP_CMD_SEND_MESSAGE] ∧
      sys_cert_processed.handle.hdcp_off = false) ∧
    ((env_recv.qseecom_send_command 3
          (rcvd_msg_req (with_recvd_msg [7] sys_cert_processed))).rc = -1 ∧
      sys_cert_processed.handle.no_stored_km_flag = true ∧
      sys_cert_processed.handle.hdcp_timeout = 100 ∧
      (hdcp_lib_msg_recvd env_recv
        (with_recvd_msg [7] sys_cert_processed)).handle.hdcp_timeout = 55 ∧
      notified (hdcp_lib_msg_recvd env_recv (with_recvd_msg [7] sys_cert_processed)).trace =
        [HDMI_HDCP_WKUP_CMD_SEND_MESSAGE, HDMI_HDCP_WKUP_CMD_SEND_MESSAGE,
         HDMI_HDCP_WKUP_CMD_RECV_MESSAGE, HDMI_HDCP_WKUP_CMD_STATUS_FAILED]) := by
  decide

/-! ## Responses checked at the call sites (C4) -/

theorem txmtr_init_rejected (o : Env) (s : Sys)
    (hq : s.handle.qseecom_handle = true)
    (happ : has_flag s.handle.hdcp_state HDCP_STATE_APP_LOADED = true)
    (hinit : has_flag s.handle.hdcp_state HDCP_STATE_TXMTR_INIT = false)
    (hbad : (o.qseecom_send_command s.ncmd ⟨HDCP_TXMTR_INIT, 0, 0, []⟩).status ≠ 0 ∨
      (o.qseecom_send_command s.ncmd ⟨HDCP_TXMTR_INIT, 0, 0, []⟩).commandid ≠ HDCP_TXMTR_INIT) :
    hdcp_lib_txmtr_init o s =
      (-EINVAL, (qseecom_send_command o ⟨HDCP_TXMTR_INIT, 0, 0, []⟩ s).2) := by
  have hbad2 : (o.qseecom_send_command s.ncmd ⟨HDCP_TXMTR_INIT, 0, 0, []⟩).rc < 0 ∨
      (o.qseecom_send_command s.ncmd ⟨HDCP_TXMTR_INIT, 0, 0, []⟩).status ≠ HDCP_SUCCESS ∨
      (o.qseecom_send_command s.ncmd ⟨HDCP_TXMTR_INIT, 0, 0, []⟩).commandid ≠ HDCP_TXMTR_INIT ∨
      (o.qseecom_send_command s.ncmd ⟨HDCP_TXMTR_INIT, 0, 0, []⟩).msglen ≤ 0 := by
    rcases hbad with h | h
    · exact Or.inr (Or.inl h)
    · exact Or.inr (Or.inr (Or.inl h))
  unfold hdcp_lib_txmtr_init; dsimp only
  rw [if_neg (by simp [hq]), if_neg (by simp [happ]), if_neg (by simp [hinit])]
  exact if_pos hbad2

theorem init_of_txmtr_init_failure (o : Env) (s : Sys)
    (hcmd : s.handle.wakeup_cmd = HDCP_LIB_WKUP_CMD_START)
    (hload : (hdcp_lib_library_load o s).1 = 0)
    (hinit : (hdcp_lib_txmtr_init o (hdcp_lib_library_load o s).2).1 ≠ 0) :
    hdcp_lib_init o s = HDCP_LIB_EXECUTE (hdcp_lib_clean o) wk_clean
      (hdcp_lib_txmtr_init o (hdcp_lib_library_load o s).2).2 := by
  unfold hdcp_lib_init; dsimp only
  rw [if_neg (by simp [hcmd]), if_neg (by simp [hload]), if_pos hinit]

theorem txmtr_deinit_rejected (o : Env) (s : Sys)
    (hq : s.handle.qseecom_handle = true)
    (happ : has_flag s.handle.hdcp_state HDCP_STATE_APP_LOADED = true)
    (hinit : has_flag s.handle.hdcp_state HDCP_STATE_TXMTR_INIT = true)
    (hbad : (o.qseecom_send_command s.ncmd
      ⟨HDCP_TXMTR_DEINIT, s.handle.tz_ctxhandle, 0, []⟩).commandid ≠ HDCP_TXMTR_DEINIT) :
    hdcp_lib_txmtr_deinit o s =
      (-EINVAL, (qseecom_send_command o
        ⟨HDCP_TXMTR_DEINIT, s.handle.tz_ctxhandle, 0, []⟩ s).2) := by
  unfold hdcp_lib_txmtr_deinit; dsimp only
  rw [if_neg (by simp [hq]), if_neg (by simp [happ]), if_neg (by simp [hinit])]
  exact if_pos (Or.inr (Or.inr hbad))

theorem timeout_rejected (o : Env) (s : Sys)
    (hq : s.handle.qseecom_handle = true) (hoff : s.handle.hdcp_off = false)
    (hbad : (o.qseecom_send_command s.ncmd
        ⟨HDCP_TXMTR_SEND_MESSAGE_TIMEOUT, s.handle.tz_ctxhandle, 0, []⟩).status ≠ 0 ∨
      (o.qseecom_send_command s.ncmd
        ⟨HDCP_TXMTR_SEND_MESSAGE_TIMEOUT, s.handle.tz_ctxhandle, 0, []⟩).commandid
          = HDCP_TXMTR_SEND_MESSAGE_TIMEOUT) :
    hdcp_lib_timeout o s = HDCP_LIB_EXECUTE (hdcp_lib_clean o) wk_clean
      (qseecom_send_command o
        ⟨HDCP_TXMTR_SEND_MESSAGE_TIMEOUT, s.handle.tz_ctxhandle, 0, []⟩ s).2 := by
  have he : hdcp_lib_timeout_error o (qseecom_send_command o
      ⟨HDCP_TXMTR_SEND_MESSAGE_TIMEOUT, s.handle.tz_ctxhandle, 0, []⟩ s).2 =
      HDCP_LIB_EXECUTE (hdcp_lib_clean o) wk_clean (qseecom_send_command o
        ⟨HDCP_TXMTR_SEND_MESSAGE_TIMEOUT, s.handle.tz_ctxhandle, 0, []⟩ s).2 := by
    unfold hdcp_lib_timeout_error
    exact if_pos hoff
  unfold hdcp_lib_timeout; dsimp only
  rw [if_neg (by simp [hq]), if_neg (by simp [hoff])]
  by_cases h1 : (o.qseecom_send_command s.ncmd
      ⟨HDCP_TXMTR_SEND_MESSAGE_TIMEOUT, s.handle.tz_ctxhandle, 0, []⟩).rc < 0 ∨
      (o.qseecom_send_command s.ncmd
        ⟨HDCP_TXMTR_SEND_MESSAGE_TIMEOUT, s.handle.tz_ctxhandle, 0, []⟩).status ≠ HDCP_SUCCESS
  · exact (if_pos h1).trans he
  · have h2 : (o.qseecom_send_command s.ncmd
        ⟨HDCP_TXMTR_SEND_MESSAGE_TIMEOUT, s.handle.tz_ctxhandle, 0, []⟩).commandid
          = HDCP_TXMTR_SEND_MESSAGE_TIMEOUT := by
      rcases hbad with h | h
      · exact absurd (Or.inr h) h1
      · exact h
    exact (if_neg h1).trans ((if_pos h2).trans he)

theorem stream_rejected (o : Env) (s : Sys)
    (hq : s.handle.qseecom_handle = true) (hoff : s.handle.hdcp_off = false)
    (hrep : s.handle.repeater_flag = true)
    (hbad : (o.qseecom_send_command s.ncmd
      ⟨HDCP_TXMTR_QUERY_STREAM_TYPE, s.handle.tz_ctxhandle, 0, []⟩).commandid
        ≠ HDCP_TXMTR_QUERY_STREAM_TYPE) :
    hdcp_lib_stream o s = (qseecom_send_command o
      ⟨HDCP_TXMTR_QUERY_STREAM_TYPE, s.handle.tz_ctxhandle, 0, []⟩ s).2 := by
  unfold hdcp_lib_stream; dsimp only
  rw [if_neg (by simp [hq]), if_neg (by simp [hoff]), if_neg (by simp [hrep])]
  exact if_pos (Or.inr (Or.inr (Or.inr hbad)))

/-- C4 (as amended): a response is treated as a protocol failure where the
call site checks it.  `hdcp_lib_txmtr_init` rejects a non-zero status or a
command id other than HDCP_TXMTR_INIT without touching the handle, and
`hdcp_lib_init` then dispatches the teardown step; `hdcp_lib_txmtr_deinit`
rejects a command id other than HDCP_TXMTR_DEINIT and leaves the handle as it
was; `hdcp_lib_msg_recvd`, for a received message in a buffer that is there
and outside its two special cases, rejects a command id other than
HDCP_TXMTR_PROCESS_RECEIVED_MESSAGE and dispatches the teardown step;
`hdcp_lib_timeout` rejects a non-zero status, and also the echoed id
HDCP_TXMTR_SEND_MESSAGE_TIMEOUT, and dispatches the teardown step;
`hdcp_lib_stream` rejects a command id other than HDCP_TXMTR_QUERY_STREAM_TYPE
and only drops the response.  In each case the session is the one right after
the command was issued, whose handle is the handle before the call. -/
theorem rejected_response_is_failure (o : Env) (s : Sys) :
    (s.handle.qseecom_handle = true →
      has_flag s.handle.hdcp_state HDCP_STATE_APP_LOADED = true →
      has_flag s.handle.hdcp_state HDCP_STATE_TXMTR_INIT = false →
      ((o.qseecom_send_command s.ncmd ⟨HDCP_TXMTR_INIT, 0, 0, []⟩).status ≠ 0 ∨
        (o.qseecom_send_command s.ncmd ⟨HDCP_TXMTR_INIT, 0, 0, []⟩).commandid
          ≠ HDCP_TXMTR_INIT) →
      (hdcp_lib_txmtr_init o s).1 = -EINVAL ∧
      (hdcp_lib_txmtr_init o s).2.handle = s.handle ∧
      commands (hdcp_lib_txmtr_init o s).2.trace =
        commands s.trace ++ [(⟨HDCP_TXMTR_INIT, 0, 0, []⟩, s.handle.hdcp_off)]) ∧
    (s.handle.wakeup_cmd = HDCP_LIB_WKUP_CMD_START →
      (hdcp_lib_library_load o s).1 = 0 →
      (hdcp_lib_txmtr_init o (hdcp_lib_library_load o s).2).1 ≠ 0 →
      hdcp_lib_init o s = HDCP_LIB_EXECUTE (hdcp_lib_clean o) wk_clean
        (hdcp_lib_txmtr_init o (hdcp_lib_library_load o s).2).2) ∧
    (s.handle.qseecom_handle = true →
      has_flag s.handle.hdcp_state HDCP_STATE_APP_LOADED = true →
      has_flag s.handle.hdcp_state HDCP_STATE_TXMTR_INIT = true →
      (o.qseecom_send_command s.ncmd
        ⟨HDCP_TXMTR_DEINIT, s.handle.tz_ctxhandle, 0, []⟩).commandid ≠ HDCP_TXMTR_DEINIT →
      (hdcp_lib_txmtr_deinit o s).1 = -EINVAL ∧
      (hdcp_lib_txmtr_deinit o s).2.handle = s.handle) ∧
    (s.handle.qseecom_handle = true → s.handle.hdcp_off = false →
      0 < s.handle.last_msg_recvd_len → o.kzalloc s.nalloc = true →
      s.handle.last_msg_recvd_buf ≠ none →
      ¬ ((rcvd_msg_req s).msg.getD 0 0 = AKE_SEND_H_PRIME_MESSAGE_ID ∧
        s.handle.no_stored_km_flag = true) →
      ¬ ((rcvd_msg_req s).msg.getD 0 0 = REPEATER_AUTH_STREAM_READY_MESSAGE_ID ∧
        (o.qseecom_send_command s.ncmd (rcvd_msg_req s)).rc = 0 ∧
        (o.qseecom_send_command s.ncmd (rcvd_msg_req s)).status = 0) →
      (o.qseecom_send_command s.ncmd (rcvd_msg_req s)).commandid
        ≠ HDCP_TXMTR_PROCESS_RECEIVED_MESSAGE →
      hdcp_lib_msg_recvd o s =
        HDCP_LIB_EXECUTE (hdcp_lib_clean o) wk_clean (rcvd_msg_sent o s) ∧
      (rcvd_msg_sent o s).handle = s.handle) ∧
    (s.handle.qseecom_handle = true → s.handle.hdcp_off = false →
      ((o.qseecom_send_command s.ncmd
          ⟨HDCP_TXMTR_SEND_MESSAGE_TIMEOUT, s.handle.tz_ctxhandle, 0, []⟩).status ≠ 0 ∨
        (o.qseecom_send_command s.ncmd
          ⟨HDCP_TXMTR_SEND_MESSAGE_TIMEOUT, s.handle.tz_ctxhandle, 0, []⟩).commandid
            = HDCP_TXMTR_SEND_MESSAGE_TIMEOUT) →
      hdcp_lib_timeout o s = HDCP_LIB_EXECUTE (hdcp_lib_clean o) wk_clean
        (qseecom_send_command o
          ⟨HDCP_TXMTR_SEND_MESSAGE_TIMEOUT, s.handle.tz_ctxhandle, 0, []⟩ s).2 ∧
      (qseecom_send_command o
          ⟨HDCP_TXMTR_SEND_MESSAGE_TIMEOUT, s.handle.tz_ctxhandle, 0, []⟩ s).2.handle
        = s.handle) ∧
    (s.handle.qseecom_handle = true → s.handle.hdcp_off = false →
      s.handle.repeater_flag = true →
      (o.qseecom_send_command s.ncmd
        ⟨HDCP_TXMTR_QUERY_STREAM_TYPE, s.handle.tz_ctxhandle, 0, []⟩).commandid
          ≠ HDCP_TXMTR_QUERY_STREAM_TYPE →
      (hdcp_lib_stream o s).handle = s.handle ∧
      notifications (hdcp_lib_stream o s).trace = notifications s.trace) := by
  refine ⟨fun hq happ hinit hbad => ?_, init_of_txmtr_init_failure o s,
    fun hq happ hinit hbad => ?_, fun hq hoff hlen hk hbuf hnh hnr hbad => ?_,
    fun hq hoff hbad => ?_, fun hq hoff hrep hbad => ?_⟩
  · rw [txmtr_init_rejected o s hq happ hinit hbad]
    exact ⟨rfl, rfl, by simp [qseecom_send_command, commands]⟩
  · rw [txmtr_deinit_rejected o s hq happ hinit hbad]
    exact ⟨rfl, rfl⟩
  · exact ⟨msg_recvd_rejected o s hq hoff hlen hk hbuf hnh hnr (Or.inr (Or.inr hbad)), rfl⟩
  · exact ⟨timeout_rejected o s hq hoff hbad, rfl⟩
  · rw [stream_rejected o s hq hoff hrep hbad]
    exact ⟨rfl, by simp [qseecom_send_command, notifications]⟩

theorem rejected_response_is_failure_witness :
    hdcp_lib_timeout env_key_fails sys_key_sent =
      HDCP_LIB_EXECUTE (hdcp_lib_clean env_key_fails) wk_clean
        (qseecom_send_command env_key_fails
          ⟨HDCP_TXMTR_SEND_MESSAGE_TIMEOUT, sys_key_sent.handle.tz_ctxhandle, 0, []⟩
          sys_key_sent).2 ∧
    (qseecom_send_command env_key_fails
        ⟨HDCP_TXMTR_SEND_MESSAGE_TIMEOUT, sys_key_sent.handle.tz_ctxhandle, 0, []⟩
        sys_key_sent).2.handle = sys_key_sent.handle :=
  (rejected_response_is_failure env_key_fails sys_key_sent).2.2.2.2.1 rfl rfl (Or.inr rfl)

/-- C4 (counterexample): in `env_mismatch` (1) the library-load response has
status 1 and a foreign command id, yet the session starts: APP_LOADED and
TXMTR_INIT are set, the first message is sent, the session stays active;
(2) the query-stream-type response has a foreign command id, and
`hdcp_lib_stream` drops it without any teardown; (3) the send-message-timeout
response carries a command id other than the one sent, and `hdcp_lib_timeout`
uses its payload: the LC_Init message becomes the pending outbound message and
is sent, with no teardown. -/
theorem mismatched_response_not_rejected :
    ((env_mismatch.qseecom_send_command 0 ⟨HDCP_LIB_INIT, 0, 0, []⟩).status = 1 ∧
      (env_mismatch.qseecom_send_command 0 ⟨HDCP_LIB_INIT, 0, 0, []⟩).commandid = 0 ∧
      sys_mismatch.handle.hdcp_state = 3 ∧
      notified sys_mismatch.trace = [HDMI_HDCP_WKUP_CMD_SEND_MESSAGE] ∧
      sys_mismatch.handle.hdcp_off = false) ∧
    (notified (hdcp_lib_stream env_mismatch sys_mismatch_repeater).trace =
        [HDMI_HDCP_WKUP_CMD_SEND_MESSAGE] ∧
      (hdcp_lib_stream env_mismatch sys_mismatch_repeater).handle.hdcp_off = false ∧
      (hdcp_lib_stream env_mismatch sys_mismatch_repeater).handle.work_list = []) ∧
    ((hdcp_lib_timeout env_mismatch sys_mismatch).handle.listener_buf.take 9 =
        [9, 1, 2, 3, 4, 5, 6, 7, 8] ∧
      (hdcp_lib_timeout env_mismatch sys_mismatch).handle.msglen = 9 ∧
      notified (hdcp_lib_timeout env_mismatch sys_mismatch).trace =
        [HDMI_HDCP_WKUP_CMD_SEND_MESSAGE, HDMI_HDCP_WKUP_CMD_SEND_MESSAGE] ∧
      (hdcp_lib_timeout env_mismatch sys_mismatch).handle.hdcp_off = false) := by
  decide

/-! ## Wakeup calls on a stopped session (C1, C2) -/

/-- C1 (the code at the failing input): after a stop whose library unload
failed, `hdcp_off` is set; the late wakeup(MSG_SEND_SUCCESS) for SKE_Send_Eks
then issues HDCP_TXMTR_SET_HW_KEY while `hdcp_off` is set, and delivers
STATUS_SUCCESS and LINK_POLL. -/
theorem set_hw_key_issued_while_hdcp_off :
    Reachable env_stale sys_stale_sent ∧
    sys_stale.handle.hdcp_off = true ∧
    commands sys_stale_sent.trace =
      commands sys_stale.trace ++ [(⟨HDCP_TXMTR_SET_HW_KEY, 7, 0, []⟩, true)] ∧
    notified sys_stale_sent.trace =
      notified sys_stale.trace ++
        [HDMI_HDCP_WKUP_CMD_STATUS_SUCCESS, HDMI_HDCP_WKUP_CMD_LINK_POLL] :=
  ⟨Reachable.wakeup _ _ (Reachable.wakeup _ _ (Reachable.wakeup _ _
      (Reachable.wakeup _ _ (Reachable.register 0 true true)))),
    by decide, by decide, by decide⟩

/-- C2 (the code at the failing input): on a stopped session (`hdcp_off` set,
APP_LOADED clear) wakeup(MSG_SEND_SUCCESS) returns 0 but is no silent no-op:
it records the message id in `last_msg_sent`, runs `hdcp_lib_msg_sent` and
delivers RECV_MESSAGE to the client. -/
theorem stale_wakeup_is_dispatched :
    sys_off.handle.hdcp_off = true ∧
    has_flag sys_off.handle.hdcp_state HDCP_STATE_APP_LOADED = false ∧
    (hdcp_lib_wakeup env_session (some wakeup_sent_data) sys_off).1 = 0 ∧
    notifications (hdcp_lib_wakeup env_session (some wakeup_sent_data) sys_off).2.trace =
      notifications sys_off.trace ++
        [{ cmd := HDMI_HDCP_WKUP_CMD_RECV_MESSAGE, context := 0, send_msg_buf := [],
           send_msg_len := 0, timeout := 33 }] ∧
    sys_off.handle.last_msg_sent = 0 ∧
    (hdcp_lib_wakeup env_session (some wakeup_sent_data) sys_off).2.handle.last_msg_sent
      = 2 := by
  decide

/-! ## What wakeup(START) resets (C11) -/

/-- A wakeup(START) that returns 0 has handed the reset session to the init
step. -/
theorem wakeup_start_accepted (o : Env) (d : hdcp_lib_wakeup_data) (s : Sys)
    (hcmd : d.cmd = HDCP_LIB_WKUP_CMD_START)
    (hrc : (hdcp_lib_wakeup o (some d) s).1 = 0) :
    ∃ len buf na, (hdcp_lib_wakeup o (some d) s).2 =
      HDCP_LIB_EXECUTE (hdcp_lib_init o) wk_init (start_state s len buf na) := by
  unfold hdcp_lib_wakeup at hrc ⊢
  dsimp only at hrc ⊢
  split_ifs at hrc ⊢ with h1 h2 h3 h4
  · simp [EINVAL] at hrc
  · exact absurd hrc h2
  · simp [ENOMEM] at hrc
  · exact ⟨d.recvd_msg_len, some (memcpy d.recvd_msg_buf d.recvd_msg_len), s.nalloc + 1, by
      simp [hdcp_lib_wakeup_switch, hdcp_lib_wakeup_record, hcmd, start_state]⟩
  · exact ⟨s.handle.last_msg_recvd_len, s.handle.last_msg_recvd_buf, s.nalloc, by
      simp [hdcp_lib_wakeup_switch, hdcp_lib_wakeup_record, hcmd, start_state]⟩

/-- C11: an accepted wakeup(START) (return code 0) hands to the init step a
session in which, whatever the state before, `no_stored_km_flag`,
`repeater_flag` and `update_stream` are false, `last_msg_sent`, `hdcp_timeout`
and `timeout_left` are 0, `hdcp_off` is clear and `hdcp_state` is
HDCP_STATE_INIT, with none of the bits APP_LOADED, TXMTR_INIT, AUTHENTICATED,
ERROR set; in threaded mode that is the session the call returns, with the
init step queued behind nothing. -/
theorem wakeup_start_resets (o : Env) (d : hdcp_lib_wakeup_data) (s : Sys)
    (hcmd : d.cmd = HDCP_LIB_WKUP_CMD_START)
    (hrc : (hdcp_lib_wakeup o (some d) s).1 = 0) :
    ∃ s0 : Sys,
      (hdcp_lib_wakeup o (some d) s).2 = HDCP_LIB_EXECUTE (hdcp_lib_init o) wk_init s0 ∧
      s0.handle.no_stored_km_flag = false ∧
      s0.handle.repeater_flag = false ∧
      s0.handle.update_stream = false ∧
      s0.handle.last_msg_sent = 0 ∧
      s0.handle.hdcp_timeout = 0 ∧
      s0.handle.timeout_left = 0 ∧
      s0.handle.hdcp_off = false ∧
      s0.handle.hdcp_state = HDCP_STATE_INIT ∧
      has_flag s0.handle.hdcp_state HDCP_STATE_APP_LOADED = false ∧
      has_flag s0.handle.hdcp_state HDCP_STATE_TXMTR_INIT = false ∧
      has_flag s0.handle.hdcp_state HDCP_STATE_AUTHENTICATED = false ∧
      has_flag s0.handle.hdcp_state HDCP_STATE_ERROR = false ∧
      s0.trace = s.trace ∧
      (s.handle.tethered = false →
        (hdcp_lib_wakeup o (some d) s).2 =
          { s0 with handle := { s0.handle with work_list := [wk_init] } }) := by
  obtain ⟨len, buf, na, h⟩ := wakeup_start_accepted o d s hcmd hrc
  refine ⟨start_state s len buf na, h, rfl, rfl, rfl, rfl, rfl, rfl, rfl, rfl,
    has_flag_init _, has_flag_init _, has_flag_init _, has_flag_init _, rfl, ?_⟩
  intro hth
  have hq : s.handle.work_list = [] := by
    by_contra hne
    unfold hdcp_lib_wakeup at hrc
    dsimp only at hrc
    split_ifs at hrc with h1 h2 h3 <;>
      simp_all [hdcp_lib_check_valid_state, hdcp_lib_wakeup_record, EINVAL, EBUSY, ENOMEM]
  rw [h]
  simp [HDCP_LIB_EXECUTE, queue_kthread_work, start_state, hth, hq]

/-- The reset at a stopped session whose `hdcp_off` and `update_stream` are
set: `sys_stale`, restarted in `env_stale`. -/
theorem wakeup_start_resets_witness :
    (sys_stale.handle.hdcp_off = true ∧ sys_stale.handle.update_stream = true) ∧
    ∃ s0 : Sys,
      (hdcp_lib_wakeup env_stale (some (wakeup_data HDCP_LIB_WKUP_CMD_START)) sys_stale).2
          = HDCP_LIB_EXECUTE (hdcp_lib_init env_stale) wk_init s0 ∧
      s0.handle.no_stored_km_flag = false ∧
      s0.handle.repeater_flag = false ∧
      s0.handle.update_stream = false ∧
      s0.handle.last_msg_sent = 0 ∧
      s0.handle.hdcp_timeout = 0 ∧
      s0.handle.timeout_left = 0 ∧
      s0.handle.hdcp_off = false ∧
      s0.handle.hdcp_state = HDCP_STATE_INIT ∧
      has_flag s0.handle.hdcp_state HDCP_STATE_APP_LOADED = false ∧
      has_flag s0.handle.hdcp_state HDCP_STATE_TXMTR_INIT = false ∧
      has_flag s0.handle.hdcp_state HDCP_STATE_AUTHENTICATED = false ∧
      has_flag s0.handle.hdcp_state HDCP_STATE_ERROR = false ∧
      s0.trace = sys_stale.trace ∧
      (sys_stale.handle.tethered = false →
        (hdcp_lib_wakeup env_stale (some (wakeup_data HDCP_LIB_WKUP_CMD_START)) sys_stale).2 =
          { s0 with handle := { s0.handle with work_list := [wk_init] } }) :=
  ⟨by decide,
   wakeup_start_resets env_stale (wakeup_data HDCP_LIB_WKUP_CMD_START) sys_stale rfl
    (by decide)⟩

/-! ## The busy guard of wakeup(START) (C12) -/

theorem worker_step_take (o : Env) (s : Sys) :
    kthread_worker_step o s =
      match kthread_worker_take s with
      | none => s
      | some (w, t) => kthread_work_func o w t := by
  unfold kthread_worker_step kthread_worker_take
  cases s.handle.work_list <;> rfl

/-- C12 (as amended): a wakeup(START) on a session whose worker list is not empty returns
-EBUSY and only records the command and the timeout of the call: no step is
queued or run, nothing is logged (no secure-channel command, no notification),
and `hdcp_state`, `hdcp_off`, `repeater_flag`, `no_stored_km_flag`,
`update_stream`, `last_msg_sent` and the stored received message are as
before; on a session whose worker list is empty it never returns -EBUSY. -/
theorem wakeup_start_busy (o : Env) (d : hdcp_lib_wakeup_data) (s : Sys)
    (hcmd : d.cmd = HDCP_LIB_WKUP_CMD_START) :
    (d.context = true → s.handle.work_list ≠ [] →
      hdcp_lib_wakeup o (some d) s = (-EBUSY, hdcp_lib_wakeup_record d s) ∧
      (hdcp_lib_wakeup o (some d) s).2.handle.work_list = s.handle.work_list ∧
      (hdcp_lib_wakeup o (some d) s).2.trace = s.trace ∧
      (hdcp_lib_wakeup o (some d) s).2.ncmd = s.ncmd ∧
      (hdcp_lib_wakeup o (some d) s).2.handle.hdcp_state = s.handle.hdcp_state ∧
      (hdcp_lib_wakeup o (some d) s).2.handle.hdcp_off = s.handle.hdcp_off ∧
      (hdcp_lib_wakeup o (some d) s).2.handle.repeater_flag = s.handle.repeater_flag ∧
      (hdcp_lib_wakeup o (some d) s).2.handle.no_stored_km_flag
        = s.handle.no_stored_km_flag ∧
      (hdcp_lib_wakeup o (some d) s).2.handle.update_stream = s.handle.update_stream ∧
      (hdcp_lib_wakeup o (some d) s).2.handle.last_msg_sent = s.handle.last_msg_sent ∧
      (hdcp_lib_wakeup o (some d) s).2.handle.last_msg_recvd_buf
        = s.handle.last_msg_recvd_buf ∧
      (hdcp_lib_wakeup o (some d) s).2.handle.last_msg_recvd_len
        = s.handle.last_msg_recvd_len) ∧
    (s.handle.work_list = [] → (hdcp_lib_wakeup o (some d) s).1 ≠ -EBUSY) := by
  constructor
  · intro hctx hq
    have h : hdcp_lib_wakeup o (some d) s = (-EBUSY, hdcp_lib_wakeup_record d s) := by
      simp [hdcp_lib_wakeup, hdcp_lib_check_valid_state, hdcp_lib_wakeup_record, hctx, hcmd,
        hq, EBUSY]
    rw [h]
    exact ⟨rfl, rfl, rfl, rfl, rfl, rfl, rfl, rfl, rfl, rfl, rfl, rfl⟩
  · intro hq
    unfold hdcp_lib_wakeup
    dsimp only
    split_ifs with h1 h2 h3
    · simp [EINVAL, EBUSY]
    · simp [hdcp_lib_check_valid_state, hdcp_lib_wakeup_record, hcmd, hq] at h2
    · simp [ENOMEM, EBUSY]
    · simp [EBUSY]
    · simp [EBUSY]

/-- The busy guard at the threaded session `sys_threaded`, whose init step is
queued. -/
theorem wakeup_start_busy_witness :
    sys_threaded.handle.work_list = [wk_init] ∧
    (hdcp_lib_wakeup env_session (some (wakeup_data HDCP_LIB_WKUP_CMD_START)) sys_threaded).1
      = -EBUSY ∧
    (hdcp_lib_wakeup env_session (some (wakeup_data HDCP_LIB_WKUP_CMD_START))
      sys_threaded).2.trace = sys_threaded.trace :=
  ⟨by decide,
   congrArg Prod.fst ((wakeup_start_busy env_session (wakeup_data HDCP_LIB_WKUP_CMD_START)
      sys_threaded rfl).1 rfl (by decide)).1,
   ((wakeup_start_busy env_session (wakeup_data HDCP_LIB_WKUP_CMD_START)
      sys_threaded rfl).1 rfl (by decide)).2.2.1⟩

/-- C12 (counterexample): a wakeup(START) issued while the init step is running
on the worker (the worker has taken it off its list and not yet finished it)
is not rejected: it returns 0 and queues the init step again. -/
theorem start_accepted_while_step_runs :
    kthread_worker_take sys_threaded = some (wk_init, sys_init_running) ∧
    (hdcp_lib_wakeup env_session (some (wakeup_data HDCP_LIB_WKUP_CMD_START))
      sys_init_running).1 = 0 ∧
    (hdcp_lib_wakeup env_session (some (wakeup_data HDCP_LIB_WKUP_CMD_START))
      sys_init_running).2.handle.work_list = [wk_init] := by
  decide

/-! ## The repeater flag (C14, C15) -/

@[simp] theorem queue_kthread_work_repeater_flag (w : kthread_work) (s : Sys) :
    (queue_kthread_work w s).handle.repeater_flag = s.handle.repeater_flag := by
  obtain ⟨l, h⟩ := queue_kthread_work_handle w s
  rw [h]

theorem execute_repeater_flag (f : Sys → Sys) (w : kthread_work) (s : Sys)
    (hf : ∀ t, (f t).handle.repeater_flag = t.handle.repeater_flag) :
    (HDCP_LIB_EXECUTE f w s).handle.repeater_flag = s.handle.repeater_flag := by
  unfold HDCP_LIB_EXECUTE
  split_ifs
  · exact hf s
  · exact queue_kthread_work_repeater_flag w s

@[simp] theorem library_load_repeater_flag (o : Env) (s : Sys) :
    (hdcp_lib_library_load o s).2.handle.repeater_flag = s.handle.repeater_flag := by
  unfold hdcp_lib_library_load qseecom_start_app qseecom_send_command; dsimp only
  split_ifs <;> rfl

@[simp] theorem library_unload_repeater_flag (o : Env) (s : Sys) :
    (hdcp_lib_library_unload o s).2.handle.repeater_flag = s.handle.repeater_flag := by
  obtain ⟨st, q, h⟩ := library_unload_handle o s
  rw [h]

@[simp] theorem txmtr_init_repeater_flag (o : Env) (s : Sys) :
    (hdcp_lib_txmtr_init o s).2.handle.repeater_flag = s.handle.repeater_flag := by
  unfold hdcp_lib_txmtr_init qseecom_send_command; dsimp only
  split_ifs <;> rfl

@[simp] theorem clean_repeater_flag (o : Env) (s : Sys) :
    (hdcp_lib_clean o s).handle.repeater_flag = s.handle.repeater_flag := by
  obtain ⟨st, q, h⟩ := clean_handle o s
  rw [h]

@[simp] theorem execute_clean_repeater_flag (o : Env) (s : Sys) :
    (HDCP_LIB_EXECUTE (hdcp_lib_clean o) wk_clean s).handle.repeater_flag
      = s.handle.repeater_flag :=
  execute_repeater_flag _ _ _ (clean_repeater_flag o)

@[simp] theorem stream_repeater_flag (o : Env) (s : Sys) :
    (hdcp_lib_stream o s).handle.repeater_flag = s.handle.repeater_flag := by
  unfold hdcp_lib_stream hdcp_lib_send_message qseecom_send_command; dsimp only
  split_ifs <;> simp only [wakeup_client_handle]

@[simp] theorem enable_encryption_repeater_flag (o : Env) (s : Sys) :
    (hdcp_lib_enable_encryption o s).2.handle.repeater_flag = s.handle.repeater_flag := by
  unfold hdcp_lib_enable_encryption hdcp_lib_enable_encryption_error qseecom_send_command
  dsimp only
  split_ifs <;> simp only [execute_clean_repeater_flag]

@[simp] theorem msg_sent_repeater_flag (o : Env) (s : Sys) :
    (hdcp_lib_msg_sent o s).handle.repeater_flag = s.handle.repeater_flag := by
  unfold hdcp_lib_msg_sent; dsimp only
  split_ifs <;>
    simp only [wakeup_client_handle, execute_clean_repeater_flag,
      enable_encryption_repeater_flag, queue_kthread_work_repeater_flag,
      execute_repeater_flag _ _ _ (stream_repeater_flag o)]

@[simp] theorem init_repeater_flag (o : Env) (s : Sys) :
    (hdcp_lib_init o s).handle.repeater_flag = s.handle.repeater_flag := by
  unfold hdcp_lib_init hdcp_lib_send_message; dsimp only
  split_ifs <;>
    simp only [wakeup_client_handle, execute_clean_repeater_flag,
      txmtr_init_repeater_flag, library_load_repeater_flag]

@[simp] theorem timeout_repeater_flag (o : Env) (s : Sys) :
    (hdcp_lib_timeout o s).handle.repeater_flag = s.handle.repeater_flag := by
  unfold hdcp_lib_timeout hdcp_lib_timeout_error hdcp_lib_send_message qseecom_send_command
  dsimp only
  split_ifs <;> simp only [wakeup_client_handle, execute_clean_repeater_flag]

@[simp] theorem msg_recvd_exit_repeater_flag (o : Env) (rc : Int)
    (cd : hdmi_hdcp_wakeup_data) (s : Sys) :
    (hdcp_lib_msg_recvd_exit o rc cd s).handle.repeater_flag = s.handle.repeater_flag := by
  unfold hdcp_lib_msg_recvd_exit; dsimp only
  split_ifs <;> simp only [wakeup_client_handle, execute_clean_repeater_flag]

@[simp] theorem topology_work_repeater_flag (o : Env) (s : Sys) :
    (hdcp_lib_topology_work o s).handle.repeater_flag = s.handle.repeater_flag := by
  unfold hdcp_lib_topology_work hdcp_lib_topology_wait; dsimp only
  split_ifs <;> simp only [execute_clean_repeater_flag]

@[simp] theorem feature_supported_repeater_flag (o : Env) (s : Sys) :
    (hdcp_lib_client_feature_supported o s).2.handle.repeater_flag
      = s.handle.repeater_flag := by
  unfold hdcp_lib_client_feature_supported; dsimp only
  split_ifs <;> simp only [library_unload_repeater_flag, library_load_repeater_flag]

@[simp] theorem update_exec_type_repeater_flag (tethered : Bool) (s : Sys) :
    (hdcp_lib_update_exec_type tethered s).handle.repeater_flag = s.handle.repeater_flag := by
  unfold hdcp_lib_update_exec_type; split_ifs <;> rfl

/-- What `hdcp_lib_msg_recvd` does to the repeater flag once the secure
channel has answered: only the general case, with an SKE_Send_Eks response of
25 bytes in the waiting-for-receiver-ID-list sub-state and a non-zero timeout,
sets it; nothing clears it. -/
theorem msg_recvd_rsp_repeater_flag (o : Env) (cd : hdmi_hdcp_wakeup_data) (msg : List Nat)
    (rsp : TzRsp) (s : Sys) :
    (hdcp_lib_msg_recvd_rsp o cd msg rsp s).handle.repeater_flag =
      if ¬ (msg.getD 0 0 = AKE_SEND_H_PRIME_MESSAGE_ID ∧ s.handle.no_stored_km_flag = true) ∧
          ¬ (msg.getD 0 0 = REPEATER_AUTH_STREAM_READY_MESSAGE_ID ∧
            rsp.rc = 0 ∧ rsp.status = 0) ∧
          ¬ (rsp.rc < 0 ∨ rsp.status < 0 ∨ rsp.msglen ≤ 0 ∨
            rsp.commandid ≠ HDCP_TXMTR_PROCESS_RECEIVED_MESSAGE) ∧
          (rsp.msg.getD 0 0 = SKE_SEND_EKS_MESSAGE_ID ∧
            rsp.msglen = SKE_SEND_EKS_MESSAGE_SIZE) ∧
          (rsp.flag = HDCP_TXMTR_SUBSTATE_WAITING_FOR_RECIEVERID_LIST ∧ rsp.timeout > 0)
      then true else s.handle.repeater_flag := by
  unfold hdcp_lib_msg_recvd_rsp; dsimp only
  split_ifs with h1 h2 h3 h4 h5 h6 h7 h8
  all_goals simp only [msg_recvd_exit_repeater_flag]
  all_goals simp_all
  all_goals omega

theorem msg_recvd_repeater_flag_mono (o : Env) (s : Sys)
    (h : s.handle.repeater_flag = true) :
    (hdcp_lib_msg_recvd o s).handle.repeater_flag = true := by
  unfold hdcp_lib_msg_recvd; dsimp only
  split_ifs
  all_goals first
    | (split <;>
        simp only [msg_recvd_rsp_repeater_flag, qseecom_send_command, h, ite_self])
    | simp only [msg_recvd_exit_repeater_flag, h]

theorem wakeup_switch_repeater_flag_mono (o : Env) (s : Sys)
    (hcmd : s.handle.wakeup_cmd ≠ HDCP_LIB_WKUP_CMD_START)
    (h : s.handle.repeater_flag = true) :
    (hdcp_lib_wakeup_switch o s).handle.repeater_flag = true := by
  unfold hdcp_lib_wakeup_switch
  split
  · rename_i hc; exact absurd hc hcmd
  · rw [execute_clean_repeater_flag]; exact h
  · rw [execute_repeater_flag _ _ _ (msg_sent_repeater_flag o)]; exact h
  · rw [execute_clean_repeater_flag]; exact h
  · rw [execute_clean_repeater_flag]; exact h
  · unfold HDCP_LIB_EXECUTE
    split_ifs
    · exact msg_recvd_repeater_flag_mono o s h
    · rw [queue_kthread_work_repeater_flag]; exact h
  · rw [execute_repeater_flag _ _ _ (timeout_repeater_flag o)]; exact h
  · rw [execute_repeater_flag _ _ _ (stream_repeater_flag o)]; exact h
  · exact h

theorem wakeup_repeater_flag_mono (o : Env) (data : Option hdcp_lib_wakeup_data) (s : Sys)
    (hacc : ¬ ∃ d, data = some d ∧ d.cmd = HDCP_LIB_WKUP_CMD_START ∧
      (hdcp_lib_wakeup o data s).1 = 0)
    (h : s.handle.repeater_flag = true) :
    (hdcp_lib_wakeup o data s).2.handle.repeater_flag = true := by
  cases data with
  | none => exact h
  | some d =>
    have hcmd : d.cmd = HDCP_LIB_WKUP_CMD_START → (hdcp_lib_wakeup o (some d) s).1 ≠ 0 :=
      fun hc h0 => hacc ⟨d, rfl, hc, h0⟩
    clear hacc
    unfold hdcp_lib_wakeup at hcmd ⊢
    dsimp only at hcmd ⊢
    split_ifs at hcmd ⊢ with h1 h2 h3
    · exact h
    · exact h
    · exact h
    · refine wakeup_switch_repeater_flag_mono o _ ?_ h
      intro hc; exact hcmd hc rfl
    · refine wakeup_switch_repeater_flag_mono o _ ?_ h
      intro hc; exact hcmd hc rfl

theorem worker_step_repeater_flag_mono (o : Env) (s : Sys)
    (h : s.handle.repeater_flag = true) :
    (kthread_worker_step o s).handle.repeater_flag = true := by
  unfold kthread_worker_step
  split
  · exact h
  · rename_i w rest hw
    have hp : (kthread_worker_pop s).handle.repeater_flag = true := h
    cases w
    · show (hdcp_lib_init o _).handle.repeater_flag = true
      rw [init_repeater_flag]; exact hp
    · show (hdcp_lib_msg_sent_work o _).handle.repeater_flag = true
      unfold hdcp_lib_msg_sent_work
      split_ifs
      · exact hp
      · rw [msg_sent_repeater_flag]; exact hp
    · exact msg_recvd_repeater_flag_mono o _ hp
    · show (hdcp_lib_timeout o _).handle.repeater_flag = true
      rw [timeout_repeater_flag]; exact hp
    · show (hdcp_lib_clean o _).handle.repeater_flag = true
      rw [clean_repeater_flag]; exact hp
    · show (hdcp_lib_topology_work o _).handle.repeater_flag = true
      rw [topology_work_repeater_flag]; exact hp
    · show (hdcp_lib_stream o _).handle.repeater_flag = true
      rw [stream_repeater_flag]; exact hp

/-- C14 (as amended): on an active session whose received message is held in
a buffer that is there (not NULL) and reaches the secure channel,
`hdcp_lib_msg_recvd` sets `repeater_flag` when it accepts, in
its general case, a response that is SKE_Send_Eks (id 11) of exactly 25 bytes
with flag 1 (waiting for the receiver-ID list) and a timeout greater than 0;
for every response that is not of that kind (another message or size, another
flag, or a timeout of 0) it leaves `repeater_flag` as it was. -/
theorem msg_recvd_sets_repeater_flag (o : Env) (s : Sys) (rsp : TzRsp)
    (hq : s.handle.qseecom_handle = true) (hoff : s.handle.hdcp_off = false)
    (hlen : 0 < s.handle.last_msg_recvd_len) (hk : o.kzalloc s.nalloc = true)
    (hbuf : s.handle.last_msg_recvd_buf ≠ none)
    (hrsp : o.qseecom_send_command s.ncmd (rcvd_msg_req s) = rsp) :
    (¬ ((rcvd_msg_req s).msg.getD 0 0 = AKE_SEND_H_PRIME_MESSAGE_ID ∧
        s.handle.no_stored_km_flag = true) →
      ¬ ((rcvd_msg_req s).msg.getD 0 0 = REPEATER_AUTH_STREAM_READY_MESSAGE_ID ∧
        rsp.rc = 0 ∧ rsp.status = 0) →
      0 ≤ rsp.rc → rsp.commandid = HDCP_TXMTR_PROCESS_RECEIVED_MESSAGE →
      rsp.msg.getD 0 0 = SKE_SEND_EKS_MESSAGE_ID →
      rsp.msglen = SKE_SEND_EKS_MESSAGE_SIZE →
      rsp.flag = HDCP_TXMTR_SUBSTATE_WAITING_FOR_RECIEVERID_LIST →
      0 < rsp.timeout →
      (hdcp_lib_msg_recvd o s).handle.repeater_flag = true) ∧
    (¬ (rsp.msg.getD 0 0 = SKE_SEND_EKS_MESSAGE_ID ∧
        rsp.msglen = SKE_SEND_EKS_MESSAGE_SIZE ∧
        rsp.flag = HDCP_TXMTR_SUBSTATE_WAITING_FOR_RECIEVERID_LIST ∧ 0 < rsp.timeout) →
      (hdcp_lib_msg_recvd o s).handle.repeater_flag = s.handle.repeater_flag) := by
  have hh : (rcvd_msg_sent o s).handle = s.handle := rfl
  rw [msg_recvd_calls o s hq hoff hlen hk hbuf, msg_recvd_rsp_repeater_flag, hrsp, hh]
  constructor
  · intro h1 h2 h3 h4 h5 h6 h7 h8
    rw [if_pos]
    refine ⟨h1, h2, ?_, ⟨h5, h6⟩, h7, h8⟩
    rw [h6]
    simp [h4]
    omega
  · intro hn
    rw [if_neg]
    rintro ⟨-, -, -, ⟨a, b⟩, c, d⟩
    exact hn ⟨a, b, c, d⟩

/-- The repeater is detected in `env_ske 100`, where the SKE_Send_Eks response
carries flag 1 and a timeout of 100 ms. -/
theorem msg_recvd_sets_repeater_flag_witness :
    sys_l_prime.handle.repeater_flag = false ∧
    (hdcp_lib_msg_recvd (env_ske 100) sys_l_prime).handle.repeater_flag = true :=
  ⟨by decide,
   (msg_recvd_sets_repeater_flag (env_ske 100) sys_l_prime _ (by decide) (by decide)
      (by decide) (by decide) (by decide) rfl).1
      (by decide) (by decide) (by decide) (by decide) (by decide) (by decide) (by decide)
      (by decide)⟩

/-- C14 (counterexample): in `env_ske 0` the accepted response is SKE_Send_Eks
of 25 bytes with flag 1, but its timeout is 0: `repeater_flag` is still false
afterwards. -/
theorem repeater_flag_needs_timeout :
    sys_l_prime.handle.qseecom_handle = true ∧
    sys_l_prime.handle.hdcp_off = false ∧
    (rcvd_msg_req sys_l_prime).msg = [10] ∧
    ((env_ske 0).qseecom_send_command sys_l_prime.ncmd (rcvd_msg_req sys_l_prime)).rc = 0 ∧
    ((env_ske 0).qseecom_send_command sys_l_prime.ncmd (rcvd_msg_req sys_l_prime)).commandid
      = HDCP_TXMTR_PROCESS_RECEIVED_MESSAGE ∧
    ((env_ske 0).qseecom_send_command sys_l_prime.ncmd (rcvd_msg_req sys_l_prime)).msg.getD 0 0
      = SKE_SEND_EKS_MESSAGE_ID ∧
    ((env_ske 0).qseecom_send_command sys_l_prime.ncmd (rcvd_msg_req sys_l_prime)).msglen
      = 25 ∧
    ((env_ske 0).qseecom_send_command sys_l_prime.ncmd (rcvd_msg_req sys_l_prime)).flag = 1 ∧
    (hdcp_lib_msg_recvd (env_ske 0) sys_l_prime).handle.listener_buf.take 25
      = 11 :: List.replicate 24 0 ∧
    (hdcp_lib_msg_recvd (env_ske 0) sys_l_prime).handle.repeater_flag = false := by
  decide

/-- C15: `repeater_flag`, once true, is still true after `hdcp_lib_msg_sent`,
`hdcp_lib_msg_recvd`, `hdcp_lib_timeout`, `hdcp_lib_stream`, the teardown step
`hdcp_lib_clean`, `hdcp_lib_init`, the topology step, any step run by the
worker, `hdcp_lib_update_exec_type`, the feature-support query, and every
`hdcp_lib_wakeup` call other than a wakeup(START) that returns 0. -/
theorem repeater_flag_monotone (o : Env) (s : Sys) (h : s.handle.repeater_flag = true) :
    (hdcp_lib_msg_sent o s).handle.repeater_flag = true ∧
    (hdcp_lib_msg_recvd o s).handle.repeater_flag = true ∧
    (hdcp_lib_timeout o s).handle.repeater_flag = true ∧
    (hdcp_lib_stream o s).handle.repeater_flag = true ∧
    (hdcp_lib_clean o s).handle.repeater_flag = true ∧
    (hdcp_lib_init o s).handle.repeater_flag = true ∧
    (hdcp_lib_topology_work o s).handle.repeater_flag = true ∧
    (kthread_worker_step o s).handle.repeater_flag = true ∧
    (∀ tethered, (hdcp_lib_update_exec_type tethered s).handle.repeater_flag = true) ∧
    (hdcp_lib_client_feature_supported o s).2.handle.repeater_flag = true ∧
    (∀ data : Option hdcp_lib_wakeup_data,
      ¬ (∃ d, data = some d ∧ d.cmd = HDCP_LIB_WKUP_CMD_START ∧
        (hdcp_lib_wakeup o data s).1 = 0) →
      (hdcp_lib_wakeup o data s).2.handle.repeater_flag = true) := by
  refine ⟨?_, msg_recvd_repeater_flag_mono o s h, ?_, ?_, ?_, ?_, ?_,
    worker_step_repeater_flag_mono o s h, ?_, ?_,
    fun data hacc => wakeup_repeater_flag_mono o data s hacc h⟩
  · rw [msg_sent_repeater_flag]; exact h
  · rw [timeout_repeater_flag]; exact h
  · rw [stream_repeater_flag]; exact h
  · rw [clean_repeater_flag]; exact h
  · rw [init_repeater_flag]; exact h
  · rw [topology_work_repeater_flag]; exact h
  · intro t; rw [update_exec_type_repeater_flag]; exact h
  · rw [feature_supported_repeater_flag]; exact h

/-- The flag survives a wakeup(STOP) and the teardown it runs, at the repeater
session `sys_mismatch_repeater`. -/
theorem repeater_flag_monotone_witness :
    sys_mismatch_repeater.handle.repeater_flag = true ∧
    (hdcp_lib_wakeup env_mismatch (some (wakeup_data HDCP_LIB_WKUP_CMD_STOP))
      sys_mismatch_repeater).2.handle.repeater_flag = true ∧
    (hdcp_lib_clean env_mismatch sys_mismatch_repeater).handle.repeater_flag = true :=
  ⟨by decide,
   (repeater_flag_monotone env_mismatch sys_mismatch_repeater (by decide)).2.2.2.2.2.2.2.2.2.2
      _ (by decide),
   (repeater_flag_monotone env_mismatch sys_mismatch_repeater (by decide)).2.2.2.2.1⟩

/-! ## Accepted responses to a received message (C13, C20) -/

theorem wakeup_client_sends (o : Env) (d : hdmi_hdcp_wakeup_data) (s : Sys)
    (hops : s.handle.client_ops = true) (hcmd : d.cmd ≠ HDMI_HDCP_WKUP_CMD_INVALID) :
    hdcp_lib_wakeup_client o d s =
      { s with nwake := s.nwake + 1, trace := s.trace ++ [Event.notify d] } := by
  unfold hdcp_lib_wakeup_client; dsimp only
  rw [if_pos ⟨hops, hcmd⟩]
  split_ifs <;> rfl

theorem msg_recvd_exit_ok (o : Env) (cd : hdmi_hdcp_wakeup_data) (s : Sys) :
    hdcp_lib_msg_recvd_exit o 0 cd s = hdcp_lib_wakeup_client o cd s := by
  unfold hdcp_lib_msg_recvd_exit; simp

/-- C20: on an active session with a client callback and `no_stored_km_flag`
set, whose received message is AKE_Send_H_prime (id 7) and is copied, when the
secure channel returns 0 `hdcp_lib_msg_recvd` sends the message to the secure
channel, takes `hdcp_timeout` from the response and changes nothing else in
the handle (`listener_buf` and `msglen` included); the only notification is
RECV_MESSAGE with that timeout, and no teardown is run or queued. -/
theorem msg_recvd_h_prime_no_stored_km (o : Env) (s : Sys) (rsp : TzRsp)
    (hq : s.handle.qseecom_handle = true) (hoff : s.handle.hdcp_off = false)
    (hops : s.handle.client_ops = true)
    (hlen : 0 < s.handle.last_msg_recvd_len) (hk : o.kzalloc s.nalloc = true)
    (hrsp : o.qseecom_send_command s.ncmd (rcvd_msg_req s) = rsp)
    (hmsg : (rcvd_msg_req s).msg.getD 0 0 = AKE_SEND_H_PRIME_MESSAGE_ID)
    (hkm : s.handle.no_stored_km_flag = true)
    (hrc : rsp.rc = 0) :
    hdcp_lib_msg_recvd o s =
      { s with
        nalloc := s.nalloc + 1,
        ncmd := s.ncmd + 1,
        nwake := s.nwake + 1,
        trace := s.trace ++
          [Event.cmd (rcvd_msg_req s) false,
           Event.notify
             { cmd := HDMI_HDCP_WKUP_CMD_RECV_MESSAGE,
               context := s.handle.client_ctx,
               send_msg_buf := [], send_msg_len := 0,
               timeout := rsp.timeout }],
        handle := { s.handle with hdcp_timeout := rsp.timeout } } := by
  have hh : (rcvd_msg_sent o s).handle = s.handle := rfl
  have hsp : (rcvd_msg_req s).msg.getD 0 0 = AKE_SEND_H_PRIME_MESSAGE_ID ∧
      (rcvd_msg_sent o s).handle.no_stored_km_flag = true := ⟨hmsg, hkm⟩
  have hbuf := recvd_buf_of_first_byte s (by rw [hmsg]; decide)
  rw [msg_recvd_calls o s hq hoff hlen hk hbuf, hrsp]
  unfold hdcp_lib_msg_recvd_rsp; dsimp only
  rw [if_pos hsp, hrc, msg_recvd_exit_ok]
  simp [hdcp_lib_wakeup_client, rcvd_msg_sent, qseecom_send_command, hoff, hops]

/-- The H' message under `no_stored_km_flag` in `env_session`: the timeout of
100 ms is taken from the response and RECV_MESSAGE is delivered. -/
theorem msg_recvd_h_prime_no_stored_km_witness :
    sys_h_prime.handle.no_stored_km_flag = true ∧
    (hdcp_lib_msg_recvd env_session sys_h_prime).handle
      = { sys_h_prime.handle with hdcp_timeout := 100 } ∧
    notified (hdcp_lib_msg_recvd env_session sys_h_prime).trace
      = notified sys_h_prime.trace ++ [HDMI_HDCP_WKUP_CMD_RECV_MESSAGE] :=
  have h := msg_recvd_h_prime_no_stored_km env_session sys_h_prime _ (by decide) (by decide)
    (by decide) (by decide) (by decide) rfl (by decide) (by decide) (by decide)
  ⟨by decide, by rw [h]; rfl, by rw [h]; decide⟩

/-! ## The timeout resend (C16) -/

/-- C16 (as amended): on an active session with a client callback, when the
secure channel answers the send-message-timeout command with a return code
that is not negative, status 0, the command id
HDCP_TXMTR_PROCESS_RECEIVED_MESSAGE and the LC_Init message (first byte 9) of
exactly 9 bytes, `hdcp_lib_timeout` makes those 9 bytes the pending outbound
message, takes `hdcp_timeout` from the response, delivers exactly one
notification, SEND_MESSAGE with the same bytes, and changes nothing else: no
teardown is run or queued. -/
theorem timeout_resends_lc_init (o : Env) (s : Sys) (rsp : TzRsp)
    (hq : s.handle.qseecom_handle = true) (hoff : s.handle.hdcp_off = false)
    (hops : s.handle.client_ops = true)
    (hrsp : o.qseecom_send_command s.ncmd (timeout_req s) = rsp)
    (hrc : 0 ≤ rsp.rc) (hst : rsp.status = 0)
    (hid : rsp.commandid = HDCP_TXMTR_PROCESS_RECEIVED_MESSAGE)
    (hmsg : rsp.msg.getD 0 0 = LC_INIT_MESSAGE_ID)
    (hlen : rsp.msglen = LC_INIT_MESSAGE_SIZE) :
    hdcp_lib_timeout o s =
      { s with
        ncmd := s.ncmd + 1,
        nwake := s.nwake + 1,
        trace := s.trace ++
          [Event.cmd (timeout_req s) false,
           Event.notify
             { cmd := HDMI_HDCP_WKUP_CMD_SEND_MESSAGE,
               context := s.handle.client_ctx,
               send_msg_buf := memcpy rsp.msg 9 ++ List.replicate (MAX_TX_MESSAGE_SIZE - 9) 0,
               send_msg_len := 9,
               timeout := rsp.timeout }],
        handle := { s.handle with
          listener_buf := memcpy rsp.msg 9 ++ List.replicate (MAX_TX_MESSAGE_SIZE - 9) 0,
          hdcp_timeout := rsp.timeout,
          msglen := 9 } } := by
  have hq2 : ¬ s.handle.qseecom_handle = false := by simp [hq]
  have hoff2 : ¬ s.handle.hdcp_off = true := by simp [hoff]
  have hrsp2 : o.qseecom_send_command s.ncmd
      ⟨HDCP_TXMTR_SEND_MESSAGE_TIMEOUT, s.handle.tz_ctxhandle, 0, []⟩ = rsp := hrsp
  have h1 : ¬ (rsp.rc < 0 ∨ rsp.status ≠ HDCP_SUCCESS) := by
    rw [hst]; simp; omega
  have h2 : ¬ rsp.commandid = HDCP_TXMTR_SEND_MESSAGE_TIMEOUT := by
    rw [hid]; decide
  unfold hdcp_lib_timeout; dsimp only
  rw [if_neg hq2, if_neg hoff2]
  unfold qseecom_send_command; dsimp only
  rw [hrsp2, if_neg h1, if_neg h2, if_pos ⟨hid, hmsg, hlen⟩, if_pos hoff, hlen]
  simp [hdcp_lib_send_message, hdcp_lib_wakeup_client, hops, hoff, timeout_req,
    fill_listener_buf]
  exact ⟨rfl, rfl⟩

/-- The resend in `env_mismatch`, whose timeout response carries the id
HDCP_TXMTR_PROCESS_RECEIVED_MESSAGE and LC_Init. -/
theorem timeout_resends_lc_init_witness :
    (hdcp_lib_timeout env_mismatch sys_mismatch).handle.listener_buf
      = [9, 1, 2, 3, 4, 5, 6, 7, 8] ++ List.replicate 120 0 ∧
    (hdcp_lib_timeout env_mismatch sys_mismatch).handle.msglen = 9 ∧
    (hdcp_lib_timeout env_mismatch sys_mismatch).handle.hdcp_off = false ∧
    notified (hdcp_lib_timeout env_mismatch sys_mismatch).trace
      = notified sys_mismatch.trace ++ [HDMI_HDCP_WKUP_CMD_SEND_MESSAGE] :=
  have h := timeout_resends_lc_init env_mismatch sys_mismatch _ (by decide) (by decide)
    (by decide) rfl (by decide) (by decide) (by decide) (by decide) (by decide)
  ⟨by rw [h]; decide, by rw [h], by rw [h]; decide, by rw [h]; decide⟩

/-- C16 (counterexample): in `env_timeout_echo` the secure channel answers the
timeout command successfully (return code 0, status 0) with the 9-byte LC_Init message, under
the echoed command id: nothing is resent, the pending message is left alone
and the session is torn down. -/
theorem timeout_echo_tears_down :
    sys_session.handle.qseecom_handle = true ∧
    sys_session.handle.hdcp_off = false ∧
    (env_timeout_echo.qseecom_send_command sys_session.ncmd (timeout_req sys_session)).rc = 0 ∧
    (env_timeout_echo.qseecom_send_command sys_session.ncmd (timeout_req sys_session)).status
      = 0 ∧
    (env_timeout_echo.qseecom_send_command sys_session.ncmd (timeout_req sys_session)).msg
      = [9, 1, 2, 3, 4, 5, 6, 7, 8] ∧
    (env_timeout_echo.qseecom_send_command sys_session.ncmd (timeout_req sys_session)).msglen
      = 9 ∧
    notified (hdcp_lib_timeout env_timeout_echo sys_session).trace
      = notified sys_session.trace ++ [HDMI_HDCP_WKUP_CMD_STATUS_FAILED] ∧
    (hdcp_lib_timeout env_timeout_echo sys_session).handle.listener_buf
      = sys_session.handle.listener_buf ∧
    (hdcp_lib_timeout env_timeout_echo sys_session).handle.hdcp_off = true := by
  decide

/-! ## After a message was sent (C17, C18, C19) -/

theorem queue_kthread_work_eq (w : kthread_work) (s : Sys) :
    ∃ l, queue_kthread_work w s = { s with handle := { s.handle with work_list := l } } := by
  unfold queue_kthread_work; split_ifs <;> exact ⟨_, rfl⟩

theorem enable_encryption_accepted (o : Env) (t : Sys) (rsp : TzRsp)
    (hq : t.handle.qseecom_handle = true)
    (hrsp : o.qseecom_send_command t.ncmd (set_hw_key_req t) = rsp) (hrc : 0 ≤ rsp.rc) :
    hdcp_lib_enable_encryption o t =
      (0, { t with
        ncmd := t.ncmd + 1,
        trace := t.trace ++ [Event.cmd (set_hw_key_req t) t.handle.hdcp_off],
        handle := { t.handle with
          hdcp_state := set_flag t.handle.hdcp_state HDCP_STATE_AUTHENTICATED } }) := by
  have hq2 : ¬ t.handle.qseecom_handle = false := by simp [hq]
  have hrsp2 : o.qseecom_send_command t.ncmd
      ⟨HDCP_TXMTR_SET_HW_KEY, t.handle.tz_ctxhandle, 0, []⟩ = rsp := hrsp
  have h1 : ¬ (rsp.rc < 0 ∨ rsp.status < 0) := by simp; omega
  unfold hdcp_lib_enable_encryption; dsimp only
  rw [if_neg hq2]
  unfold qseecom_send_command; dsimp only
  rw [hrsp2, if_neg h1]
  rfl

/-- C17: on a session with a secure-channel handle and a client callback whose
`last_msg_sent` is SKE_Send_Eks (11), when the set-hw-key command is accepted
(its return code is not negative) `hdcp_lib_msg_sent` sets the AUTHENTICATED
bit, leaves the APP_LOADED and TXMTR_INIT bits as they were, issues that one
command and delivers exactly two notifications, STATUS_SUCCESS and then
LINK_POLL. -/
theorem msg_sent_authenticates (o : Env) (s : Sys) (rsp : TzRsp)
    (hq : s.handle.qseecom_handle = true) (hops : s.handle.client_ops = true)
    (hlast : s.handle.last_msg_sent = SKE_SEND_EKS_MESSAGE_ID)
    (hrsp : o.qseecom_send_command s.ncmd (set_hw_key_req s) = rsp) (hrc : 0 ≤ rsp.rc) :
    has_flag (hdcp_lib_msg_sent o s).handle.hdcp_state HDCP_STATE_AUTHENTICATED = true ∧
    has_flag (hdcp_lib_msg_sent o s).handle.hdcp_state HDCP_STATE_APP_LOADED
      = has_flag s.handle.hdcp_state HDCP_STATE_APP_LOADED ∧
    has_flag (hdcp_lib_msg_sent o s).handle.hdcp_state HDCP_STATE_TXMTR_INIT
      = has_flag s.handle.hdcp_state HDCP_STATE_TXMTR_INIT ∧
    (hdcp_lib_msg_sent o s).handle.hdcp_off = s.handle.hdcp_off ∧
    (hdcp_lib_msg_sent o s).trace = s.trace ++
      [Event.cmd (set_hw_key_req s) s.handle.hdcp_off,
       Event.notify
         { cmd := HDMI_HDCP_WKUP_CMD_STATUS_SUCCESS, context := s.handle.client_ctx,
           send_msg_buf := [], send_msg_len := 0, timeout := 0 },
       Event.notify
         { cmd := HDMI_HDCP_WKUP_CMD_LINK_POLL, context := s.handle.client_ctx,
           send_msg_buf := [], send_msg_len := 0, timeout := 0 }] := by
  obtain ⟨l, hl⟩ := queue_kthread_work_eq wk_topology s
  have key : ∀ t : Sys, (∃ l, t = { s with handle := { s.handle with work_list := l } }) →
      hdcp_lib_enable_encryption o t =
        (0, { t with
          ncmd := t.ncmd + 1,
          trace := t.trace ++ [Event.cmd (set_hw_key_req s) s.handle.hdcp_off],
          handle := { t.handle with
            hdcp_state := set_flag s.handle.hdcp_state HDCP_STATE_AUTHENTICATED } }) := by
    rintro t ⟨l, rfl⟩
    exact enable_encryption_accepted o _ rsp hq hrsp hrc
  have hs1 : ∃ l, (if s.handle.repeater_flag = true then
        if s.handle.hdcp_off = false then queue_kthread_work wk_topology s else s
      else s) = { s with handle := { s.handle with work_list := l } } := by
    split_ifs
    · exact ⟨l, hl⟩
    · exact ⟨s.handle.work_list, rfl⟩
    · exact ⟨s.handle.work_list, rfl⟩
  unfold hdcp_lib_msg_sent; dsimp only
  rw [if_pos hlast, key _ hs1]
  obtain ⟨l1, hl1⟩ := hs1
  rw [hl1]
  dsimp only
  rw [if_pos rfl]
  refine ⟨?_, ?_, ?_, ?_, ?_⟩
  · simp only [wakeup_client_handle]; simp
  · simp only [wakeup_client_handle]; simp
  · simp only [wakeup_client_handle]; simp
  · simp only [wakeup_client_handle]
  · simp [wakeup_client_trace, hops]

/-- The authentication at `sys_eks_sent` in `env_session`. -/
theorem msg_sent_authenticates_witness :
    has_flag (hdcp_lib_msg_sent env_session sys_eks_sent).handle.hdcp_state
      HDCP_STATE_AUTHENTICATED = true ∧
    notified (hdcp_lib_msg_sent env_session sys_eks_sent).trace
      = notified sys_eks_sent.trace ++
        [HDMI_HDCP_WKUP_CMD_STATUS_SUCCESS, HDMI_HDCP_WKUP_CMD_LINK_POLL] :=
  have h := msg_sent_authenticates env_session sys_eks_sent _ (by decide) (by decide)
    (by decide) rfl (by decide)
  ⟨h.1, by rw [h.2.2.2.2]; decide⟩

@[simp] theorem queue_kthread_work_last_msg_sent (w : kthread_work) (s : Sys) :
    (queue_kthread_work w s).handle.last_msg_sent = s.handle.last_msg_sent := by
  obtain ⟨l, h⟩ := queue_kthread_work_handle w s
  rw [h]

theorem execute_last_msg_sent (f : Sys → Sys) (w : kthread_work) (s : Sys)
    (hf : ∀ t, (f t).handle.last_msg_sent = t.handle.last_msg_sent) :
    (HDCP_LIB_EXECUTE f w s).handle.last_msg_sent = s.handle.last_msg_sent := by
  unfold HDCP_LIB_EXECUTE
  split_ifs
  · exact hf s
  · exact queue_kthread_work_last_msg_sent w s

@[simp] theorem clean_last_msg_sent (o : Env) (s : Sys) :
    (hdcp_lib_clean o s).handle.last_msg_sent = s.handle.last_msg_sent := by
  obtain ⟨st, q, h⟩ := clean_handle o s
  rw [h]

@[simp] theorem execute_clean_last_msg_sent (o : Env) (s : Sys) :
    (HDCP_LIB_EXECUTE (hdcp_lib_clean o) wk_clean s).handle.last_msg_sent
      = s.handle.last_msg_sent :=
  execute_last_msg_sent _ _ _ (clean_last_msg_sent o)

@[simp] theorem stream_last_msg_sent (o : Env) (s : Sys) :
    (hdcp_lib_stream o s).handle.last_msg_sent = s.handle.last_msg_sent := by
  unfold hdcp_lib_stream hdcp_lib_send_message qseecom_send_command; dsimp only
  split_ifs <;> simp only [wakeup_client_handle]

@[simp] theorem enable_encryption_last_msg_sent (o : Env) (s : Sys) :
    (hdcp_lib_enable_encryption o s).2.handle.last_msg_sent = s.handle.last_msg_sent := by
  unfold hdcp_lib_enable_encryption hdcp_lib_enable_encryption_error qseecom_send_command
  dsimp only
  split_ifs <;> simp only [execute_clean_last_msg_sent]

@[simp] theorem msg_sent_last_msg_sent (o : Env) (s : Sys) :
    (hdcp_lib_msg_sent o s).handle.last_msg_sent = s.handle.last_msg_sent := by
  unfold hdcp_lib_msg_sent; dsimp only
  split_ifs <;>
    simp only [wakeup_client_handle, execute_clean_last_msg_sent,
      enable_encryption_last_msg_sent, queue_kthread_work_last_msg_sent,
      execute_last_msg_sent _ _ _ (stream_last_msg_sent o)]

/-- The default case of `hdcp_lib_msg_sent`: the client is asked to receive,
with the time left. -/
theorem msg_sent_default (o : Env) (s : Sys) (hops : s.handle.client_ops = true)
    (h11 : s.handle.last_msg_sent ≠ SKE_SEND_EKS_MESSAGE_ID)
    (h15 : s.handle.last_msg_sent ≠ REPEATER_AUTH_SEND_ACK_MESSAGE_ID) :
    hdcp_lib_msg_sent o s =
      { s with
        nwake := s.nwake + 1,
        trace := s.trace ++
          [Event.notify
            { cmd := HDMI_HDCP_WKUP_CMD_RECV_MESSAGE, context := s.handle.client_ctx,
              send_msg_buf := [], send_msg_len := 0, timeout := s.handle.timeout_left }] } := by
  unfold hdcp_lib_msg_sent; dsimp only
  rw [if_neg h11, if_neg h15]
  exact wakeup_client_sends o _ s hops (by simp)

/-- The session as `hdcp_lib_wakeup` hands it to the message-sent step. -/
theorem wakeup_send_success_accepted (o : Env) (d : hdcp_lib_wakeup_data) (s : Sys)
    (hcmd : d.cmd = HDCP_LIB_WKUP_CMD_MSG_SEND_SUCCESS)
    (hrc : (hdcp_lib_wakeup o (some d) s).1 = 0) :
    ∃ len buf na, (hdcp_lib_wakeup o (some d) s).2 =
      HDCP_LIB_EXECUTE (hdcp_lib_msg_sent o) wk_msg_sent
        { s with
          nalloc := na,
          handle := { s.handle with
            wakeup_cmd := HDCP_LIB_WKUP_CMD_MSG_SEND_SUCCESS,
            timeout_left := d.timeout,
            last_msg_recvd_len := len,
            last_msg_recvd_buf := buf,
            topo_wait := true,
            last_msg_sent := s.handle.listener_buf.getD 0 0 } } := by
  unfold hdcp_lib_wakeup at hrc ⊢
  dsimp only at hrc ⊢
  split_ifs at hrc ⊢ with h1 h2 h3 h4
  · simp [EINVAL] at hrc
  · exact absurd hrc h2
  · simp [ENOMEM] at hrc
  · exact ⟨d.recvd_msg_len, some (memcpy d.recvd_msg_buf d.recvd_msg_len), s.nalloc + 1, by
      simp [hdcp_lib_wakeup_switch, hdcp_lib_wakeup_record, hcmd]⟩
  · exact ⟨s.handle.last_msg_recvd_len, s.handle.last_msg_recvd_buf, s.nalloc, by
      simp [hdcp_lib_wakeup_switch, hdcp_lib_wakeup_record, hcmd]⟩

/-- C18: a wakeup(MSG_SEND_SUCCESS) that returns 0 records the first byte of
the pending outbound message as `last_msg_sent` and hands the session to the
message-sent step with the timeout of the call as `timeout_left`.  With a
client callback and an id other than SKE_Send_Eks (11) and
Repeater_Auth_Send_Ack (15), `hdcp_lib_msg_sent` on that session issues no
secure-channel command, leaves the handle as it is and delivers exactly one
notification, RECV_MESSAGE with the timeout of the call; that is the whole
effect of the call in tethered mode, and of the queued step once the worker
runs it in threaded mode. -/
theorem msg_send_success_requests_receive (o : Env) (d : hdcp_lib_wakeup_data) (s : Sys)
    (hcmd : d.cmd = HDCP_LIB_WKUP_CMD_MSG_SEND_SUCCESS)
    (hrc : (hdcp_lib_wakeup o (some d) s).1 = 0) :
    (hdcp_lib_wakeup o (some d) s).2.handle.last_msg_sent = s.handle.listener_buf.getD 0 0 ∧
    ∃ s0 : Sys,
      (hdcp_lib_wakeup o (some d) s).2
        = HDCP_LIB_EXECUTE (hdcp_lib_msg_sent o) wk_msg_sent s0 ∧
      s0.handle.last_msg_sent = s0.handle.listener_buf.getD 0 0 ∧
      s0.handle.listener_buf = s.handle.listener_buf ∧
      s0.handle.timeout_left = d.timeout ∧
      s0.trace = s.trace ∧
      (s.handle.client_ops = true →
        s.handle.listener_buf.getD 0 0 ≠ SKE_SEND_EKS_MESSAGE_ID →
        s.handle.listener_buf.getD 0 0 ≠ REPEATER_AUTH_SEND_ACK_MESSAGE_ID →
        hdcp_lib_msg_sent o s0 =
          { s0 with
            nwake := s0.nwake + 1,
            trace := s.trace ++
              [Event.notify
                { cmd := HDMI_HDCP_WKUP_CMD_RECV_MESSAGE, context := s.handle.client_ctx,
                  send_msg_buf := [], send_msg_len := 0, timeout := d.timeout }] } ∧
        (s.handle.tethered = true →
          (hdcp_lib_wakeup o (some d) s).2 = hdcp_lib_msg_sent o s0) ∧
        (s.handle.tethered = false → s.handle.work_list = [] →
          kthread_worker_step o (hdcp_lib_wakeup o (some d) s).2 = hdcp_lib_msg_sent o s0)) := by
  obtain ⟨len, buf, na, h⟩ := wakeup_send_success_accepted o d s hcmd hrc
  constructor
  · rw [h, execute_last_msg_sent _ _ _ (msg_sent_last_msg_sent o)]
  · refine ⟨_, h, rfl, rfl, rfl, rfl, ?_⟩
    intro hops h11 h15
    refine ⟨msg_sent_default o _ hops h11 h15, ?_, ?_⟩
    · intro hth
      rw [h]
      simp [HDCP_LIB_EXECUTE, hth]
    · intro hth hwl
      rw [h]
      simp [HDCP_LIB_EXECUTE, hth, queue_kthread_work, hwl, kthread_worker_step,
        kthread_worker_pop, kthread_work_func, hdcp_lib_msg_sent_work]

/-- The acknowledgement of AKE_Init (id 2) at `sys_session`, with 33 ms
left. -/
theorem msg_send_success_requests_receive_witness :
    sys_session.handle.listener_buf.getD 0 0 = 2 ∧
    (hdcp_lib_wakeup env_session (some wakeup_sent_data) sys_session).2.handle.last_msg_sent
      = 2 ∧
    (hdcp_lib_wakeup env_session (some wakeup_sent_data) sys_session).2.trace
      = sys_session.trace ++
        [Event.notify
          { cmd := HDMI_HDCP_WKUP_CMD_RECV_MESSAGE, context := 0,
            send_msg_buf := [], send_msg_len := 0, timeout := 33 }] :=
  ⟨by decide,
   (msg_send_success_requests_receive env_session wakeup_sent_data sys_session rfl
      (by decide)).1,
   by decide⟩

/-- The step `hdcp_lib_stream` logs at most its command and one SEND_MESSAGE
notification. -/
theorem stream_trace (o : Env) (s : Sys) :
    ∃ es, (hdcp_lib_stream o s).trace = s.trace ++ es ∧
      ∀ c ∈ notified es, c = HDMI_HDCP_WKUP_CMD_SEND_MESSAGE := by
  unfold hdcp_lib_stream hdcp_lib_send_message qseecom_send_command; dsimp only
  split_ifs
  · exact ⟨[], by simp, by simp [notified, notifications]⟩
  · exact ⟨[], by simp, by simp [notified, notifications]⟩
  · exact ⟨[], by simp, by simp [notified, notifications]⟩
  · exact ⟨_, rfl, by simp [notified, notifications]⟩
  · rw [wakeup_client_trace]
    dsimp only
    split_ifs
    · exact ⟨_, by rw [List.append_assoc], by simp [notified, notifications]⟩
    · exact ⟨_, by rw [List.append_assoc], by simp [notified, notifications]⟩
  · exact ⟨_, rfl, by simp [notified, notifications]⟩

theorem execute_stream_trace (o : Env) (s : Sys) :
    ∃ es, (HDCP_LIB_EXECUTE (hdcp_lib_stream o) wk_stream s).trace = s.trace ++ es ∧
      ∀ c ∈ notified es, c = HDMI_HDCP_WKUP_CMD_SEND_MESSAGE := by
  unfold HDCP_LIB_EXECUTE
  split_ifs
  · exact stream_trace o s
  · obtain ⟨l, h⟩ := queue_kthread_work_eq wk_stream s
    rw [h]
    exact ⟨[], by simp, by simp [notified, notifications]⟩

@[simp] theorem stream_update_stream (o : Env) (s : Sys) :
    (hdcp_lib_stream o s).handle.update_stream = s.handle.update_stream := by
  unfold hdcp_lib_stream hdcp_lib_send_message qseecom_send_command; dsimp only
  split_ifs <;> simp only [wakeup_client_handle]

/-- C19: with `last_msg_sent` = Repeater_Auth_Send_Ack (15), when
`update_stream` is set `hdcp_lib_msg_sent` dispatches the query-stream-type
step (run at once when tethered, queued otherwise), clears `update_stream` and
delivers no notification of its own: whatever is logged comes from that step
and no LINK_POLL is among it; when `update_stream` is clear `hdcp_lib_msg_sent`
leaves the handle as it is, issues no secure-channel command and, given a
client callback, delivers exactly one notification, LINK_POLL.  Either way
`update_stream` is false afterwards. -/
theorem msg_sent_repeater_ack (o : Env) (s : Sys)
    (hlast : s.handle.last_msg_sent = REPEATER_AUTH_SEND_ACK_MESSAGE_ID) :
    (s.handle.update_stream = true →
      hdcp_lib_msg_sent o s =
        { HDCP_LIB_EXECUTE (hdcp_lib_stream o) wk_stream s with
          handle := { (HDCP_LIB_EXECUTE (hdcp_lib_stream o) wk_stream s).handle with
            update_stream := false } } ∧
      ∃ es, (hdcp_lib_msg_sent o s).trace = s.trace ++ es ∧
        HDMI_HDCP_WKUP_CMD_LINK_POLL ∉ notified es) ∧
    (s.handle.update_stream = false → s.handle.client_ops = true →
      hdcp_lib_msg_sent o s =
        { s with
          nwake := s.nwake + 1,
          trace := s.trace ++
            [Event.notify
              { cmd := HDMI_HDCP_WKUP_CMD_LINK_POLL, context := s.handle.client_ctx,
                send_msg_buf := [], send_msg_len := 0, timeout := 0 }] }) ∧
    (hdcp_lib_msg_sent o s).handle.update_stream = false := by
  have h11 : ¬ s.handle.last_msg_sent = SKE_SEND_EKS_MESSAGE_ID := by
    rw [hlast]; decide
  have hset : s.handle.update_stream = true →
      hdcp_lib_msg_sent o s =
        { HDCP_LIB_EXECUTE (hdcp_lib_stream o) wk_stream s with
          handle := { (HDCP_LIB_EXECUTE (hdcp_lib_stream o) wk_stream s).handle with
            update_stream := false } } := by
    intro hu
    unfold hdcp_lib_msg_sent; dsimp only
    rw [if_neg h11, if_pos hlast, if_pos hu]
    exact wakeup_client_invalid o _ _ rfl
  have hclear : s.handle.update_stream = false →
      hdcp_lib_msg_sent o s =
        hdcp_lib_wakeup_client o
          { cmd := HDMI_HDCP_WKUP_CMD_LINK_POLL, context := s.handle.client_ctx,
            send_msg_buf := [], send_msg_len := 0, timeout := 0 } s := by
    intro hu
    have hu2 : ¬ s.handle.update_stream = true := by simp [hu]
    unfold hdcp_lib_msg_sent; dsimp only
    rw [if_neg h11, if_pos hlast, if_neg hu2]
  refine ⟨?_, ?_, ?_⟩
  · intro hu
    refine ⟨hset hu, ?_⟩
    obtain ⟨es, hes, hn⟩ := execute_stream_trace o s
    refine ⟨es, ?_, ?_⟩
    · rw [hset hu]; exact hes
    · intro hmem
      have := hn _ hmem
      exact absurd this (by decide)
  · intro hu hops
    rw [hclear hu]
    exact wakeup_client_sends o _ s hops (by simp)
  · by_cases hu : s.handle.update_stream = true
    · rw [hset hu]
    · have hu2 : s.handle.update_stream = false := by simpa using hu
      rw [hclear hu2, wakeup_client_handle]
      exact hu2

/-- The acknowledgement at the tethered repeater session `sys_ack_sent`, whose
stream update is pending, in `env_session`: the stream query runs, its
response is sent on and `update_stream` is cleared. -/
theorem msg_sent_repeater_ack_witness :
    sys_ack_sent.handle.update_stream = true ∧
    (hdcp_lib_msg_sent env_session sys_ack_sent).handle.update_stream = false ∧
    notified (hdcp_lib_msg_sent env_session sys_ack_sent).trace
      = notified sys_ack_sent.trace ++ [HDMI_HDCP_WKUP_CMD_SEND_MESSAGE] :=
  ⟨by decide, (msg_sent_repeater_ack env_session sys_ack_sent (by decide)).2.2, by decide⟩

/-! ## The stream-ready acknowledgement (C21) -/

/-- C21: on an active session with a client callback whose received message
is Repeater_Auth_Stream_Ready (id 17) and is copied, when the secure channel
answers with return code 0 and status 0 `hdcp_lib_msg_recvd` leaves the whole
handle as it is (pending outbound message, flags, `hdcp_off`, `hdcp_state`,
work list), logs the process-received-message command and delivers exactly
one notification, LINK_POLL: no SEND_MESSAGE, no teardown. -/
theorem msg_recvd_stream_ready (o : Env) (s : Sys) (rsp : TzRsp)
    (hq : s.handle.qseecom_handle = true) (hoff : s.handle.hdcp_off = false)
    (hops : s.handle.client_ops = true)
    (hlen : 0 < s.handle.last_msg_recvd_len) (hk : o.kzalloc s.nalloc = true)
    (hrsp : o.qseecom_send_command s.ncmd (rcvd_msg_req s) = rsp)
    (hmsg : (rcvd_msg_req s).msg.getD 0 0 = REPEATER_AUTH_STREAM_READY_MESSAGE_ID)
    (hrc : rsp.rc = 0) (hst : rsp.status = 0) :
    hdcp_lib_msg_recvd o s =
      { s with
        nalloc := s.nalloc + 1,
        ncmd := s.ncmd + 1,
        nwake := s.nwake + 1,
        trace := s.trace ++
          [Event.cmd (rcvd_msg_req s) false,
           Event.notify
             { cmd := HDMI_HDCP_WKUP_CMD_LINK_POLL,
               context := s.handle.client_ctx,
               send_msg_buf := [], send_msg_len := 0, timeout := 0 }] } := by
  have hnh : ¬ ((rcvd_msg_req s).msg.getD 0 0 = AKE_SEND_H_PRIME_MESSAGE_ID ∧
      (rcvd_msg_sent o s).handle.no_stored_km_flag = true) := by
    rw [hmsg]; simp
  have hsr : (rcvd_msg_req s).msg.getD 0 0 = REPEATER_AUTH_STREAM_READY_MESSAGE_ID ∧
      rsp.rc = 0 ∧ rsp.status = 0 := ⟨hmsg, hrc, hst⟩
  have hbuf := recvd_buf_of_first_byte s (by rw [hmsg]; decide)
  rw [msg_recvd_calls o s hq hoff hlen hk hbuf, hrsp]
  unfold hdcp_lib_msg_recvd_rsp; dsimp only
  rw [if_neg hnh, if_pos hsr, hrc, msg_recvd_exit_ok]
  simp [hdcp_lib_wakeup_client, rcvd_msg_sent, qseecom_send_command, hoff, hops]

theorem msg_recvd_stream_ready_witness :
    (hdcp_lib_msg_recvd env_session sys_stream_ready).handle = sys_stream_ready.handle ∧
    notified (hdcp_lib_msg_recvd env_session sys_stream_ready).trace
      = notified sys_stream_ready.trace ++ [HDMI_HDCP_WKUP_CMD_LINK_POLL] :=
  have h := msg_recvd_stream_ready env_session sys_stream_ready _ (by decide) (by decide)
    (by decide) (by decide) (by decide) rfl (by decide) (by decide) (by decide)
  ⟨by rw [h], by rw [h]; decide⟩

/-! ## The stream query (C22) -/

theorem wakeup_client_ignores_rc (o : Env)
    (cw : Nat → hdmi_hdcp_wakeup_data → Int) :
    hdcp_lib_wakeup_client { o with client_wakeup := cw } = hdcp_lib_wakeup_client o := by
  funext d s
  unfold hdcp_lib_wakeup_client; dsimp only
  split_ifs <;> rfl

theorem send_message_ignores_rc (o : Env) (cw : Nat → hdmi_hdcp_wakeup_data → Int) :
    hdcp_lib_send_message { o with client_wakeup := cw } = hdcp_lib_send_message o := by
  funext s
  unfold hdcp_lib_send_message
  rw [wakeup_client_ignores_rc]

theorem library_load_ignores_rc (o : Env) (cw : Nat → hdmi_hdcp_wakeup_data → Int) :
    hdcp_lib_library_load { o with client_wakeup := cw } = hdcp_lib_library_load o := rfl

theorem library_unload_ignores_rc (o : Env) (cw : Nat → hdmi_hdcp_wakeup_data → Int) :
    hdcp_lib_library_unload { o with client_wakeup := cw } = hdcp_lib_library_unload o := rfl

theorem txmtr_init_ignores_rc (o : Env) (cw : Nat → hdmi_hdcp_wakeup_data → Int) :
    hdcp_lib_txmtr_init { o with client_wakeup := cw } = hdcp_lib_txmtr_init o := rfl

theorem txmtr_deinit_ignores_rc (o : Env) (cw : Nat → hdmi_hdcp_wakeup_data → Int) :
    hdcp_lib_txmtr_deinit { o with client_wakeup := cw } = hdcp_lib_txmtr_deinit o := rfl

theorem send_command_ignores_rc (o : Env) (cw : Nat → hdmi_hdcp_wakeup_data → Int) :
    qseecom_send_command { o with client_wakeup := cw } = qseecom_send_command o := rfl

theorem clean_ignores_rc (o : Env) (cw : Nat → hdmi_hdcp_wakeup_data → Int) :
    hdcp_lib_clean { o with client_wakeup := cw } = hdcp_lib_clean o := by
  funext s
  unfold hdcp_lib_clean
  rw [wakeup_client_ignores_rc, txmtr_deinit_ignores_rc, library_unload_ignores_rc]

theorem stream_ignores_rc (o : Env) (cw : Nat → hdmi_hdcp_wakeup_data → Int) :
    hdcp_lib_stream { o with client_wakeup := cw } = hdcp_lib_stream o := by
  funext s
  unfold hdcp_lib_stream
  rw [send_message_ignores_rc, send_command_ignores_rc]

theorem enable_encryption_ignores_rc (o : Env) (cw : Nat → hdmi_hdcp_wakeup_data → Int) :
    hdcp_lib_enable_encryption { o with client_wakeup := cw }
      = hdcp_lib_enable_encryption o := by
  funext s
  unfold hdcp_lib_enable_encryption hdcp_lib_enable_encryption_error
  rw [clean_ignores_rc, send_command_ignores_rc]

theorem msg_sent_ignores_rc (o : Env) (cw : Nat → hdmi_hdcp_wakeup_data → Int) :
    hdcp_lib_msg_sent { o with client_wakeup := cw } = hdcp_lib_msg_sent o := by
  funext s
  unfold hdcp_lib_msg_sent
  rw [wakeup_client_ignores_rc, enable_encryption_ignores_rc, clean_ignores_rc,
    stream_ignores_rc]

theorem init_ignores_rc (o : Env) (cw : Nat → hdmi_hdcp_wakeup_data → Int) :
    hdcp_lib_init { o with client_wakeup := cw } = hdcp_lib_init o := by
  funext s
  unfold hdcp_lib_init
  rw [clean_ignores_rc, send_message_ignores_rc, library_load_ignores_rc,
    txmtr_init_ignores_rc]

theorem timeout_ignores_rc (o : Env) (cw : Nat → hdmi_hdcp_wakeup_data → Int) :
    hdcp_lib_timeout { o with client_wakeup := cw } = hdcp_lib_timeout o := by
  funext s
  unfold hdcp_lib_timeout hdcp_lib_timeout_error
  rw [clean_ignores_rc, send_message_ignores_rc, send_command_ignores_rc]

theorem msg_recvd_exit_ignores_rc (o : Env) (cw : Nat → hdmi_hdcp_wakeup_data → Int) :
    hdcp_lib_msg_recvd_exit { o with client_wakeup := cw } = hdcp_lib_msg_recvd_exit o := by
  funext rc cd s
  unfold hdcp_lib_msg_recvd_exit
  rw [clean_ignores_rc, wakeup_client_ignores_rc]

theorem msg_recvd_rsp_ignores_rc (o : Env) (cw : Nat → hdmi_hdcp_wakeup_data → Int) :
    hdcp_lib_msg_recvd_rsp { o with client_wakeup := cw } = hdcp_lib_msg_recvd_rsp o := by
  funext cd msg rsp s
  unfold hdcp_lib_msg_recvd_rsp
  rw [msg_recvd_exit_ignores_rc]

theorem msg_recvd_ignores_rc (o : Env) (cw : Nat → hdmi_hdcp_wakeup_data → Int) :
    hdcp_lib_msg_recvd { o with client_wakeup := cw } = hdcp_lib_msg_recvd o := by
  funext s
  unfold hdcp_lib_msg_recvd
  rw [msg_recvd_exit_ignores_rc, msg_recvd_rsp_ignores_rc, send_command_ignores_rc]

theorem topology_work_ignores_rc (o : Env) (cw : Nat → hdmi_hdcp_wakeup_data → Int) :
    hdcp_lib_topology_work { o with client_wakeup := cw } = hdcp_lib_topology_work o := by
  funext s
  unfold hdcp_lib_topology_work
  rw [clean_ignores_rc]
  rfl

theorem wakeup_switch_ignores_rc (o : Env) (cw : Nat → hdmi_hdcp_wakeup_data → Int) :
    hdcp_lib_wakeup_switch { o with client_wakeup := cw } = hdcp_lib_wakeup_switch o := by
  funext s
  unfold hdcp_lib_wakeup_switch
  rw [clean_ignores_rc, init_ignores_rc, msg_sent_ignores_rc, msg_recvd_ignores_rc,
    timeout_ignores_rc, stream_ignores_rc]

theorem wakeup_ignores_rc (o : Env) (cw : Nat → hdmi_hdcp_wakeup_data → Int) :
    hdcp_lib_wakeup { o with client_wakeup := cw } = hdcp_lib_wakeup o := by
  funext data s
  unfold hdcp_lib_wakeup
  rw [wakeup_switch_ignores_rc]

theorem work_func_ignores_rc (o : Env) (cw : Nat → hdmi_hdcp_wakeup_data → Int) :
    kthread_work_func { o with client_wakeup := cw } = kthread_work_func o := by
  funext w
  cases w
  · exact init_ignores_rc o cw
  · funext s
    show hdcp_lib_msg_sent_work _ s = hdcp_lib_msg_sent_work o s
    unfold hdcp_lib_msg_sent_work
    rw [msg_sent_ignores_rc]
  · exact msg_recvd_ignores_rc o cw
  · exact timeout_ignores_rc o cw
  · exact clean_ignores_rc o cw
  · exact topology_work_ignores_rc o cw
  · exact stream_ignores_rc o cw

theorem worker_step_ignores_rc (o : Env) (cw : Nat → hdmi_hdcp_wakeup_data → Int) :
    kthread_worker_step { o with client_wakeup := cw } = kthread_worker_step o := by
  funext s
  unfold kthread_worker_step
  rw [work_func_ignores_rc]

theorem worker_run_ignores_rc (o : Env) (cw : Nat → hdmi_hdcp_wakeup_data → Int)
    (fuel : Nat) (s : Sys) :
    kthread_worker_run { o with client_wakeup := cw } fuel s = kthread_worker_run o fuel s := by
  induction fuel generalizing s with
  | zero => rfl
  | succ n ih =>
    unfold kthread_worker_run
    rw [worker_step_ignores_rc, ih]

/-- C23: the value the client callback returns is ignored.  With any other
callback answers `cw` in place of those of `o`, every protocol step, every
`hdcp_lib_wakeup` call, every worker step and every run of the worker ends in
the same session, with the same log of secure-channel commands and
notifications and the same counters. -/
theorem client_rc_is_ignored (o : Env) (cw : Nat → hdmi_hdcp_wakeup_data → Int) (s : Sys) :
    hdcp_lib_init { o with client_wakeup := cw } s = hdcp_lib_init o s ∧
    hdcp_lib_msg_sent { o with client_wakeup := cw } s = hdcp_lib_msg_sent o s ∧
    hdcp_lib_msg_recvd { o with client_wakeup := cw } s = hdcp_lib_msg_recvd o s ∧
    hdcp_lib_timeout { o with client_wakeup := cw } s = hdcp_lib_timeout o s ∧
    hdcp_lib_stream { o with client_wakeup := cw } s = hdcp_lib_stream o s ∧
    hdcp_lib_clean { o with client_wakeup := cw } s = hdcp_lib_clean o s ∧
    hdcp_lib_topology_work { o with client_wakeup := cw } s = hdcp_lib_topology_work o s ∧
    hdcp_lib_send_message { o with client_wakeup := cw } s = hdcp_lib_send_message o s ∧
    (∀ d, hdcp_lib_wakeup_client { o with client_wakeup := cw } d s
      = hdcp_lib_wakeup_client o d s) ∧
    (∀ data, hdcp_lib_wakeup { o with client_wakeup := cw } data s
      = hdcp_lib_wakeup o data s) ∧
    kthread_worker_step { o with client_wakeup := cw } s = kthread_worker_step o s ∧
    (∀ fuel, kthread_worker_run { o with client_wakeup := cw } fuel s
      = kthread_worker_run o fuel s) ∧
    hdcp_lib_client_feature_supported { o with client_wakeup := cw } s
      = hdcp_lib_client_feature_supported o s := by
  refine ⟨?_, ?_, ?_, ?_, ?_, ?_, ?_, ?_, ?_, ?_, ?_, ?_, rfl⟩
  · rw [init_ignores_rc]
  · rw [msg_sent_ignores_rc]
  · rw [msg_recvd_ignores_rc]
  · rw [timeout_ignores_rc]
  · rw [stream_ignores_rc]
  · rw [clean_ignores_rc]
  · rw [topology_work_ignores_rc]
  · rw [send_message_ignores_rc]
  · intro d; rw [wakeup_client_ignores_rc]
  · intro data; rw [wakeup_ignores_rc]
  · rw [worker_step_ignores_rc]
  · intro fuel; exact worker_run_ignores_rc o cw fuel s

/-! ## Message names (C25) -/

theorem message_name_loop_unknown (msg_id : Int) (l : List (Int × String))
    (h : ∀ e ∈ l, msg_id ≠ e.1) : hdcp_lib_message_name_loop msg_id l = "UNKNOWN" := by
  induction l with
  | nil => rfl
  | cons e rest ih =>
    unfold hdcp_lib_message_name_loop
    rw [if_neg (h e (List.mem_cons_self _ _))]
    exact ih (fun x hx => h x (List.mem_cons_of_mem _ hx))

/-- C25: `hdcp_lib_message_name` gives each of the thirteen catalogued
message ids its name, the names of different catalogued ids are different,
and every other integer (6, 13 and 14, negative values and values above 17
among them) gives "UNKNOWN". -/
theorem message_name_table :
    hdcp_lib_message_name 2 = "AKE_INIT" ∧
    hdcp_lib_message_name 3 = "AKE_SEND_CERT" ∧
    hdcp_lib_message_name 4 = "AKE_NO_STORED_KM" ∧
    hdcp_lib_message_name 5 = "AKE_STORED_KM" ∧
    hdcp_lib_message_name 7 = "AKE_SEND_H_PRIME" ∧
    hdcp_lib_message_name 8 = "AKE_SEND_PAIRING_INFO" ∧
    hdcp_lib_message_name 9 = "LC_INIT" ∧
    hdcp_lib_message_name 10 = "LC_SEND_L_PRIME" ∧
    hdcp_lib_message_name 11 = "SKE_SEND_EKS" ∧
    hdcp_lib_message_name 12 = "REPEATER_AUTH_SEND_RECEIVERID_LIST" ∧
    hdcp_lib_message_name 15 = "REPEATER_AUTH_SEND_ACK" ∧
    hdcp_lib_message_name 16 = "REPEATER_AUTH_STREAM_MANAGE" ∧
    hdcp_lib_message_name 17 = "REPEATER_AUTH_STREAM_READY" ∧
    (∀ a ∈ hdcp_lib_msg_map.map Prod.fst, ∀ b ∈ hdcp_lib_msg_map.map Prod.fst,
      a ≠ b → hdcp_lib_message_name a ≠ hdcp_lib_message_name b) ∧
    (∀ msg_id : Int,
      msg_id ∉ ([2, 3, 4, 5, 7, 8, 9, 10, 11, 12, 15, 16, 17] : List Int) →
      hdcp_lib_message_name msg_id = "UNKNOWN") ∧
    hdcp_lib_message_name 6 = "UNKNOWN" ∧
    hdcp_lib_message_name 13 = "UNKNOWN" ∧
    hdcp_lib_message_name 14 = "UNKNOWN" ∧
    hdcp_lib_message_name 18 = "UNKNOWN" ∧
    hdcp_lib_message_name (-1) = "UNKNOWN" := by
  refine ⟨rfl, rfl, rfl, rfl, rfl, rfl, rfl, rfl, rfl, rfl, rfl, rfl, rfl, by decide, ?_,
    rfl, rfl, rfl, rfl, rfl⟩
  intro msg_id h
  apply message_name_loop_unknown
  intro e he heq
  apply h
  simp only [hdcp_lib_msg_map, List.mem_cons, List.mem_singleton, List.not_mem_nil,
    or_false] at he
  rcases he with rfl | rfl | rfl | rfl | rfl | rfl | rfl | rfl | rfl | rfl | rfl | rfl | rfl <;>
    simp [heq]

/-! ## The pending stream update (C28) -/

@[simp] theorem execute_clean_update_stream (o : Env) (s : Sys) :
    (HDCP_LIB_EXECUTE (hdcp_lib_clean o) wk_clean s).handle.update_stream
      = s.handle.update_stream := by
  obtain ⟨st, q, off, wl, h⟩ := execute_clean_handle o s
  rw [h]

@[simp] theorem msg_recvd_exit_update_stream (o : Env) (rc : Int)
    (cd : hdmi_hdcp_wakeup_data) (s : Sys) :
    (hdcp_lib_msg_recvd_exit o rc cd s).handle.update_stream = s.handle.update_stream := by
  unfold hdcp_lib_msg_recvd_exit; dsimp only
  split_ifs <;> simp only [wakeup_client_handle, execute_clean_update_stream]

/-- What `hdcp_lib_msg_recvd` does to `update_stream` once the secure channel
has answered: the general case sets it for an SKE_Send_Eks response of 25
bytes, whatever the flag and the timeout of the response; nothing else touches
it. -/
theorem msg_recvd_rsp_update_stream (o : Env) (cd : hdmi_hdcp_wakeup_data) (msg : List Nat)
    (rsp : TzRsp) (s : Sys) :
    (hdcp_lib_msg_recvd_rsp o cd msg rsp s).handle.update_stream =
      if ¬ (msg.getD 0 0 = AKE_SEND_H_PRIME_MESSAGE_ID ∧ s.handle.no_stored_km_flag = true) ∧
          ¬ (msg.getD 0 0 = REPEATER_AUTH_STREAM_READY_MESSAGE_ID ∧
            rsp.rc = 0 ∧ rsp.status = 0) ∧
          ¬ (rsp.rc < 0 ∨ rsp.status < 0 ∨ rsp.msglen ≤ 0 ∨
            rsp.commandid ≠ HDCP_TXMTR_PROCESS_RECEIVED_MESSAGE) ∧
          (rsp.msg.getD 0 0 = SKE_SEND_EKS_MESSAGE_ID ∧
            rsp.msglen = SKE_SEND_EKS_MESSAGE_SIZE)
      then true else s.handle.update_stream := by
  unfold hdcp_lib_msg_recvd_rsp; dsimp only
  split_ifs with h1 h2 h3 h4 h5 h6 h7 h8
  all_goals simp only [msg_recvd_exit_update_stream]
  all_goals simp_all
  all_goals omega

/-- C28: on an active session whose received message is held in a buffer that
is there (not NULL) and reaches the secure channel, `hdcp_lib_msg_recvd` sets
`update_stream` whenever it accepts, in its general case, a response that is
SKE_Send_Eks (id 11) of exactly 25 bytes,
whatever the flag and the timeout of the response; for every response that is
not SKE_Send_Eks of that size it leaves `update_stream` as it was.  In
`env_ske 0`, where the response has a timeout of 0, `update_stream` is true
afterwards while `repeater_flag` is still false. -/
theorem msg_recvd_sets_update_stream :
    (∀ (o : Env) (s : Sys) (rsp : TzRsp),
      s.handle.qseecom_handle = true → s.handle.hdcp_off = false →
      0 < s.handle.last_msg_recvd_len → o.kzalloc s.nalloc = true →
      s.handle.last_msg_recvd_buf ≠ none →
      o.qseecom_send_command s.ncmd (rcvd_msg_req s) = rsp →
      (¬ ((rcvd_msg_req s).msg.getD 0 0 = AKE_SEND_H_PRIME_MESSAGE_ID ∧
          s.handle.no_stored_km_flag = true) →
        ¬ ((rcvd_msg_req s).msg.getD 0 0 = REPEATER_AUTH_STREAM_READY_MESSAGE_ID ∧
          rsp.rc = 0 ∧ rsp.status = 0) →
        0 ≤ rsp.rc → rsp.commandid = HDCP_TXMTR_PROCESS_RECEIVED_MESSAGE →
        rsp.msg.getD 0 0 = SKE_SEND_EKS_MESSAGE_ID →
        rsp.msglen = SKE_SEND_EKS_MESSAGE_SIZE →
        (hdcp_lib_msg_recvd o s).handle.update_stream = true) ∧
      (¬ (rsp.msg.getD 0 0 = SKE_SEND_EKS_MESSAGE_ID ∧
          rsp.msglen = SKE_SEND_EKS_MESSAGE_SIZE) →
        (hdcp_lib_msg_recvd o s).handle.update_stream = s.handle.update_stream)) ∧
    (sys_l_prime.handle.update_stream = false ∧
      ((env_ske 0).qseecom_send_command sys_l_prime.ncmd (rcvd_msg_req sys_l_prime)).timeout
        = 0 ∧
      (hdcp_lib_msg_recvd (env_ske 0) sys_l_prime).handle.update_stream = true ∧
      (hdcp_lib_msg_recvd (env_ske 0) sys_l_prime).handle.repeater_flag = false) := by
  refine ⟨?_, by decide⟩
  intro o s rsp hq hoff hlen hk hbuf hrsp
  have hh : (rcvd_msg_sent o s).handle = s.handle := rfl
  rw [msg_recvd_calls o s hq hoff hlen hk hbuf, msg_recvd_rsp_update_stream, hrsp, hh]
  constructor
  · intro h1 h2 h3 h4 h5 h6
    rw [if_pos]
    refine ⟨h1, h2, ?_, h5, h6⟩
    rw [h6]
    simp [h4]
    omega
  · intro hn
    rw [if_neg]
    rintro ⟨-, -, -, h⟩
    exact hn h

/-! ## The recorded wakeup command (C30) -/

@[simp] theorem queue_kthread_work_wakeup_cmd (w : kthread_work) (s : Sys) :
    (queue_kthread_work w s).handle.wakeup_cmd = s.handle.wakeup_cmd := by
  obtain ⟨l, h⟩ := queue_kthread_work_handle w s
  rw [h]

theorem execute_wakeup_cmd (f : Sys → Sys) (w : kthread_work) (s : Sys)
    (hf : ∀ t, (f t).handle.wakeup_cmd = t.handle.wakeup_cmd) :
    (HDCP_LIB_EXECUTE f w s).handle.wakeup_cmd = s.handle.wakeup_cmd := by
  unfold HDCP_LIB_EXECUTE
  split_ifs
  · exact hf s
  · exact queue_kthread_work_wakeup_cmd w s

@[simp] theorem library_load_wakeup_cmd (o : Env) (s : Sys) :
    (hdcp_lib_library_load o s).2.handle.wakeup_cmd = s.handle.wakeup_cmd := by
  unfold hdcp_lib_library_load qseecom_start_app qseecom_send_command; dsimp only
  split_ifs <;> rfl

@[simp] theorem txmtr_init_wakeup_cmd (o : Env) (s : Sys) :
    (hdcp_lib_txmtr_init o s).2.handle.wakeup_cmd = s.handle.wakeup_cmd := by
  unfold hdcp_lib_txmtr_init qseecom_send_command; dsimp only
  split_ifs <;> rfl

@[simp] theorem clean_wakeup_cmd (o : Env) (s : Sys) :
    (hdcp_lib_clean o s).handle.wakeup_cmd = s.handle.wakeup_cmd := by
  obtain ⟨st, q, h⟩ := clean_handle o s
  rw [h]

@[simp] theorem execute_clean_wakeup_cmd (o : Env) (s : Sys) :
    (HDCP_LIB_EXECUTE (hdcp_lib_clean o) wk_clean s).handle.wakeup_cmd
      = s.handle.wakeup_cmd :=
  execute_wakeup_cmd _ _ _ (clean_wakeup_cmd o)

@[simp] theorem stream_wakeup_cmd (o : Env) (s : Sys) :
    (hdcp_lib_stream o s).handle.wakeup_cmd = s.handle.wakeup_cmd := by
  unfold hdcp_lib_stream hdcp_lib_send_message qseecom_send_command; dsimp only
  split_ifs <;> simp only [wakeup_client_handle]

@[simp] theorem enable_encryption_wakeup_cmd (o : Env) (s : Sys) :
    (hdcp_lib_enable_encryption o s).2.handle.wakeup_cmd = s.handle.wakeup_cmd := by
  unfold hdcp_lib_enable_encryption hdcp_lib_enable_encryption_error qseecom_send_command
  dsimp only
  split_ifs <;> simp only [execute_clean_wakeup_cmd]

@[simp] theorem msg_sent_wakeup_cmd (o : Env) (s : Sys) :
    (hdcp_lib_msg_sent o s).handle.wakeup_cmd = s.handle.wakeup_cmd := by
  unfold hdcp_lib_msg_sent; dsimp only
  split_ifs <;>
    simp only [wakeup_client_handle, execute_clean_wakeup_cmd,
      enable_encryption_wakeup_cmd, queue_kthread_work_wakeup_cmd,
      execute_wakeup_cmd _ _ _ (stream_wakeup_cmd o)]

@[simp] theorem init_wakeup_cmd (o : Env) (s : Sys) :
    (hdcp_lib_init o s).handle.wakeup_cmd = s.handle.wakeup_cmd := by
  unfold hdcp_lib_init hdcp_lib_send_message; dsimp only
  split_ifs <;>
    simp only [wakeup_client_handle, execute_clean_wakeup_cmd,
      txmtr_init_wakeup_cmd, library_load_wakeup_cmd]

@[simp] theorem timeout_wakeup_cmd (o : Env) (s : Sys) :
    (hdcp_lib_timeout o s).handle.wakeup_cmd = s.handle.wakeup_cmd := by
  unfold hdcp_lib_timeout hdcp_lib_timeout_error hdcp_lib_send_message qseecom_send_command
  dsimp only
  split_ifs <;> simp only [wakeup_client_handle, execute_clean_wakeup_cmd]

@[simp] theorem msg_recvd_exit_wakeup_cmd (o : Env) (rc : Int)
    (cd : hdmi_hdcp_wakeup_data) (s : Sys) :
    (hdcp_lib_msg_recvd_exit o rc cd s).handle.wakeup_cmd = s.handle.wakeup_cmd := by
  unfold hdcp_lib_msg_recvd_exit; dsimp only
  split_ifs <;> simp only [wakeup_client_handle, execute_clean_wakeup_cmd]

@[simp] theorem msg_recvd_rsp_wakeup_cmd (o : Env) (cd : hdmi_hdcp_wakeup_data)
    (msg : List Nat) (rsp : TzRsp) (s : Sys) :
    (hdcp_lib_msg_recvd_rsp o cd msg rsp s).handle.wakeup_cmd = s.handle.wakeup_cmd := by
  unfold hdcp_lib_msg_recvd_rsp; dsimp only
  split_ifs <;> simp only [msg_recvd_exit_wakeup_cmd]

@[simp] theorem msg_recvd_wakeup_cmd (o : Env) (s : Sys) :
    (hdcp_lib_msg_recvd o s).handle.wakeup_cmd = s.handle.wakeup_cmd := by
  unfold hdcp_lib_msg_recvd; dsimp only
  split_ifs
  all_goals first
    | rfl
    | (split <;> simp only [msg_recvd_rsp_wakeup_cmd, qseecom_send_command])
    | simp only [msg_recvd_exit_wakeup_cmd]

@[simp] theorem topology_work_wakeup_cmd (o : Env) (s : Sys) :
    (hdcp_lib_topology_work o s).handle.wakeup_cmd = s.handle.wakeup_cmd := by
  unfold hdcp_lib_topology_work hdcp_lib_topology_wait; dsimp only
  split_ifs <;> simp only [execute_clean_wakeup_cmd]

/-- No step the worker runs writes `wakeup_cmd`. -/
theorem worker_step_wakeup_cmd (o : Env) (s : Sys) :
    (kthread_worker_step o s).handle.wakeup_cmd = s.handle.wakeup_cmd := by
  unfold kthread_worker_step
  split
  · rfl
  · rename_i w rest hw
    have hp : (kthread_worker_pop s).handle.wakeup_cmd = s.handle.wakeup_cmd := rfl
    rw [← hp]
    cases w
    · exact init_wakeup_cmd o _
    · show (hdcp_lib_msg_sent_work o _).handle.wakeup_cmd = _
      unfold hdcp_lib_msg_sent_work
      split_ifs
      · rfl
      · exact msg_sent_wakeup_cmd o _
    · exact msg_recvd_wakeup_cmd o _
    · exact timeout_wakeup_cmd o _
    · exact clean_wakeup_cmd o _
    · exact topology_work_wakeup_cmd o _
    · exact stream_wakeup_cmd o _

theorem worker_run_wakeup_cmd (o : Env) (fuel : Nat) (s : Sys) :
    (kthread_worker_run o fuel s).handle.wakeup_cmd = s.handle.wakeup_cmd := by
  induction fuel generalizing s with
  | zero => rfl
  | succ n ih =>
    unfold kthread_worker_run
    rw [ih, worker_step_wakeup_cmd]

/-- C30: a wakeup(START) on a session with a message-sent step queued returns
-EBUSY and still records START as `wakeup_cmd` and the timeout of the call as
`timeout_left`.  After that, however many queued steps the worker runs first,
`wakeup_cmd` is still START and `hdcp_lib_msg_sent_work` returns the session
as it finds it: no secure-channel command, no notification, no change; when
the message-sent step is the oldest queued one, the worker step that runs it
only takes it off the list. -/
theorem rejected_start_disarms_msg_sent (o : Env) (d : hdcp_lib_wakeup_data) (s : Sys)
    (hctx : d.context = true) (hcmd : d.cmd = HDCP_LIB_WKUP_CMD_START)
    (hq : wk_msg_sent ∈ s.handle.work_list) :
    hdcp_lib_wakeup o (some d) s = (-EBUSY, hdcp_lib_wakeup_record d s) ∧
    (hdcp_lib_wakeup o (some d) s).2.handle.wakeup_cmd = HDCP_LIB_WKUP_CMD_START ∧
    (hdcp_lib_wakeup o (some d) s).2.handle.timeout_left = d.timeout ∧
    (hdcp_lib_wakeup o (some d) s).2.handle.work_list = s.handle.work_list ∧
    (∀ fuel,
      (kthread_worker_run o fuel (hdcp_lib_wakeup o (some d) s).2).handle.wakeup_cmd
        = HDCP_LIB_WKUP_CMD_START ∧
      hdcp_lib_msg_sent_work o (kthread_worker_run o fuel (hdcp_lib_wakeup o (some d) s).2)
        = kthread_worker_run o fuel (hdcp_lib_wakeup o (some d) s).2) ∧
    (∀ rest, s.handle.work_list = wk_msg_sent :: rest →
      kthread_worker_step o (hdcp_lib_wakeup o (some d) s).2 =
        { hdcp_lib_wakeup_record d s with
          handle := { (hdcp_lib_wakeup_record d s).handle with work_list := rest } }) := by
  have hne : s.handle.work_list ≠ [] := by
    intro h; rw [h] at hq; exact absurd hq (List.not_mem_nil _)
  have h : hdcp_lib_wakeup o (some d) s = (-EBUSY, hdcp_lib_wakeup_record d s) := by
    simp [hdcp_lib_wakeup, hdcp_lib_check_valid_state, hdcp_lib_wakeup_record, hctx, hcmd,
      hne, EBUSY]
  rw [h]
  refine ⟨rfl, hcmd, rfl, rfl, ?_, ?_⟩
  · intro fuel
    have hw : (kthread_worker_run o fuel (hdcp_lib_wakeup_record d s)).handle.wakeup_cmd
        = HDCP_LIB_WKUP_CMD_START := by
      rw [worker_run_wakeup_cmd]; exact hcmd
    refine ⟨hw, ?_⟩
    unfold hdcp_lib_msg_sent_work
    rw [if_pos]
    show (kthread_worker_run o fuel (hdcp_lib_wakeup_record d s)).handle.wakeup_cmd ≠ _
    rw [hw]; decide
  · intro rest hr
    have hl : (hdcp_lib_wakeup_record d s).handle.work_list = wk_msg_sent :: rest := hr
    rw [worker_step_cons o _ _ _ hl]
    show hdcp_lib_msg_sent_work o _ = _
    unfold hdcp_lib_msg_sent_work
    rw [if_pos]
    · simp [kthread_worker_pop, hdcp_lib_wakeup_record, hr]
    · show d.cmd ≠ _
      rw [hcmd]; decide

/-- The rejected start at `sys_sent_queued`: the message-sent step that was
queued for AKE_Init then does nothing, where it would have delivered
RECV_MESSAGE. -/
theorem rejected_start_disarms_msg_sent_witness :
    sys_sent_queued.handle.work_list = [wk_msg_sent] ∧
    notified (kthread_worker_step env_session sys_sent_queued).trace
      = notified sys_sent_queued.trace ++ [HDMI_HDCP_WKUP_CMD_RECV_MESSAGE] ∧
    (hdcp_lib_wakeup env_session (some (wakeup_data HDCP_LIB_WKUP_CMD_START))
      sys_sent_queued).1 = -EBUSY ∧
    (kthread_worker_step env_session
      (hdcp_lib_wakeup env_session (some (wakeup_data HDCP_LIB_WKUP_CMD_START))
        sys_sent_queued).2).trace = sys_sent_queued.trace :=
  have h := rejected_start_disarms_msg_sent env_session
    (wakeup_data HDCP_LIB_WKUP_CMD_START) sys_sent_queued rfl rfl (by decide)
  ⟨by decide, by decide, congrArg Prod.fst h.1, by rw [h.2.2.2.2.2 [] (by decide)]; rfl⟩

/-! ## Message sizes (C24, C29) -/

set_option maxRecDepth 100000 in
/-- C24 (the code at the failing input): a wakeup without data or without a
session context returns -EINVAL and leaves the session as it is; but the
wakeup(MSG_RECV_SUCCESS) of `wakeup_oversized_data`, whose message of 535
bytes is longer than MAX_RX_MESSAGE_SIZE, returns 0 on `sys_session`, stores
the 535 bytes as the last received message and runs the received-message
step, whose request to the secure channel carries all 535 bytes. -/
theorem oversized_message_is_dispatched :
    (∀ (o : Env) (s : Sys), hdcp_lib_wakeup o none s = (-EINVAL, s)) ∧
    (∀ (o : Env) (d : hdcp_lib_wakeup_data) (s : Sys), d.context = false →
      hdcp_lib_wakeup o (some d) s = (-EINVAL, s)) ∧
    MAX_RX_MESSAGE_SIZE < wakeup_oversized_data.recvd_msg_len ∧
    (hdcp_lib_wakeup env_session (some wakeup_oversized_data) sys_session).1 = 0 ∧
    (hdcp_lib_wakeup env_session (some wakeup_oversized_data)
      sys_session).2.handle.last_msg_recvd_len = 535 ∧
    (hdcp_lib_wakeup env_session (some wakeup_oversized_data)
      sys_session).2.handle.last_msg_recvd_buf = some (List.replicate 535 1) ∧
    (commands (new_events sys_session
      (hdcp_lib_wakeup env_session (some wakeup_oversized_data) sys_session).2)).map
        (fun c => (c.1.commandid, c.1.msglen, c.1.msg.length))
      = [(HDCP_TXMTR_PROCESS_RECEIVED_MESSAGE, 535, 535)] := by
  refine ⟨fun o s => rfl, ?_, by decide, ?_, ?_, ?_, ?_⟩
  · intro o d s h
    simp [hdcp_lib_wakeup, h]
  · decide
  · decide
  · decide
  · decide

set_option maxRecDepth 100000 in
/-- C29 (the code at the failing input): `hdcp_lib_timeout` stores a pending
message only of 9 bytes, but `hdcp_lib_txmtr_init`, `hdcp_lib_msg_recvd` and
`hdcp_lib_stream` accept in `env_long` a response that announces 200 bytes:
in the reachable session `sys_long`, and after the received-message step and
the stream query, `msglen` is 200 and 200 bytes have been copied to
`listener_buf`, whose capacity is MAX_TX_MESSAGE_SIZE = 129. -/
theorem pending_message_exceeds_listener_buf :
    (∀ (o : Env) (s : Sys),
      (hdcp_lib_timeout o s).handle.msglen = s.handle.msglen ∨
      (hdcp_lib_timeout o s).handle.msglen = LC_INIT_MESSAGE_SIZE) ∧
    Reachable env_long sys_long ∧
    MAX_TX_MESSAGE_SIZE < sys_long.handle.msglen ∧
    sys_long.handle.msglen = 200 ∧
    sys_long.handle.listener_buf.length = 200 ∧
    (hdcp_lib_msg_recvd env_long (with_recvd_msg [3] sys_long)).handle.msglen = 200 ∧
    (hdcp_lib_msg_recvd env_long
      (with_recvd_msg [3] sys_long)).handle.listener_buf.length = 200 ∧
    (hdcp_lib_stream env_long
      { sys_long with handle := { sys_long.handle with repeater_flag := true } }).handle.msglen
        = 200 ∧
    (hdcp_lib_stream env_long
      { sys_long with
        handle := { sys_long.handle with repeater_flag := true } }).handle.listener_buf.length
        = 200 := by
  refine ⟨?_, ?_, by decide, by decide, by decide, by decide, by decide, by decide, by decide⟩
  · intro o s
    unfold hdcp_lib_timeout hdcp_lib_timeout_error hdcp_lib_send_message qseecom_send_command
    dsimp only
    split_ifs with h1 h2 h3 h4 h5 h6 h7
    all_goals first
      | (left; rfl)
      | (left; simp only [wakeup_client_handle]; done)
      | (left; obtain ⟨st, q, off, wl, h⟩ := execute_clean_handle o
          { s with ncmd := s.ncmd + 1,
                   trace := s.trace ++ [Event.cmd
                     ⟨HDCP_TXMTR_SEND_MESSAGE_TIMEOUT, s.handle.tz_ctxhandle, 0, []⟩
                     s.handle.hdcp_off] }
         rw [h])
      | (right; simp only [wakeup_client_handle]; simp_all)
  · exact Reachable.wakeup _ _ (Reachable.register 0 true true)

/-! ## Tethered and threaded dispatch (C27) -/

@[simp] theorem set_tethered_handle (b : Bool) (s : Sys) :
    (set_tethered b s).handle = { s.handle with tethered := b } := rfl

@[simp] theorem set_tethered_trace (b : Bool) (s : Sys) :
    (set_tethered b s).trace = s.trace := rfl

@[simp] theorem set_tethered_ncmd (b : Bool) (s : Sys) :
    (set_tethered b s).ncmd = s.ncmd := rfl

@[simp] theorem set_tethered_nalloc (b : Bool) (s : Sys) :
    (set_tethered b s).nalloc = s.nalloc := rfl

@[simp] theorem set_tethered_nwake (b : Bool) (s : Sys) :
    (set_tethered b s).nwake = s.nwake := rfl

@[simp] theorem set_tethered_idem (b c : Bool) (s : Sys) :
    set_tethered b (set_tethered c s) = set_tethered b s := rfl

theorem update_exec_type_eq (b : Bool) (s : Sys) :
    hdcp_lib_update_exec_type b s = set_tethered b s := by
  unfold hdcp_lib_update_exec_type
  split_ifs with h
  · cases s with
    | mk handle trace ncmd nstart nshut nalloc nwake ntopo =>
      cases handle
      simp only [set_tethered] at h ⊢
      subst h
      rfl
  · rfl

theorem wakeup_client_set_tethered (o : Env) (d : hdmi_hdcp_wakeup_data) (b : Bool) (s : Sys) :
    hdcp_lib_wakeup_client o d (set_tethered b s)
      = set_tethered b (hdcp_lib_wakeup_client o d s) := by
  unfold hdcp_lib_wakeup_client; dsimp only [set_tethered]
  split_ifs <;> rfl

theorem send_message_set_tethered (o : Env) (b : Bool) (s : Sys) :
    hdcp_lib_send_message o (set_tethered b s)
      = set_tethered b (hdcp_lib_send_message o s) := by
  unfold hdcp_lib_send_message
  exact wakeup_client_set_tethered o _ b s

theorem library_load_set_tethered (o : Env) (b : Bool) (s : Sys) :
    hdcp_lib_library_load o (set_tethered b s)
      = ((hdcp_lib_library_load o s).1, set_tethered b (hdcp_lib_library_load o s).2) := by
  unfold hdcp_lib_library_load qseecom_start_app qseecom_send_command
  dsimp only [set_tethered]
  split_ifs <;> rfl

theorem library_unload_set_tethered (o : Env) (b : Bool) (s : Sys) :
    hdcp_lib_library_unload o (set_tethered b s)
      = ((hdcp_lib_library_unload o s).1, set_tethered b (hdcp_lib_library_unload o s).2) := by
  unfold hdcp_lib_library_unload qseecom_shutdown_app qseecom_send_command
  dsimp only [set_tethered]
  split_ifs <;> rfl

theorem txmtr_init_set_tethered (o : Env) (b : Bool) (s : Sys) :
    hdcp_lib_txmtr_init o (set_tethered b s)
      = ((hdcp_lib_txmtr_init o s).1, set_tethered b (hdcp_lib_txmtr_init o s).2) := by
  unfold hdcp_lib_txmtr_init qseecom_send_command
  dsimp only [set_tethered]
  split_ifs <;> rfl

theorem txmtr_deinit_set_tethered (o : Env) (b : Bool) (s : Sys) :
    hdcp_lib_txmtr_deinit o (set_tethered b s)
      = ((hdcp_lib_txmtr_deinit o s).1, set_tethered b (hdcp_lib_txmtr_deinit o s).2) := by
  unfold hdcp_lib_txmtr_deinit qseecom_send_command
  dsimp only [set_tethered]
  split_ifs <;> rfl

theorem clean_set_tethered (o : Env) (b : Bool) (s : Sys) :
    hdcp_lib_clean o (set_tethered b s) = set_tethered b (hdcp_lib_clean o s) := by
  unfold hdcp_lib_clean
  simp only [txmtr_deinit_set_tethered, library_unload_set_tethered,
    wakeup_client_set_tethered, set_tethered_handle]
  split_ifs <;> rfl

theorem stream_set_tethered (o : Env) (b : Bool) (s : Sys) :
    hdcp_lib_stream o (set_tethered b s) = set_tethered b (hdcp_lib_stream o s) := by
  unfold hdcp_lib_stream hdcp_lib_send_message hdcp_lib_wakeup_client qseecom_send_command
  dsimp only [set_tethered]
  split_ifs <;> rfl

@[simp] theorem library_load_work_list (o : Env) (s : Sys) :
    (hdcp_lib_library_load o s).2.handle.work_list = s.handle.work_list := by
  unfold hdcp_lib_library_load qseecom_start_app qseecom_send_command; dsimp only
  split_ifs <;> rfl

@[simp] theorem txmtr_init_work_list (o : Env) (s : Sys) :
    (hdcp_lib_txmtr_init o s).2.handle.work_list = s.handle.work_list := by
  unfold hdcp_lib_txmtr_init qseecom_send_command; dsimp only
  split_ifs <;> rfl

@[simp] theorem clean_work_list (o : Env) (s : Sys) :
    (hdcp_lib_clean o s).handle.work_list = s.handle.work_list := by
  obtain ⟨st, q, h⟩ := clean_handle o s
  rw [h]

@[simp] theorem stream_work_list (o : Env) (s : Sys) :
    (hdcp_lib_stream o s).handle.work_list = s.handle.work_list := by
  unfold hdcp_lib_stream hdcp_lib_send_message qseecom_send_command; dsimp only
  split_ifs <;> simp only [wakeup_client_handle]

@[simp] theorem send_message_work_list (o : Env) (s : Sys) :
    (hdcp_lib_send_message o s).handle.work_list = s.handle.work_list := by
  unfold hdcp_lib_send_message
  rw [wakeup_client_handle]

theorem worker_run_one (o : Env) (s : Sys) :
    kthread_worker_run o 1 s = kthread_worker_step o s := rfl

theorem worker_run_succ (o : Env) (n : Nat) (s : Sys) :
    kthread_worker_run o (n + 1) s = kthread_worker_run o n (kthread_worker_step o s) := rfl

/-- With nothing queued the worker has nothing to run. -/
theorem worker_run_idle (o : Env) (n : Nat) (s : Sys) (h : s.handle.work_list = []) :
    kthread_worker_run o n s = s := by
  induction n with
  | zero => rfl
  | succ n ih => rw [worker_run_succ, worker_step_nil o s h, ih]

/-- The one queued item `w` of a threaded session is taken off the list and
its function is run. -/
theorem worker_step_queued (o : Env) (w : kthread_work) (u : Sys)
    (h : u.handle.work_list = []) :
    kthread_worker_step o (queue_kthread_work w (set_tethered false u))
      = kthread_work_func o w (set_tethered false u) := by
  have hq : queue_kthread_work w (set_tethered false u) =
      { set_tethered false u with
        handle := { (set_tethered false u).handle with work_list := [w] } } := by
    unfold queue_kthread_work
    rw [if_neg]
    · simp [h]
    · simp [h]
  rw [hq, worker_step_cons o _ w [] rfl]
  congr 1
  cases u with
  | mk handle trace ncmd nstart nshut nalloc nwake ntopo =>
    cases handle
    simp only [set_tethered, kthread_worker_pop] at h ⊢
    subst h
    rfl

/-- A teardown dispatched on a session with nothing queued: run at once when
tethered, run by the next worker step when threaded, with the same result. -/
theorem execute_clean_equiv (o : Env) (u uF uT : Sys)
    (hF : uF = set_tethered false u) (hT : uT = set_tethered true u)
    (h : u.handle.work_list = []) :
    kthread_worker_run o 1 (HDCP_LIB_EXECUTE (hdcp_lib_clean o) wk_clean uF)
      = set_tethered false (HDCP_LIB_EXECUTE (hdcp_lib_clean o) wk_clean uT) ∧
    (kthread_worker_run o 1
      (HDCP_LIB_EXECUTE (hdcp_lib_clean o) wk_clean uF)).handle.work_list = [] := by
  subst hF hT
  have h1 : HDCP_LIB_EXECUTE (hdcp_lib_clean o) wk_clean (set_tethered false u)
      = queue_kthread_work wk_clean (set_tethered false u) := by
    simp [HDCP_LIB_EXECUTE]
  have h2 : HDCP_LIB_EXECUTE (hdcp_lib_clean o) wk_clean (set_tethered true u)
      = hdcp_lib_clean o (set_tethered true u) := by
    simp [HDCP_LIB_EXECUTE]
  rw [h1, h2, worker_run_one, worker_step_queued o _ _ h]
  show hdcp_lib_clean o _ = _ ∧ (hdcp_lib_clean o _).handle.work_list = []
  rw [clean_set_tethered, clean_set_tethered, set_tethered_idem]
  refine ⟨rfl, ?_⟩
  simp [h]

/-- A step that leaves nothing queued. -/
theorem idle_equiv (o : Env) (u uF uT : Sys)
    (hF : uF = set_tethered false u) (hT : uT = set_tethered true u)
    (h : u.handle.work_list = []) :
    kthread_worker_run o 1 uF = set_tethered false uT ∧
    (kthread_worker_run o 1 uF).handle.work_list = [] := by
  subst hF hT
  rw [worker_run_idle o 1 _ (by simpa using h)]
  exact ⟨rfl, by simpa using h⟩

theorem set_tethered_self (b : Bool) (s : Sys) (h : s.handle.tethered = b) :
    set_tethered b s = s := by
  cases s with
  | mk handle trace ncmd nstart nshut nalloc nwake ntopo =>
    cases handle
    simp only [set_tethered] at h ⊢
    subst h
    rfl

/-- A mode-independent step, applied to a threaded session and its tethered
twin. -/
theorem mode_independent_apply (o : Env) (f : Sys → Sys) (hf : mode_independent o f)
    (uF uT : Sys) (hF : uF = set_tethered false uT) (hT : uT.handle.tethered = true)
    (h : uT.handle.work_list = []) :
    kthread_worker_run o 1 (f uF) = set_tethered false (f uT) ∧
    (kthread_worker_run o 1 (f uF)).handle.work_list = [] := by
  subst hF
  have := hf uT h
  rwa [set_tethered_self true uT hT] at this

theorem mode_independent_id (o : Env) : mode_independent o (fun s => s) :=
  fun u h => idle_equiv o u _ _ rfl rfl h

theorem mode_independent_execute_clean (o : Env) :
    mode_independent o (HDCP_LIB_EXECUTE (hdcp_lib_clean o) wk_clean) :=
  fun u h => execute_clean_equiv o u _ _ rfl rfl h

theorem mode_independent_clean (o : Env) : mode_independent o (hdcp_lib_clean o) := by
  intro u h
  rw [clean_set_tethered, clean_set_tethered]
  exact idle_equiv o (hdcp_lib_clean o u) _ _ rfl rfl (by simp [h])

theorem mode_independent_stream (o : Env) : mode_independent o (hdcp_lib_stream o) := by
  intro u h
  rw [stream_set_tethered, stream_set_tethered]
  exact idle_equiv o (hdcp_lib_stream o u) _ _ rfl rfl (by simp [h])

theorem mode_independent_wakeup_client (o : Env) (d : hdmi_hdcp_wakeup_data) :
    mode_independent o (hdcp_lib_wakeup_client o d) := by
  intro u h
  rw [wakeup_client_set_tethered, wakeup_client_set_tethered]
  exact idle_equiv o (hdcp_lib_wakeup_client o d u) _ _ rfl rfl (by simp [h])

theorem mode_independent_send_message (o : Env) :
    mode_independent o (hdcp_lib_send_message o) := by
  intro u h
  rw [send_message_set_tethered, send_message_set_tethered]
  exact idle_equiv o (hdcp_lib_send_message o u) _ _ rfl rfl (by simp [h])

theorem mode_independent_init (o : Env) : mode_independent o (hdcp_lib_init o) := by
  intro u h
  unfold hdcp_lib_init
  dsimp only
  simp only [library_load_set_tethered, txmtr_init_set_tethered, send_message_set_tethered,
    set_tethered_handle]
  split_ifs
  · exact idle_equiv o u _ _ rfl rfl h
  · exact execute_clean_equiv o _ _ _ rfl rfl (by simp [h])
  · exact execute_clean_equiv o _ _ _ rfl rfl (by simp [h])
  · exact idle_equiv o _ _ _ rfl rfl (by simp [h])

theorem mode_independent_timeout_error (o : Env) :
    mode_independent o (hdcp_lib_timeout_error o) := by
  intro u h
  unfold hdcp_lib_timeout_error
  simp only [set_tethered_handle]
  split_ifs
  · exact execute_clean_equiv o u _ _ rfl rfl h
  · exact idle_equiv o u _ _ rfl rfl h

theorem mode_independent_timeout (o : Env) : mode_independent o (hdcp_lib_timeout o) := by
  intro u h
  unfold hdcp_lib_timeout qseecom_send_command
  dsimp only
  simp only [set_tethered_handle, set_tethered_ncmd, set_tethered_trace]
  split_ifs
  · exact idle_equiv o u _ _ rfl rfl h
  · exact idle_equiv o u _ _ rfl rfl h
  · exact mode_independent_apply o _ (mode_independent_timeout_error o) _ _ rfl rfl h
  · exact mode_independent_apply o _ (mode_independent_timeout_error o) _ _ rfl rfl h
  · exact mode_independent_apply o _ (mode_independent_send_message o) _ _ rfl rfl h
  · exact mode_independent_apply o _ (mode_independent_id o) _ _ rfl rfl h
  · exact mode_independent_apply o _ (mode_independent_id o) _ _ rfl rfl h

theorem mode_independent_msg_recvd_exit (o : Env) (rc : Int) (cd : hdmi_hdcp_wakeup_data) :
    mode_independent o (hdcp_lib_msg_recvd_exit o rc cd) := by
  intro u h
  unfold hdcp_lib_msg_recvd_exit
  dsimp only
  simp only [wakeup_client_set_tethered, set_tethered_handle]
  split_ifs
  · exact execute_clean_equiv o _ _ _ rfl rfl (by simp [h])
  · exact idle_equiv o _ _ _ rfl rfl (by simp [h])

theorem mode_independent_msg_recvd_rsp (o : Env) (cd : hdmi_hdcp_wakeup_data)
    (msg : List Nat) (rsp : TzRsp) :
    mode_independent o (hdcp_lib_msg_recvd_rsp o cd msg rsp) := by
  intro u h
  unfold hdcp_lib_msg_recvd_rsp
  dsimp only
  simp only [set_tethered_handle]
  split_ifs
  all_goals
    exact mode_independent_apply o _ (mode_independent_msg_recvd_exit o _ _) _ _ rfl rfl h

theorem mode_independent_msg_recvd (o : Env) : mode_independent o (hdcp_lib_msg_recvd o) := by
  intro u h
  unfold hdcp_lib_msg_recvd qseecom_send_command
  dsimp only
  simp only [set_tethered_handle, set_tethered_ncmd, set_tethered_trace, set_tethered_nalloc]
  split_ifs
  · exact idle_equiv o u _ _ rfl rfl h
  · exact idle_equiv o u _ _ rfl rfl h
  · exact mode_independent_apply o _ (mode_independent_msg_recvd_exit o _ _) _ _ rfl rfl h
  · exact mode_independent_apply o _ (mode_independent_msg_recvd_exit o _ _) _ _ rfl rfl h
  · split
    · exact mode_independent_apply o _ (mode_independent_id o) _ _ rfl rfl h
    · exact mode_independent_apply o _ (mode_independent_msg_recvd_rsp o _ _ _)
        _ _ rfl rfl h

theorem mode_independent_enable_encryption_error (o : Env) :
    mode_independent o (hdcp_lib_enable_encryption_error o) := by
  intro u h
  unfold hdcp_lib_enable_encryption_error
  simp only [set_tethered_handle]
  split_ifs
  · exact execute_clean_equiv o u _ _ rfl rfl h
  · exact idle_equiv o u _ _ rfl rfl h

theorem mode_independent_wakeup_client_twice (o : Env) (d1 d2 : hdmi_hdcp_wakeup_data) :
    mode_independent o
      (fun s => hdcp_lib_wakeup_client o d2 (hdcp_lib_wakeup_client o d1 s)) := by
  intro u h
  dsimp only
  rw [wakeup_client_set_tethered, wakeup_client_set_tethered, wakeup_client_set_tethered,
    wakeup_client_set_tethered]
  exact idle_equiv o _ _ _ rfl rfl (by simp [h])

/-- The error label of `hdcp_lib_enable_encryption` followed by the teardown
test of `hdcp_lib_msg_sent`: the teardown is dispatched once. -/
theorem enable_encryption_error_twice (o : Env) (t : Sys) :
    (if (hdcp_lib_enable_encryption_error o t).handle.hdcp_off = false then
        HDCP_LIB_EXECUTE (hdcp_lib_clean o) wk_clean (hdcp_lib_enable_encryption_error o t)
      else hdcp_lib_enable_encryption_error o t) = hdcp_lib_enable_encryption_error o t := by
  unfold hdcp_lib_enable_encryption_error
  by_cases hoff : t.handle.hdcp_off = false
  · rw [if_pos hoff]
    exact execute_clean_twice o t hoff
  · rw [if_neg hoff, if_neg hoff]

/-- The message-sent step for SKE_Send_Eks when no topology wait is queued. -/
theorem msg_sent_eks_shape (o : Env) (s : Sys)
    (h11 : s.handle.last_msg_sent = SKE_SEND_EKS_MESSAGE_ID)
    (hx : ¬ (s.handle.repeater_flag = true ∧ s.handle.hdcp_off = false)) :
    hdcp_lib_msg_sent o s =
      if s.handle.qseecom_handle = false then hdcp_lib_enable_encryption_error o s
      else if (o.qseecom_send_command s.ncmd (set_hw_key_req s)).rc < 0 ∨
          (o.qseecom_send_command s.ncmd (set_hw_key_req s)).status < 0 then
        hdcp_lib_enable_encryption_error o (qseecom_send_command o (set_hw_key_req s) s).2
      else
        hdcp_lib_wakeup_client o
          { cmd := HDMI_HDCP_WKUP_CMD_LINK_POLL, context := s.handle.client_ctx,
            send_msg_buf := [], send_msg_len := 0, timeout := 0 }
          (hdcp_lib_wakeup_client o
            { cmd := HDMI_HDCP_WKUP_CMD_STATUS_SUCCESS, context := s.handle.client_ctx,
              send_msg_buf := [], send_msg_len := 0, timeout := 0 }
            { (qseecom_send_command o (set_hw_key_req s) s).2 with
              handle := { (qseecom_send_command o (set_hw_key_req s) s).2.handle with
                hdcp_state := set_flag
                  (qseecom_send_command o (set_hw_key_req s) s).2.handle.hdcp_state
                  HDCP_STATE_AUTHENTICATED } }) := by
  have hs1 : (if s.handle.repeater_flag = true then
        if s.handle.hdcp_off = false then queue_kthread_work wk_topology s else s
      else s) = s := by
    split_ifs with a b
    · exact absurd ⟨a, b⟩ hx
    · rfl
    · rfl
  have hne : ¬ ((-EINVAL : Int) = 0) := by decide
  have hreq : (⟨HDCP_TXMTR_SET_HW_KEY, s.handle.tz_ctxhandle, 0, []⟩ : TzReq)
      = set_hw_key_req s := rfl
  unfold hdcp_lib_msg_sent; dsimp only
  rw [if_pos h11, hs1]
  by_cases hq : s.handle.qseecom_handle = false
  · have he : hdcp_lib_enable_encryption o s
        = (-EINVAL, hdcp_lib_enable_encryption_error o s) := by
      unfold hdcp_lib_enable_encryption; dsimp only
      rw [if_pos hq]
    rw [he, if_pos hq]
    dsimp only
    rw [if_neg hne, wakeup_client_invalid _ _ _ rfl]
    exact enable_encryption_error_twice o s
  · rw [if_neg hq]
    by_cases hr : (o.qseecom_send_command s.ncmd (set_hw_key_req s)).rc < 0 ∨
        (o.qseecom_send_command s.ncmd (set_hw_key_req s)).status < 0
    · have he : hdcp_lib_enable_encryption o s
          = (-EINVAL, hdcp_lib_enable_encryption_error o
              (qseecom_send_command o (set_hw_key_req s) s).2) := by
        have hr2 : (qseecom_send_command o (set_hw_key_req s) s).1.rc < 0 ∨
            (qseecom_send_command o (set_hw_key_req s) s).1.status < 0 := hr
        unfold hdcp_lib_enable_encryption; dsimp only
        rw [if_neg hq, hreq, if_pos hr2]
      rw [he, if_pos hr]
      dsimp only
      rw [if_neg hne, wakeup_client_invalid _ _ _ rfl]
      exact enable_encryption_error_twice o _
    · have he : hdcp_lib_enable_encryption o s
          = (0, { (qseecom_send_command o (set_hw_key_req s) s).2 with
              handle := { (qseecom_send_command o (set_hw_key_req s) s).2.handle with
                hdcp_state := set_flag
                  (qseecom_send_command o (set_hw_key_req s) s).2.handle.hdcp_state
                  HDCP_STATE_AUTHENTICATED } }) := by
        have hr2 : ¬ ((qseecom_send_command o (set_hw_key_req s) s).1.rc < 0 ∨
            (qseecom_send_command o (set_hw_key_req s) s).1.status < 0) := hr
        unfold hdcp_lib_enable_encryption; dsimp only
        rw [if_neg hq, hreq, if_neg hr2]
      rw [he, if_neg hr]
      dsimp only
      rw [if_pos rfl]

theorem stream_clear_update_stream (o : Env) (s : Sys) :
    hdcp_lib_stream o { s with handle := { s.handle with update_stream := false } }
      = { hdcp_lib_stream o s with
          handle := { (hdcp_lib_stream o s).handle with update_stream := false } } := by
  unfold hdcp_lib_stream hdcp_lib_send_message hdcp_lib_wakeup_client qseecom_send_command
  dsimp only
  split_ifs <;> rfl

@[simp] theorem set_hw_key_req_set_tethered (b : Bool) (s : Sys) :
    set_hw_key_req (set_tethered b s) = set_hw_key_req s := rfl

theorem send_command_set_tethered (o : Env) (req : TzReq) (b : Bool) (s : Sys) :
    qseecom_send_command o req (set_tethered b s)
      = ((qseecom_send_command o req s).1, set_tethered b (qseecom_send_command o req s).2) :=
  rfl

theorem msg_sent_ack_pending (o : Env) (s : Sys)
    (h15 : s.handle.last_msg_sent = REPEATER_AUTH_SEND_ACK_MESSAGE_ID)
    (hu : s.handle.update_stream = true) :
    hdcp_lib_msg_sent o s =
      { HDCP_LIB_EXECUTE (hdcp_lib_stream o) wk_stream s with
        handle := { (HDCP_LIB_EXECUTE (hdcp_lib_stream o) wk_stream s).handle with
          update_stream := false } } := by
  have h11 : ¬ s.handle.last_msg_sent = SKE_SEND_EKS_MESSAGE_ID := by rw [h15]; decide
  unfold hdcp_lib_msg_sent; dsimp only
  rw [if_neg h11, if_pos h15, if_pos hu]
  exact wakeup_client_invalid o _ _ rfl

theorem msg_sent_ack_idle (o : Env) (s : Sys)
    (h15 : s.handle.last_msg_sent = REPEATER_AUTH_SEND_ACK_MESSAGE_ID)
    (hu : ¬ s.handle.update_stream = true) :
    hdcp_lib_msg_sent o s =
      hdcp_lib_wakeup_client o
        { cmd := HDMI_HDCP_WKUP_CMD_LINK_POLL, context := s.handle.client_ctx,
          send_msg_buf := [], send_msg_len := 0, timeout := 0 } s := by
  have h11 : ¬ s.handle.last_msg_sent = SKE_SEND_EKS_MESSAGE_ID := by rw [h15]; decide
  unfold hdcp_lib_msg_sent; dsimp only
  rw [if_neg h11, if_pos h15, if_neg hu]

theorem msg_sent_other (o : Env) (s : Sys)
    (h11 : ¬ s.handle.last_msg_sent = SKE_SEND_EKS_MESSAGE_ID)
    (h15 : ¬ s.handle.last_msg_sent = REPEATER_AUTH_SEND_ACK_MESSAGE_ID) :
    hdcp_lib_msg_sent o s =
      hdcp_lib_wakeup_client o
        { cmd := HDMI_HDCP_WKUP_CMD_RECV_MESSAGE, context := s.handle.client_ctx,
          send_msg_buf := [], send_msg_len := 0, timeout := s.handle.timeout_left } s := by
  unfold hdcp_lib_msg_sent; dsimp only
  rw [if_neg h11, if_neg h15]

/-- The message-sent step gives the same result in both modes, unless it
queues the topology wait. -/
theorem msg_sent_equiv (o : Env) (u : Sys) (h : u.handle.work_list = [])
    (hx : ¬ (u.handle.last_msg_sent = SKE_SEND_EKS_MESSAGE_ID ∧
      u.handle.repeater_flag = true ∧ u.handle.hdcp_off = false)) :
    kthread_worker_run o 1 (hdcp_lib_msg_sent o (set_tethered false u))
      = set_tethered false (hdcp_lib_msg_sent o (set_tethered true u)) ∧
    (kthread_worker_run o 1
      (hdcp_lib_msg_sent o (set_tethered false u))).handle.work_list = [] := by
  by_cases h11 : u.handle.last_msg_sent = SKE_SEND_EKS_MESSAGE_ID
  · have hx2 : ¬ (u.handle.repeater_flag = true ∧ u.handle.hdcp_off = false) :=
      fun h2 => hx ⟨h11, h2⟩
    rw [msg_sent_eks_shape o (set_tethered false u) h11 hx2,
      msg_sent_eks_shape o (set_tethered true u) h11 hx2]
    simp only [set_tethered_handle, set_tethered_ncmd, set_hw_key_req_set_tethered,
      send_command_set_tethered]
    split_ifs
    · exact mode_independent_apply o _ (mode_independent_enable_encryption_error o)
        _ _ rfl rfl h
    · exact mode_independent_apply o _ (mode_independent_enable_encryption_error o)
        _ _ rfl rfl h
    · exact mode_independent_apply o _ (mode_independent_wakeup_client_twice o _ _)
        _ _ rfl rfl h
  · by_cases h15 : u.handle.last_msg_sent = REPEATER_AUTH_SEND_ACK_MESSAGE_ID
    · by_cases hu : u.handle.update_stream = true
      · rw [msg_sent_ack_pending o (set_tethered false u) h15 hu,
          msg_sent_ack_pending o (set_tethered true u) h15 hu]
        have hF : HDCP_LIB_EXECUTE (hdcp_lib_stream o) wk_stream (set_tethered false u)
            = { set_tethered false u with
                handle := { (set_tethered false u).handle with work_list := [wk_stream] } } := by
          simp [HDCP_LIB_EXECUTE, queue_kthread_work, h]
        have hT : HDCP_LIB_EXECUTE (hdcp_lib_stream o) wk_stream (set_tethered true u)
            = set_tethered true (hdcp_lib_stream o u) := by
          simp [HDCP_LIB_EXECUTE, stream_set_tethered]
        have hpop : kthread_worker_pop
            { set_tethered false u with
              handle := { (set_tethered false u).handle with
                work_list := [wk_stream], update_stream := false } }
            = set_tethered false
                { u with handle := { u.handle with update_stream := false } } := by
          cases u with
          | mk handle trace ncmd nstart nshut nalloc nwake ntopo =>
            cases handle
            simp only [set_tethered, kthread_worker_pop] at h ⊢
            subst h
            rfl
        rw [hF, hT, worker_run_one, worker_step_cons o _ wk_stream [] rfl]
        show hdcp_lib_stream o (kthread_worker_pop _) = _ ∧
          (hdcp_lib_stream o (kthread_worker_pop _)).handle.work_list = []
        rw [hpop, stream_set_tethered, stream_clear_update_stream]
        refine ⟨rfl, ?_⟩
        simp [h]
      · rw [msg_sent_ack_idle o (set_tethered false u) h15 hu,
          msg_sent_ack_idle o (set_tethered true u) h15 hu]
        exact mode_independent_apply o _ (mode_independent_wakeup_client o _) _ _ rfl rfl h
    · rw [msg_sent_other o (set_tethered false u) h11 h15,
        msg_sent_other o (set_tethered true u) h11 h15]
      exact mode_independent_apply o _ (mode_independent_wakeup_client o _) _ _ rfl rfl h

/-- A step dispatched on a session with nothing queued: run at once when
tethered; when threaded, queued without any effect on the log, run by the
first worker step, and its teardown (if it asks for one) by the second. -/
theorem dispatch_equiv (o : Env) (f : Sys → Sys) (w : kthread_work) (uF uT : Sys)
    (hF : uF = set_tethered false uT) (hT : uT.handle.tethered = true)
    (h : uT.handle.work_list = [])
    (hP : kthread_worker_run o 1 (f uF) = set_tethered false (f uT) ∧
      (kthread_worker_run o 1 (f uF)).handle.work_list = [])
    (hw : kthread_work_func o w uF = f uF) :
    kthread_worker_run o 2 (HDCP_LIB_EXECUTE f w uF)
      = set_tethered false (HDCP_LIB_EXECUTE f w uT) ∧
    (kthread_worker_run o 2 (HDCP_LIB_EXECUTE f w uF)).handle.work_list = [] ∧
    (HDCP_LIB_EXECUTE f w uF).trace = uT.trace := by
  subst hF
  have h1 : HDCP_LIB_EXECUTE f w (set_tethered false uT)
      = queue_kthread_work w (set_tethered false uT) := by
    simp [HDCP_LIB_EXECUTE]
  have h2 : HDCP_LIB_EXECUTE f w uT = f uT := by
    simp [HDCP_LIB_EXECUTE, hT]
  have h3 : (queue_kthread_work w (set_tethered false uT)).trace = uT.trace := by
    obtain ⟨l, hl⟩ := queue_kthread_work_eq w (set_tethered false uT)
    rw [hl]; rfl
  rw [h1, h2, worker_run_succ, worker_step_queued o w uT h, hw]
  exact ⟨hP.1, hP.2, h3⟩

theorem wakeup_switch_start (o : Env) (s : Sys)
    (h : s.handle.wakeup_cmd = HDCP_LIB_WKUP_CMD_START) :
    hdcp_lib_wakeup_switch o s =
      HDCP_LIB_EXECUTE (hdcp_lib_init o) wk_init
        { s with handle := { s.handle with
          no_stored_km_flag := false,
          repeater_flag := false,
          update_stream := false,
          last_msg_sent := 0,
          hdcp_timeout := 0,
          timeout_left := 0,
          hdcp_off := false,
          hdcp_state := HDCP_STATE_INIT } } := by
  unfold hdcp_lib_wakeup_switch; rw [h]

theorem wakeup_switch_stop (o : Env) (s : Sys)
    (h : s.handle.wakeup_cmd = HDCP_LIB_WKUP_CMD_STOP) :
    hdcp_lib_wakeup_switch o s =
      HDCP_LIB_EXECUTE (hdcp_lib_clean o) wk_clean
        { s with handle := { s.handle with hdcp_off := true } } := by
  unfold hdcp_lib_wakeup_switch; rw [h]

theorem wakeup_switch_send_success (o : Env) (s : Sys)
    (h : s.handle.wakeup_cmd = HDCP_LIB_WKUP_CMD_MSG_SEND_SUCCESS) :
    hdcp_lib_wakeup_switch o s =
      HDCP_LIB_EXECUTE (hdcp_lib_msg_sent o) wk_msg_sent
        { s with handle := { s.handle with
          last_msg_sent := s.handle.listener_buf.getD 0 0 } } := by
  unfold hdcp_lib_wakeup_switch; rw [h]

theorem wakeup_switch_send_failed (o : Env) (s : Sys)
    (h : s.handle.wakeup_cmd = HDCP_LIB_WKUP_CMD_MSG_SEND_FAILED) :
    hdcp_lib_wakeup_switch o s = HDCP_LIB_EXECUTE (hdcp_lib_clean o) wk_clean s := by
  unfold hdcp_lib_wakeup_switch; rw [h]

theorem wakeup_switch_recv_failed (o : Env) (s : Sys)
    (h : s.handle.wakeup_cmd = HDCP_LIB_WKUP_CMD_MSG_RECV_FAILED) :
    hdcp_lib_wakeup_switch o s = HDCP_LIB_EXECUTE (hdcp_lib_clean o) wk_clean s := by
  unfold hdcp_lib_wakeup_switch; rw [h]

theorem wakeup_switch_recv_success (o : Env) (s : Sys)
    (h : s.handle.wakeup_cmd = HDCP_LIB_WKUP_CMD_MSG_RECV_SUCCESS) :
    hdcp_lib_wakeup_switch o s = HDCP_LIB_EXECUTE (hdcp_lib_msg_recvd o) wk_msg_recvd s := by
  unfold hdcp_lib_wakeup_switch; rw [h]

theorem wakeup_switch_recv_timeout (o : Env) (s : Sys)
    (h : s.handle.wakeup_cmd = HDCP_LIB_WKUP_CMD_MSG_RECV_TIMEOUT) :
    hdcp_lib_wakeup_switch o s = HDCP_LIB_EXECUTE (hdcp_lib_timeout o) wk_timeout s := by
  unfold hdcp_lib_wakeup_switch; rw [h]

theorem wakeup_switch_query_stream (o : Env) (s : Sys)
    (h : s.handle.wakeup_cmd = HDCP_LIB_WKUP_CMD_QUERY_STREAM_TYPE) :
    hdcp_lib_wakeup_switch o s = HDCP_LIB_EXECUTE (hdcp_lib_stream o) wk_stream s := by
  unfold hdcp_lib_wakeup_switch; rw [h]

theorem wakeup_switch_invalid (o : Env) (s : Sys)
    (h : s.handle.wakeup_cmd = HDCP_LIB_WKUP_CMD_INVALID) :
    hdcp_lib_wakeup_switch o s = s := by
  unfold hdcp_lib_wakeup_switch; rw [h]

theorem msg_sent_equiv_apply (o : Env) (uF uT : Sys)
    (hF : uF = set_tethered false uT) (hT : uT.handle.tethered = true)
    (h : uT.handle.work_list = [])
    (hx : ¬ (uT.handle.last_msg_sent = SKE_SEND_EKS_MESSAGE_ID ∧
      uT.handle.repeater_flag = true ∧ uT.handle.hdcp_off = false)) :
    kthread_worker_run o 1 (hdcp_lib_msg_sent o uF)
      = set_tethered false (hdcp_lib_msg_sent o uT) ∧
    (kthread_worker_run o 1 (hdcp_lib_msg_sent o uF)).handle.work_list = [] := by
  subst hF
  have := msg_sent_equiv o uT h hx
  rwa [set_tethered_self true uT hT] at this

/-- The switch of `hdcp_lib_wakeup` on a session with nothing queued, in both
modes. -/
theorem wakeup_switch_equiv (o : Env) (x : Sys) (hT : x.handle.tethered = true)
    (h : x.handle.work_list = [])
    (hx : ¬ (x.handle.wakeup_cmd = HDCP_LIB_WKUP_CMD_MSG_SEND_SUCCESS ∧
      x.handle.listener_buf.getD 0 0 = SKE_SEND_EKS_MESSAGE_ID ∧
      x.handle.repeater_flag = true ∧ x.handle.hdcp_off = false)) :
    kthread_worker_run o 2 (hdcp_lib_wakeup_switch o (set_tethered false x))
      = set_tethered false (hdcp_lib_wakeup_switch o x) ∧
    (kthread_worker_run o 2
      (hdcp_lib_wakeup_switch o (set_tethered false x))).handle.work_list = [] ∧
    (hdcp_lib_wakeup_switch o (set_tethered false x)).trace = x.trace := by
  cases hc : x.handle.wakeup_cmd with
  | HDCP_LIB_WKUP_CMD_INVALID =>
    rw [wakeup_switch_invalid o _ hc, wakeup_switch_invalid o (set_tethered false x) hc,
      worker_run_idle o 2 _ (by simpa using h)]
    exact ⟨rfl, by simpa using h, rfl⟩
  | HDCP_LIB_WKUP_CMD_START =>
    rw [wakeup_switch_start o _ hc, wakeup_switch_start o (set_tethered false x) hc]
    exact dispatch_equiv o _ _ _ _ rfl hT h
      (mode_independent_apply o _ (mode_independent_init o) _ _ rfl hT h) rfl
  | HDCP_LIB_WKUP_CMD_STOP =>
    rw [wakeup_switch_stop o _ hc, wakeup_switch_stop o (set_tethered false x) hc]
    exact dispatch_equiv o _ _ _ _ rfl hT h
      (mode_independent_apply o _ (mode_independent_clean o) _ _ rfl hT h) rfl
  | HDCP_LIB_WKUP_CMD_MSG_SEND_SUCCESS =>
    rw [wakeup_switch_send_success o _ hc,
      wakeup_switch_send_success o (set_tethered false x) hc]
    have hx2 : ¬ (x.handle.listener_buf.getD 0 0 = SKE_SEND_EKS_MESSAGE_ID ∧
        x.handle.repeater_flag = true ∧ x.handle.hdcp_off = false) :=
      fun h2 => hx ⟨hc, h2⟩
    refine dispatch_equiv o _ _ _ _ rfl hT h
      (msg_sent_equiv_apply o _ _ rfl hT h hx2) ?_
    show hdcp_lib_msg_sent_work o _ = _
    unfold hdcp_lib_msg_sent_work
    rw [if_neg]
    intro hne
    exact hne hc
  | HDCP_LIB_WKUP_CMD_MSG_SEND_FAILED =>
    rw [wakeup_switch_send_failed o _ hc,
      wakeup_switch_send_failed o (set_tethered false x) hc]
    exact dispatch_equiv o _ _ _ _ rfl hT h
      (mode_independent_apply o _ (mode_independent_clean o) _ _ rfl hT h) rfl
  | HDCP_LIB_WKUP_CMD_MSG_RECV_SUCCESS =>
    rw [wakeup_switch_recv_success o _ hc,
      wakeup_switch_recv_success o (set_tethered false x) hc]
    exact dispatch_equiv o _ _ _ _ rfl hT h
      (mode_independent_apply o _ (mode_independent_msg_recvd o) _ _ rfl hT h) rfl
  | HDCP_LIB_WKUP_CMD_MSG_RECV_FAILED =>
    rw [wakeup_switch_recv_failed o _ hc,
      wakeup_switch_recv_failed o (set_tethered false x) hc]
    exact dispatch_equiv o _ _ _ _ rfl hT h
      (mode_independent_apply o _ (mode_independent_clean o) _ _ rfl hT h) rfl
  | HDCP_LIB_WKUP_CMD_MSG_RECV_TIMEOUT =>
    rw [wakeup_switch_recv_timeout o _ hc,
      wakeup_switch_recv_timeout o (set_tethered false x) hc]
    exact dispatch_equiv o _ _ _ _ rfl hT h
      (mode_independent_apply o _ (mode_independent_timeout o) _ _ rfl hT h) rfl
  | HDCP_LIB_WKUP_CMD_QUERY_STREAM_TYPE =>
    rw [wakeup_switch_query_stream o _ hc,
      wakeup_switch_query_stream o (set_tethered false x) hc]
    exact dispatch_equiv o _ _ _ _ rfl hT h
      (mode_independent_apply o _ (mode_independent_stream o) _ _ rfl hT h) rfl

theorem check_valid_state_idle (d : hdcp_lib_wakeup_data) (s : Sys)
    (h : s.handle.work_list = []) :
    hdcp_lib_check_valid_state (hdcp_lib_wakeup_record d s) = 0 := by
  unfold hdcp_lib_check_valid_state
  have hw : (hdcp_lib_wakeup_record d s).handle.work_list = [] := h
  split_ifs <;> first | rfl | (exfalso; simp_all)

/-- A wakeup call that dispatches nothing, on a session with nothing queued. -/
theorem wakeup_rejected_equiv (o : Env) (rc : Int) (y s : Sys) (h : y.handle.work_list = [])
    (ht : y.trace = s.trace) :
    (rc, set_tethered false y).1 = (rc, set_tethered true y).1 ∧
    (rc, set_tethered false y).2.trace = s.trace ∧
    kthread_worker_run o 2 (rc, set_tethered false y).2
      = set_tethered false (rc, set_tethered true y).2 ∧
    (kthread_worker_run o 2 (rc, set_tethered false y).2).handle.work_list = [] := by
  refine ⟨rfl, ht, ?_, ?_⟩
  · show kthread_worker_run o 2 (set_tethered false y) = _
    rw [worker_run_idle o 2 _ (by simpa using h)]
    rfl
  · show (kthread_worker_run o 2 (set_tethered false y)).handle.work_list = []
    rw [worker_run_idle o 2 _ (by simpa using h)]
    simpa using h

/-- A wakeup call that reaches the switch, on a session with nothing queued. -/
theorem wakeup_dispatched_equiv (o : Env) (x s : Sys) (h : x.handle.work_list = [])
    (ht : x.trace = s.trace)
    (hx : ¬ (x.handle.wakeup_cmd = HDCP_LIB_WKUP_CMD_MSG_SEND_SUCCESS ∧
      x.handle.listener_buf.getD 0 0 = SKE_SEND_EKS_MESSAGE_ID ∧
      x.handle.repeater_flag = true ∧ x.handle.hdcp_off = false)) :
    ((0 : Int), hdcp_lib_wakeup_switch o (set_tethered false x)).1
      = ((0 : Int), hdcp_lib_wakeup_switch o (set_tethered true x)).1 ∧
    ((0 : Int), hdcp_lib_wakeup_switch o (set_tethered false x)).2.trace = s.trace ∧
    kthread_worker_run o 2 ((0 : Int), hdcp_lib_wakeup_switch o (set_tethered false x)).2
      = set_tethered false
          ((0 : Int), hdcp_lib_wakeup_switch o (set_tethered true x)).2 ∧
    (kthread_worker_run o 2
      ((0 : Int), hdcp_lib_wakeup_switch o (set_tethered false x)).2).handle.work_list
        = [] := by
  obtain ⟨h1, h2, h3⟩ := wakeup_switch_equiv o (set_tethered true x) rfl h hx
  exact ⟨rfl, h3.trans ht, h1, h2⟩

/-- One wakeup call on a session with nothing queued, in both modes. -/
theorem wakeup_equiv (o : Env) (d : hdcp_lib_wakeup_data) (s : Sys)
    (hq : s.handle.work_list = [])
    (hx : ¬ (d.cmd = HDCP_LIB_WKUP_CMD_MSG_SEND_SUCCESS ∧
      s.handle.listener_buf.getD 0 0 = SKE_SEND_EKS_MESSAGE_ID ∧
      s.handle.repeater_flag = true ∧ s.handle.hdcp_off = false)) :
    (hdcp_lib_wakeup o (some d) (set_tethered false s)).1
      = (hdcp_lib_wakeup o (some d) (set_tethered true s)).1 ∧
    (hdcp_lib_wakeup o (some d) (set_tethered false s)).2.trace = s.trace ∧
    kthread_worker_run o 2 (hdcp_lib_wakeup o (some d) (set_tethered false s)).2
      = set_tethered false (hdcp_lib_wakeup o (some d) (set_tethered true s)).2 ∧
    (kthread_worker_run o 2
      (hdcp_lib_wakeup o (some d) (set_tethered false s)).2).handle.work_list = [] := by
  have hv : ∀ b, ¬ hdcp_lib_check_valid_state
      (hdcp_lib_wakeup_record d (set_tethered b s)) ≠ 0 := by
    intro b hne
    exact hne (check_valid_state_idle d _ (by simpa using hq))
  unfold hdcp_lib_wakeup
  dsimp only
  by_cases hctx : d.context = false
  · rw [if_pos hctx, if_pos hctx]
    exact wakeup_rejected_equiv o _ s s hq rfl
  · rw [if_neg hctx, if_neg hctx, if_neg (hv false), if_neg (hv true)]
    by_cases hlen : d.recvd_msg_len ≠ 0
    · rw [if_pos hlen, if_pos hlen]
      by_cases hk : o.kzalloc s.nalloc = false
      · have hkF : o.kzalloc (hdcp_lib_wakeup_record d (set_tethered false s)).nalloc
            = false := hk
        have hkT : o.kzalloc (hdcp_lib_wakeup_record d (set_tethered true s)).nalloc
            = false := hk
        rw [if_pos hkF, if_pos hkT]
        exact wakeup_rejected_equiv o _
          { hdcp_lib_wakeup_record d s with
            nalloc := s.nalloc + 1,
            handle := { (hdcp_lib_wakeup_record d s).handle with
              last_msg_recvd_len := d.recvd_msg_len,
              last_msg_recvd_buf := none } } s hq rfl
      · have hkF : ¬ o.kzalloc (hdcp_lib_wakeup_record d (set_tethered false s)).nalloc
            = false := hk
        have hkT : ¬ o.kzalloc (hdcp_lib_wakeup_record d (set_tethered true s)).nalloc
            = false := hk
        rw [if_neg hkF, if_neg hkT]
        exact wakeup_dispatched_equiv o
          { hdcp_lib_wakeup_record d s with
            nalloc := s.nalloc + 1,
            handle := { (hdcp_lib_wakeup_record d s).handle with
              last_msg_recvd_len := d.recvd_msg_len,
              last_msg_recvd_buf := some (memcpy d.recvd_msg_buf d.recvd_msg_len),
              topo_wait := true } } s hq rfl hx
    · rw [if_neg hlen, if_neg hlen]
      exact wakeup_dispatched_equiv o
        { hdcp_lib_wakeup_record d s with
          handle := { (hdcp_lib_wakeup_record d s).handle with topo_wait := true } } s hq rfl hx

/-- C27: for a session with nothing queued and one wakeup call that does not
make the message-sent step queue the topology wait (a MSG_SEND_SUCCESS for
SKE_Send_Eks on an active repeater session), the two execution modes agree.
The threaded call returns the same code as the tethered one and logs nothing
before it returns; after it, two worker steps (the dispatched step and the
teardown it may have queued), or any larger number, end in the session the
tethered call ends in, with the same log of secure-channel commands and
notifications and the same counters, the execution mode itself apart, and
leave nothing queued. -/
theorem tethered_threaded_equivalent (o : Env) (d : hdcp_lib_wakeup_data) (s : Sys)
    (hq : s.handle.work_list = [])
    (hx : ¬ (d.cmd = HDCP_LIB_WKUP_CMD_MSG_SEND_SUCCESS ∧
      s.handle.listener_buf.getD 0 0 = SKE_SEND_EKS_MESSAGE_ID ∧
      s.handle.repeater_flag = true ∧ s.handle.hdcp_off = false)) :
    (hdcp_lib_wakeup o (some d) (hdcp_lib_update_exec_type false s)).1
      = (hdcp_lib_wakeup o (some d) (hdcp_lib_update_exec_type true s)).1 ∧
    (hdcp_lib_wakeup o (some d) (hdcp_lib_update_exec_type false s)).2.trace = s.trace ∧
    (∀ n, kthread_worker_run o (n + 2)
        (hdcp_lib_wakeup o (some d) (hdcp_lib_update_exec_type false s)).2
      = hdcp_lib_update_exec_type false
          (hdcp_lib_wakeup o (some d) (hdcp_lib_update_exec_type true s)).2) ∧
    (kthread_worker_run o 2
      (hdcp_lib_wakeup o (some d) (hdcp_lib_update_exec_type false s)).2).handle.work_list
        = [] := by
  simp only [update_exec_type_eq]
  obtain ⟨h1, h2, h3, h4⟩ := wakeup_equiv o d s hq hx
  refine ⟨h1, h2, ?_, h4⟩
  intro n
  show kthread_worker_run o n (kthread_worker_run o 2 _) = _
  rw [worker_run_idle o n _ h4]
  exact h3

/-- A wakeup(STOP) on the active session `sys_session` in `env_session`: in
both modes the log gains the commands HDCP_TXMTR_DEINIT and HDCP_LIB_DEINIT,
the release of the application, and no notification. -/
theorem tethered_threaded_equivalent_witness :
    (kthread_worker_run env_session 2
      (hdcp_lib_wakeup env_session (some (wakeup_data HDCP_LIB_WKUP_CMD_STOP))
        (hdcp_lib_update_exec_type false sys_session)).2).trace
      = (hdcp_lib_wakeup env_session (some (wakeup_data HDCP_LIB_WKUP_CMD_STOP))
          (hdcp_lib_update_exec_type true sys_session)).2.trace ∧
    (commands (new_events sys_session
      (hdcp_lib_wakeup env_session (some (wakeup_data HDCP_LIB_WKUP_CMD_STOP))
        (hdcp_lib_update_exec_type true sys_session)).2)).map (fun c => c.1.commandid)
      = [HDCP_TXMTR_DEINIT, HDCP_LIB_DEINIT] :=
  ⟨(congrArg Sys.trace
    ((tethered_threaded_equivalent env_session (wakeup_data HDCP_LIB_WKUP_CMD_STOP)
      sys_session (by decide) (by decide)).2.2.1 0)).trans
      (by rw [update_exec_type_eq]; rfl),
   by decide⟩

end Hdcp
